import Mathlib

/-!
# Invoice issuance pipeline of the DGI billing service

A shallow embedding of `internal/services/invoice_service.go`,
`internal/database/invoice_repository.go`, `internal/database/emitter_repository.go`,
`internal/database/customer_repository.go`, `internal/database/product_repository.go`
and `internal/database/connection.go`; of the artifact path
(`internal/services/document_generator.go`, `internal/services/hybrid_storage_service.go`,
`internal/database/invoice_files_repository.go`, `internal/database/supabase.go`); and of
the series operations of `internal/services/emitter_service.go` and the handlers
`CreateInvoice`, `CreateSeries` and `GetSeries` of `internal/api/api.go`.

Conventions of the embedding.

* Go `float64` amounts are IEEE 754 binary64 values (`Money := Float64`): every `+`, `-`
  and `*` of the source is the exact operation followed by rounding to nearest, ties to
  even, with overflow to an infinity and NaN for the invalid operations; each operation
  is rounded on its own, as on amd64 (a compiler that fuses `x*y + z` into one rounding is
  outside the embedding).  A decimal constant such as `0.07` is the binary64 value
  nearest to it.
* `uuid.UUID` values are natural numbers; `uuid.New()`, `uuid.Parse`, the textual
  rendering of an id and `time.Now()` are supplied by the environment `Env`.
* A Go `error` result is `Option Error`, a `(value, error)` result is `Except Error value`.
* Go `int` arithmetic that can overflow is integer arithmetic wrapped to 64 bits
  (`wrapInt`); a run-time panic is the result `none`.
* The relational store is the record `Store` of its tables (lists of rows, in insertion
  order).  Every database round trip of the source is a `DBCall`; the environment decides
  which round trips fail (`Env.fails`), and the store keeps a ghost `log` of the round
  trips that were issued.
-/

set_option autoImplicit false

namespace Billing

/-! ## `float64`

The amounts of the source are Go `float64` values: IEEE 754 binary64, every operation
rounded to nearest, ties to even.  A finite value is its sign and its magnitude, an exact
rational; the operations below compute the exact result and round it.  The infinities and
NaN are values of their own. -/

/-- A `float64` value. -/
inductive Float64 where
  | finite (negative : Bool) (magnitude : ℚ)
  | inf (negative : Bool)
  | nan
  deriving DecidableEq, Repr

/-- The power of two `2 ^ k`. -/
def pow2 (k : Int) : ℚ :=
  if 0 ≤ k then ((2 ^ k.toNat : Nat) : ℚ) else 1 / ((2 ^ (-k).toNat : Nat) : ℚ)

/-- The loop of `log2`: halve `n` until it is below 2, counting the steps. -/
def log2Loop : Nat → Nat → Nat
  | 0, _ => 0
  | fuel + 1, n => if n < 2 then 0 else log2Loop fuel (n / 2) + 1

/-- The position of the leading bit of `n` (0 for `n = 0`). -/
def log2 (n : Nat) : Nat := log2Loop n n

/-- The exponent `e` with `2 ^ e ≤ x < 2 ^ (e + 1)` of a positive rational. -/
def exponentOf (x : ℚ) : Int :=
  let k : Int := (log2 x.num.natAbs : Int) - (log2 x.den : Int)
  if pow2 k ≤ x then k else k - 1

/-- The integer nearest to a non-negative rational, a tie going to the even one. -/
def roundHalfEven (q : ℚ) : Int :=
  let f : Int := q.num / (q.den : Int)
  let r : ℚ := q - f
  if r < 1 / 2 then f
  else if 1 / 2 < r then f + 1
  else if f % 2 = 0 then f else f + 1

/-- The binary64 magnitude nearest to a non-negative rational: 53 significant bits, the
exponent of the unit in the last place at least -1074 (subnormal numbers); `none` when the
rounded magnitude reaches `2 ^ 1024` (overflow). -/
def roundMagnitude (x : ℚ) : Option ℚ :=
  if x ≤ 0 then some 0
  else
    let e := max (exponentOf x) (-1022)
    let ulp := pow2 (e - 52)
    let y := (roundHalfEven (x / ulp) : ℚ) * ulp
    if pow2 1024 ≤ y then none else some y

/-- The `float64` of a sign and an exact magnitude. -/
def Float64.round (negative : Bool) (x : ℚ) : Float64 :=
  match roundMagnitude x with
  | some y => Float64.finite negative y
  | none => Float64.inf negative

/-- The `float64` nearest to an exact number (a Go constant or literal). -/
def Float64.ofRat (x : ℚ) : Float64 :=
  if x < 0 then Float64.round true (-x) else Float64.round false x

/-- The exact number a finite value stands for. -/
def Float64.signed (negative : Bool) (magnitude : ℚ) : ℚ :=
  if negative then -magnitude else magnitude

/-- The exact number of a finite value; `none` for the infinities and NaN. -/
def Float64.toRat? : Float64 → Option ℚ
  | Float64.finite s m => some (Float64.signed s m)
  | _ => none

/-- Unary minus. -/
def Float64.neg : Float64 → Float64
  | Float64.finite s m => Float64.finite (!s) m
  | Float64.inf s => Float64.inf (!s)
  | Float64.nan => Float64.nan

/-- `math.Abs`. -/
def Float64.abs : Float64 → Float64
  | Float64.finite _ m => Float64.finite false m
  | Float64.inf _ => Float64.inf false
  | Float64.nan => Float64.nan

/-- `x + y`. -/
def Float64.add : Float64 → Float64 → Float64
  | Float64.nan, _ => Float64.nan
  | _, Float64.nan => Float64.nan
  | Float64.inf s, Float64.inf t => if s = t then Float64.inf s else Float64.nan
  | Float64.inf s, Float64.finite _ _ => Float64.inf s
  | Float64.finite _ _, Float64.inf t => Float64.inf t
  | Float64.finite s m, Float64.finite t n =>
    let x := Float64.signed s m + Float64.signed t n
    if x = 0 then Float64.finite (s && t) 0 else Float64.ofRat x

/-- `x * y`. -/
def Float64.mul : Float64 → Float64 → Float64
  | Float64.nan, _ => Float64.nan
  | _, Float64.nan => Float64.nan
  | Float64.inf s, Float64.inf t => Float64.inf (xor s t)
  | Float64.inf s, Float64.finite t n => if n = 0 then Float64.nan else Float64.inf (xor s t)
  | Float64.finite s m, Float64.inf t => if m = 0 then Float64.nan else Float64.inf (xor s t)
  | Float64.finite s m, Float64.finite t n => Float64.round (xor s t) (m * n)

/-- `x / y`. -/
def Float64.div : Float64 → Float64 → Float64
  | Float64.nan, _ => Float64.nan
  | _, Float64.nan => Float64.nan
  | Float64.inf _, Float64.inf _ => Float64.nan
  | Float64.inf s, Float64.finite t _ => Float64.inf (xor s t)
  | Float64.finite s _, Float64.inf t => Float64.finite (xor s t) 0
  | Float64.finite s m, Float64.finite t n =>
    if n = 0 then (if m = 0 then Float64.nan else Float64.inf (xor s t))
    else Float64.round (xor s t) (m / n)

/-- `x < y`: false when an operand is NaN; the two zeros are equal. -/
def Float64.lt : Float64 → Float64 → Bool
  | Float64.nan, _ => false
  | _, Float64.nan => false
  | Float64.inf s, Float64.inf t => s && !t
  | Float64.inf s, Float64.finite _ _ => s
  | Float64.finite _ _, Float64.inf t => !t
  | Float64.finite s m, Float64.finite t n =>
    decide (Float64.signed s m < Float64.signed t n)

/-- `x > y`. -/
def Float64.gt (x y : Float64) : Bool :=
  Float64.lt y x

instance : Add Float64 := ⟨Float64.add⟩
instance : Mul Float64 := ⟨Float64.mul⟩
instance : Div Float64 := ⟨Float64.div⟩
instance : Neg Float64 := ⟨Float64.neg⟩
instance : Sub Float64 := ⟨fun x y => Float64.add x (Float64.neg y)⟩
instance (n : Nat) : OfNat Float64 n := ⟨Float64.ofRat n⟩

/-- Amounts: the `float64` of the source. -/
abbrev Money := Float64

/-! ## Data model (`internal/models`) -/

abbrev UUID := Nat

/-- The constants `DocumentType*` of `models/invoice.go`. -/
inductive DocumentType where
  | invoice
  | importInvoice
  | exportInvoice
  | creditNote
  | debitNote
  | zoneFranca
  | reembolso
  | foreignInvoice
  deriving DecidableEq, Repr

/-- The constants `DocumentStatus*` of `models/invoice.go`. -/
inductive DocumentStatus where
  | received
  | preparing
  | sendingToPAC
  | authorized
  | rejected
  | error
  deriving DecidableEq, Repr

/-- The constants `EmailStatus*` of `models/invoice.go`. -/
inductive EmailStatus where
  | pending
  | sent
  | failed
  | retrying
  deriving DecidableEq, Repr

/-- Row of `emitters` (`models.Emitter`); phone, location code, branding, PAC credentials
and timestamps are not read by the modelled operations and are left out. -/
structure Emitter where
  id : UUID
  name : String
  companyCode : String
  rucTipo : String
  rucNumero : String
  rucDV : String
  sucEm : String
  ptoFacDefault : String
  iAmb : Int
  iTpEmisDefault : String
  iDocDefault : String
  email : String
  addressLine : Option String
  isActive : Bool
  deriving DecidableEq, Repr

/-- Row of `emitter_series` (`models.EmitterSeries`). -/
structure EmitterSeries where
  id : UUID
  emitterID : UUID
  ptoFacDF : String
  docKind : DocumentType
  nextNumber : Nat
  issuedCount : Nat
  authorizedCount : Nat
  rejectedCount : Nat
  isActive : Bool
  deriving DecidableEq, Repr

/-- Row of `customers` (`models.Customer`). -/
structure Customer where
  id : UUID
  emitterID : UUID
  name : String
  email : String
  phone : Option String
  addressLine : Option String
  ubiCode : Option String
  taxID : Option String
  isActive : Bool
  createdAt : Nat
  updatedAt : Nat
  deriving DecidableEq, Repr

/-- Row of `products` (`models.Product`). -/
structure Product where
  id : UUID
  emitterID : UUID
  sku : String
  description : String
  cpbsAbr : Option String
  cpbsCmp : Option String
  unitPrice : Money
  taxRate : String
  isActive : Bool
  deriving DecidableEq, Repr

/-- Row of `invoices` (`models.Invoice`, without the relations populated by queries).
`documentNumber` holds the number handed out by the series allocator. -/
structure Invoice where
  id : UUID
  emitterID : UUID
  seriesID : UUID
  customerID : UUID
  documentType : DocumentType
  documentNumber : Nat
  ptoFacDF : String
  status : DocumentStatus
  emailStatus : EmailStatus
  referenceCUFE : Option String
  referenceNumber : Option String
  referencePtoFac : Option String
  cufe : Option String
  urlCUFE : Option String
  xmlIn : Option String
  xmlResponse : Option String
  xmlFE : Option String
  xmlProtocolo : Option String
  cafePDFURL : Option String
  iAmb : Int
  iTpEmis : String
  iDoc : String
  subtotal : Money
  itbmsAmount : Money
  totalAmount : Money
  idempotencyKey : Option String
  createdAt : Nat
  updatedAt : Nat
  deriving DecidableEq, Repr

/-- Row of `invoice_items` (`models.InvoiceItem`). -/
structure InvoiceItem where
  id : UUID
  invoiceID : UUID
  lineNo : Nat
  sku : Option String
  description : String
  quantity : Money
  unitPrice : Money
  itbmsRate : String
  cpbsAbr : Option String
  cpbsCmp : Option String
  lineTotal : Money
  createdAt : Nat
  deriving DecidableEq, Repr

/-- The `models.Reference` of a credit or debit note. -/
structure Reference where
  cufe : String
  number : String
  ptoFac : String
  deriving DecidableEq, Repr

/-- The `models.CustomerRequest` of a creation request. -/
structure CustomerRequest where
  name : String
  email : String
  phone : Option String
  address : Option String
  ubiCode : Option String
  deriving DecidableEq, Repr

/-- One requested line (`models.ItemRequest`). -/
structure ItemRequest where
  productID : Option String
  sku : Option String
  description : String
  quantity : Money
  unitPrice : Money
  taxRate : String
  deriving DecidableEq, Repr

/-- The declared payment (`models.PaymentRequest`). -/
structure PaymentRequest where
  method : String
  amount : Money
  deriving DecidableEq, Repr

/-- The optional overrides of the emitter defaults (`models.Overrides`). -/
structure Overrides where
  ptoFacDF : String
  iTpEmis : String
  iDoc : String
  deriving DecidableEq, Repr

/-- The body of a creation request (`models.CreateInvoiceRequest`); a Go nil pointer is
`none`. -/
structure CreateInvoiceRequest where
  documentType : DocumentType
  reference : Option Reference
  customer : CustomerRequest
  items : List ItemRequest
  payment : PaymentRequest
  overrides : Option Overrides
  deriving DecidableEq, Repr

/-- The `models.EmitterInfo` of a response. -/
structure EmitterInfo where
  ruc : String
  ptoFac : String
  number : Nat
  deriving DecidableEq, Repr

/-- The `models.Totals` of a response. -/
structure Totals where
  net : Money
  itbms : Money
  total : Money
  deriving DecidableEq, Repr

/-- The `models.Links` of a response. -/
structure Links where
  self : String
  files : String
  deriving DecidableEq, Repr

/-- The `models.InvoiceResponse` returned by a creation. -/
structure InvoiceResponse where
  id : UUID
  status : DocumentStatus
  documentType : DocumentType
  emitter : EmitterInfo
  totals : Totals
  links : Links
  deriving DecidableEq, Repr

/-! ## Errors

One constructor per error the modelled code builds; an argument of type `Error` is the
error wrapped with `%w`. -/

inductive Error where
  /-- an error of the SQL driver other than `sql.ErrNoRows` -/
  | driver
  | invalidTaxRate (code : String)
  | invoiceNotFound (id : UUID)
  | errorQueryingInvoice (inner : Error)
  | errorQueryingInvoiceByIdempotencyKey (inner : Error)
  | errorQueryingInvoiceItems (inner : Error)
  | emitterNotFound (id : UUID)
  | errorQueryingEmitter (inner : Error)
  | customerNotFoundWithEmail (email : String) (emitterID : UUID)
  | errorQueryingCustomer (inner : Error)
  | errorCreatingCustomer (inner : Error)
  | seriesNotFound (emitterID : UUID) (ptoFacDF : String) (docKind : DocumentType)
  | errorQueryingSeries (inner : Error)
  | productNotFound (id : UUID)
  | productNotFoundWithSKU (sku : String) (emitterID : UUID)
  | errorQueryingProduct (inner : Error)
  | errorBeginningTransaction (inner : Error)
  | errorRollingBackTransaction (rollback : Error) (original : Error)
  | errorCommittingTransaction (inner : Error)
  | errorInsertingInvoice (inner : Error)
  | errorInsertingInvoiceItem (inner : Error)
  | idempotencyKeyAlreadyUsed
  | errorCheckingIdempotency (inner : Error)
  | errorGettingEmitter (inner : Error)
  | errorGettingCreatingCustomer (inner : Error)
  | errorGettingSeries (inner : Error)
  | errorGettingNextDocumentNumber (inner : Error)
  | errorCalculatingTotals (inner : Error)
  | amountMismatch (total : Money) (payment : Money)
  | invalidProductIDFormat (productID : String)
  | productWithIDNotFound (productID : String) (inner : Error)
  | errorCreatingInvoice (inner : Error)
  | customerNotFound (id : UUID)
  | invoiceFilesNotFound (invoiceID : UUID)
  | errorQueryingInvoiceFiles (inner : Error)
  | errorCheckingInvoiceFilesExistence (inner : Error)
  | errorCheckingExistence (inner : Error)
  | errorCreatingInvoiceFiles (inner : Error)
  | errorUpdatingInvoiceFiles (inner : Error)
  | errorUploadingFileToStorage (inner : Error)
  | errorDeletingFileFromStorage (inner : Error)
  | errorUploadingPDFToSupabase (inner : Error)
  | errorUploadingXMLToSupabase (inner : Error)
  | errorSavingInvoiceFilesMetadata (inner : Error)
  | errorGeneratingPDF (inner : Error)
  | errorGeneratingXML (inner : Error)
  | errorGettingInvoice (inner : Error)
  | errorGettingCustomer (inner : Error)
  | errorGettingInvoiceItems (inner : Error)
  | errorGeneratingInvoiceFiles (inner : Error)
  | errorSavingInvoiceFiles (inner : Error)
  | errorGettingInvoiceFiles (inner : Error)
  | errorDownloadingPDFFromSupabase (inner : Error)
  | errorDownloadingXMLFromSupabase (inner : Error)
  | storageServiceNotAvailable
  | pdfFileNotFound (invoiceID : UUID)
  | xmlFileNotFound (invoiceID : UUID)
  | invalidFileType (fileType : String)
  | fileNotFound (fileType : String) (invoiceID : UUID)
  | errorUpdatingInvoiceStatus (inner : Error)
  | errorUpdatingPACResponse (inner : Error)
  | errorUpdatingEmailStatus (inner : Error)
  | errorGettingRowsAffected (inner : Error)
  | seriesAlreadyExists (emitterID : UUID) (ptoFacDF : String) (docKind : DocumentType)
  | errorCreatingSeries (inner : Error)
  | errorUpdatingSeriesCounters (inner : Error)
  | seriesNotFoundByID (seriesID : UUID)
  deriving Repr

/-- The shape of an error: the number of its constructor with its arguments, the wrapped
errors in the same shape.  Equality of errors is decided on shapes. -/
inductive ErrorCode where
  | leaf (tag : Nat) (ids : List UUID) (texts : List String) (amounts : List Money)
      (kinds : List DocumentType)
  | wrap (tag : Nat) (texts : List String) (inner : ErrorCode)
  | pair (tag : Nat) (first second : ErrorCode)
  deriving DecidableEq, Repr

/-- The shape of an error. -/
def Error.encode : Error → ErrorCode
  | .driver => .leaf 0 [] [] [] []
  | .invalidTaxRate code => .leaf 1 [] [code] [] []
  | .invoiceNotFound id => .leaf 2 [id] [] [] []
  | .errorQueryingInvoice inner => .wrap 3 [] inner.encode
  | .errorQueryingInvoiceByIdempotencyKey inner => .wrap 4 [] inner.encode
  | .errorQueryingInvoiceItems inner => .wrap 5 [] inner.encode
  | .emitterNotFound id => .leaf 6 [id] [] [] []
  | .errorQueryingEmitter inner => .wrap 7 [] inner.encode
  | .customerNotFoundWithEmail email emitterID => .leaf 8 [emitterID] [email] [] []
  | .errorQueryingCustomer inner => .wrap 9 [] inner.encode
  | .errorCreatingCustomer inner => .wrap 10 [] inner.encode
  | .seriesNotFound emitterID ptoFacDF docKind => .leaf 11 [emitterID] [ptoFacDF] [] [docKind]
  | .errorQueryingSeries inner => .wrap 12 [] inner.encode
  | .productNotFound id => .leaf 13 [id] [] [] []
  | .productNotFoundWithSKU sku emitterID => .leaf 14 [emitterID] [sku] [] []
  | .errorQueryingProduct inner => .wrap 15 [] inner.encode
  | .errorBeginningTransaction inner => .wrap 16 [] inner.encode
  | .errorRollingBackTransaction rollback original => .pair 17 rollback.encode original.encode
  | .errorCommittingTransaction inner => .wrap 18 [] inner.encode
  | .errorInsertingInvoice inner => .wrap 19 [] inner.encode
  | .errorInsertingInvoiceItem inner => .wrap 20 [] inner.encode
  | .idempotencyKeyAlreadyUsed => .leaf 21 [] [] [] []
  | .errorCheckingIdempotency inner => .wrap 22 [] inner.encode
  | .errorGettingEmitter inner => .wrap 23 [] inner.encode
  | .errorGettingCreatingCustomer inner => .wrap 24 [] inner.encode
  | .errorGettingSeries inner => .wrap 25 [] inner.encode
  | .errorGettingNextDocumentNumber inner => .wrap 26 [] inner.encode
  | .errorCalculatingTotals inner => .wrap 27 [] inner.encode
  | .amountMismatch total payment => .leaf 28 [] [] [total, payment] []
  | .invalidProductIDFormat productID => .leaf 29 [] [productID] [] []
  | .productWithIDNotFound productID inner => .wrap 30 [productID] inner.encode
  | .errorCreatingInvoice inner => .wrap 31 [] inner.encode
  | .customerNotFound id => .leaf 32 [id] [] [] []
  | .invoiceFilesNotFound invoiceID => .leaf 33 [invoiceID] [] [] []
  | .errorQueryingInvoiceFiles inner => .wrap 34 [] inner.encode
  | .errorCheckingInvoiceFilesExistence inner => .wrap 35 [] inner.encode
  | .errorCheckingExistence inner => .wrap 36 [] inner.encode
  | .errorCreatingInvoiceFiles inner => .wrap 37 [] inner.encode
  | .errorUpdatingInvoiceFiles inner => .wrap 38 [] inner.encode
  | .errorUploadingFileToStorage inner => .wrap 39 [] inner.encode
  | .errorDeletingFileFromStorage inner => .wrap 40 [] inner.encode
  | .errorUploadingPDFToSupabase inner => .wrap 41 [] inner.encode
  | .errorUploadingXMLToSupabase inner => .wrap 42 [] inner.encode
  | .errorSavingInvoiceFilesMetadata inner => .wrap 43 [] inner.encode
  | .errorGeneratingPDF inner => .wrap 44 [] inner.encode
  | .errorGeneratingXML inner => .wrap 45 [] inner.encode
  | .errorGettingInvoice inner => .wrap 46 [] inner.encode
  | .errorGettingCustomer inner => .wrap 47 [] inner.encode
  | .errorGettingInvoiceItems inner => .wrap 48 [] inner.encode
  | .errorGeneratingInvoiceFiles inner => .wrap 49 [] inner.encode
  | .errorSavingInvoiceFiles inner => .wrap 50 [] inner.encode
  | .errorGettingInvoiceFiles inner => .wrap 51 [] inner.encode
  | .errorDownloadingPDFFromSupabase inner => .wrap 52 [] inner.encode
  | .errorDownloadingXMLFromSupabase inner => .wrap 53 [] inner.encode
  | .storageServiceNotAvailable => .leaf 54 [] [] [] []
  | .pdfFileNotFound invoiceID => .leaf 55 [invoiceID] [] [] []
  | .xmlFileNotFound invoiceID => .leaf 56 [invoiceID] [] [] []
  | .invalidFileType fileType => .leaf 57 [] [fileType] [] []
  | .fileNotFound fileType invoiceID => .leaf 58 [invoiceID] [fileType] [] []
  | .errorUpdatingInvoiceStatus inner => .wrap 59 [] inner.encode
  | .errorUpdatingPACResponse inner => .wrap 60 [] inner.encode
  | .errorUpdatingEmailStatus inner => .wrap 61 [] inner.encode
  | .errorGettingRowsAffected inner => .wrap 62 [] inner.encode
  | .seriesAlreadyExists emitterID ptoFacDF docKind => .leaf 63 [emitterID] [ptoFacDF] [] [docKind]
  | .errorCreatingSeries inner => .wrap 64 [] inner.encode
  | .errorUpdatingSeriesCounters inner => .wrap 65 [] inner.encode
  | .seriesNotFoundByID seriesID => .leaf 66 [seriesID] [] [] []

/-- The error of a shape; shapes that `Error.encode` does not produce are read as
`Error.driver`. -/
def ErrorCode.decode : ErrorCode → Error
  | .leaf tag ids texts amounts kinds =>
    if tag = 1 then Error.invalidTaxRate (texts.getD 0 "")
    else if tag = 2 then Error.invoiceNotFound (ids.getD 0 0)
    else if tag = 6 then Error.emitterNotFound (ids.getD 0 0)
    else if tag = 8 then Error.customerNotFoundWithEmail (texts.getD 0 "") (ids.getD 0 0)
    else if tag = 11 then Error.seriesNotFound (ids.getD 0 0) (texts.getD 0 "") (kinds.getD 0 DocumentType.invoice)
    else if tag = 13 then Error.productNotFound (ids.getD 0 0)
    else if tag = 14 then Error.productNotFoundWithSKU (texts.getD 0 "") (ids.getD 0 0)
    else if tag = 21 then Error.idempotencyKeyAlreadyUsed
    else if tag = 28 then Error.amountMismatch (amounts.getD 0 0) (amounts.getD 1 0)
    else if tag = 29 then Error.invalidProductIDFormat (texts.getD 0 "")
    else if tag = 32 then Error.customerNotFound (ids.getD 0 0)
    else if tag = 33 then Error.invoiceFilesNotFound (ids.getD 0 0)
    else if tag = 54 then Error.storageServiceNotAvailable
    else if tag = 55 then Error.pdfFileNotFound (ids.getD 0 0)
    else if tag = 56 then Error.xmlFileNotFound (ids.getD 0 0)
    else if tag = 57 then Error.invalidFileType (texts.getD 0 "")
    else if tag = 58 then Error.fileNotFound (texts.getD 0 "") (ids.getD 0 0)
    else if tag = 63 then Error.seriesAlreadyExists (ids.getD 0 0) (texts.getD 0 "") (kinds.getD 0 DocumentType.invoice)
    else if tag = 66 then Error.seriesNotFoundByID (ids.getD 0 0)
    else Error.driver
  | .wrap tag texts inner =>
    if tag = 3 then Error.errorQueryingInvoice inner.decode
    else if tag = 4 then Error.errorQueryingInvoiceByIdempotencyKey inner.decode
    else if tag = 5 then Error.errorQueryingInvoiceItems inner.decode
    else if tag = 7 then Error.errorQueryingEmitter inner.decode
    else if tag = 9 then Error.errorQueryingCustomer inner.decode
    else if tag = 10 then Error.errorCreatingCustomer inner.decode
    else if tag = 12 then Error.errorQueryingSeries inner.decode
    else if tag = 15 then Error.errorQueryingProduct inner.decode
    else if tag = 16 then Error.errorBeginningTransaction inner.decode
    else if tag = 18 then Error.errorCommittingTransaction inner.decode
    else if tag = 19 then Error.errorInsertingInvoice inner.decode
    else if tag = 20 then Error.errorInsertingInvoiceItem inner.decode
    else if tag = 22 then Error.errorCheckingIdempotency inner.decode
    else if tag = 23 then Error.errorGettingEmitter inner.decode
    else if tag = 24 then Error.errorGettingCreatingCustomer inner.decode
    else if tag = 25 then Error.errorGettingSeries inner.decode
    else if tag = 26 then Error.errorGettingNextDocumentNumber inner.decode
    else if tag = 27 then Error.errorCalculatingTotals inner.decode
    else if tag = 30 then Error.productWithIDNotFound (texts.getD 0 "") inner.decode
    else if tag = 31 then Error.errorCreatingInvoice inner.decode
    else if tag = 34 then Error.errorQueryingInvoiceFiles inner.decode
    else if tag = 35 then Error.errorCheckingInvoiceFilesExistence inner.decode
    else if tag = 36 then Error.errorCheckingExistence inner.decode
    else if tag = 37 then Error.errorCreatingInvoiceFiles inner.decode
    else if tag = 38 then Error.errorUpdatingInvoiceFiles inner.decode
    else if tag = 39 then Error.errorUploadingFileToStorage inner.decode
    else if tag = 40 then Error.errorDeletingFileFromStorage inner.decode
    else if tag = 41 then Error.errorUploadingPDFToSupabase inner.decode
    else if tag = 42 then Error.errorUploadingXMLToSupabase inner.decode
    else if tag = 43 then Error.errorSavingInvoiceFilesMetadata inner.decode
    else if tag = 44 then Error.errorGeneratingPDF inner.decode
    else if tag = 45 then Error.errorGeneratingXML inner.decode
    else if tag = 46 then Error.errorGettingInvoice inner.decode
    else if tag = 47 then Error.errorGettingCustomer inner.decode
    else if tag = 48 then Error.errorGettingInvoiceItems inner.decode
    else if tag = 49 then Error.errorGeneratingInvoiceFiles inner.decode
    else if tag = 50 then Error.errorSavingInvoiceFiles inner.decode
    else if tag = 51 then Error.errorGettingInvoiceFiles inner.decode
    else if tag = 52 then Error.errorDownloadingPDFFromSupabase inner.decode
    else if tag = 53 then Error.errorDownloadingXMLFromSupabase inner.decode
    else if tag = 59 then Error.errorUpdatingInvoiceStatus inner.decode
    else if tag = 60 then Error.errorUpdatingPACResponse inner.decode
    else if tag = 61 then Error.errorUpdatingEmailStatus inner.decode
    else if tag = 62 then Error.errorGettingRowsAffected inner.decode
    else if tag = 64 then Error.errorCreatingSeries inner.decode
    else if tag = 65 then Error.errorUpdatingSeriesCounters inner.decode
    else Error.driver
  | .pair _ first second => Error.errorRollingBackTransaction first.decode second.decode

instance : DecidableEq Error := fun a b =>
  decidable_of_iff (a.encode = b.encode)
    ⟨fun h => by
      have hd : ∀ e : Error, e.encode.decode = e := by
        intro e
        induction e <;> simp [Error.encode, ErrorCode.decode, *]
      rw [← hd a, ← hd b, h],
     fun h => by rw [h]⟩

deriving instance DecidableEq for Except

/-! ## `InvoiceService.calculateTotals` -/

/-- The `switch item.TaxRate` of `calculateTotals`; `none` is its `default` branch. -/
def itbmsRate (taxRate : String) : Option Money :=
  if taxRate = "00" then some (Float64.ofRat 0)
  else if taxRate = "01" then some (Float64.ofRat (7 / 100))
  else if taxRate = "02" then some (Float64.ofRat (10 / 100))
  else if taxRate = "03" then some (Float64.ofRat (15 / 100))
  else none

/-- The `for` loop of `calculateTotals`, started with the accumulators `subtotal` and
`itbmsAmount`; the result is the four-valued Go return. -/
def calculateTotalsLoop :
    List ItemRequest → Money → Money → Money × Money × Money × Option Error
  | [], subtotal, itbmsAmount => (subtotal, itbmsAmount, subtotal + itbmsAmount, none)
  | item :: rest, subtotal, itbmsAmount =>
    let lineTotal := item.quantity * item.unitPrice
    let subtotal := subtotal + lineTotal
    match itbmsRate item.taxRate with
    | none => (0, 0, 0, some (Error.invalidTaxRate item.taxRate))
    | some rate =>
      let lineITBMS := lineTotal * rate
      calculateTotalsLoop rest subtotal (itbmsAmount + lineITBMS)

/-- `InvoiceService.calculateTotals`: `(subtotal, itbmsAmount, totalAmount, err)`. -/
def calculateTotals (items : List ItemRequest) : Money × Money × Money × Option Error :=
  calculateTotalsLoop items 0 0

/-- The tax codes the `switch` of `calculateTotals` enumerates. -/
def validTaxCode (code : String) : Prop :=
  code = "00" ∨ code = "01" ∨ code = "02" ∨ code = "03"

instance (code : String) : Decidable (validTaxCode code) := by
  unfold validTaxCode; infer_instance

/-- The rate of the specification as an exact decimal: 0, 0.07, 0.10, 0.15 for the four
codes (and 0 for any other text, which no statement below relies on). -/
def specRate (code : String) : ℚ :=
  if code = "00" then 0
  else if code = "01" then 7 / 100
  else if code = "02" then 10 / 100
  else if code = "03" then 15 / 100
  else 0

/-! ## The store and its environment -/

/-- The two places from which `InvoiceFilesRepository.CreateOrUpdate` is called while the
artifacts of an invoice are produced: `HybridStorageService.StoreInvoiceFiles` and
`InvoiceService.GetInvoiceFiles`. -/
inductive FilesCaller where
  | storage
  | service
  deriving DecidableEq, Repr

/-- The database round trips the modelled code issues.  `line` is the zero-based index of
the request item on whose behalf the round trip is made, `caller` the place a round trip
on `invoice_files` is made from. -/
inductive DBCall where
  | invoiceSelectByIdempotencyKey
  | invoiceSelectByID
  | invoiceItemsSelect
  | emitterSelectByID
  | customerSelectByEmail
  | customerInsert
  | seriesSelect
  | getNextFolio
  | productSelectByID (line : Nat)
  | productSelectBySKU (line : Nat)
  | txBegin
  | invoiceInsert
  | invoiceItemInsert (line : Nat)
  | txRollback
  | txCommit
  | customerSelectByID
  | invoiceFilesSelect
  | invoiceFilesCount (caller : FilesCaller)
  | invoiceFilesInsert (caller : FilesCaller)
  | invoiceFilesUpdate (caller : FilesCaller)
  | invoiceUpdateStatus
  | invoiceUpdatePACResponse
  | invoiceUpdateEmailStatus
  | seriesListSelect
  | seriesInsert
  | seriesUpdateCounters
  deriving DecidableEq, Repr

/-- The requests `HybridStorageService.StoreInvoiceFiles` sends to the blob store. -/
inductive BlobCall where
  | uploadPDF
  | uploadXML
  | deletePDF
  | deleteXML
  deriving DecidableEq, Repr

/-- Byte strings (`[]byte`); a nil slice is the empty list. -/
abbrev Bytes := List UInt8

/-- The tables of the relational store, rows in insertion order, and the ghost `log` of
the round trips issued so far. -/
structure Store where
  emitters : List Emitter
  customers : List Customer
  series : List EmitterSeries
  products : List Product
  invoices : List Invoice
  invoiceItems : List InvoiceItem
  log : List DBCall
  deriving DecidableEq, Repr

/-- What the code takes from outside the store: which round trips fail with a driver
error, the values of `uuid.New()`, `uuid.Parse`, the rendering of an id, and the clock;
and, for the artifacts: which requests to the blob store fail, whether a storage service
is configured (`storageService != nil`), the configured storage endpoint, the ids of new
`invoice_files` rows, the bytes `gofpdf` outputs for the page `GenerateInvoicePDF` draws,
the `2006-01-02` rendering of a time, the answer of an HTTP GET of a blob URL, and the XML
bytes in the situations in which `fmt.Sprintf` is outside the model `sprintf` below; for the
updates: whether `RowsAffected` fails after a statement was executed; for the series: the
id of a new series row and the order of `ORDER BY pto_fac_df, doc_kind` under the
collation of the database; for the notification: whether an e-mail service is configured
(`resendService != nil`) and whether its `SendInvoiceEmail` fails; the text of a driver
error; and, for the queries that read several rows, how many rows `rows.Next` delivers
before the rows are closed (`QueryWithTimeout` cancels the context of the query when it
returns, and the loops never look at `rows.Err`): `none` when every row is delivered. -/
structure Env where
  fails : DBCall → Bool
  newInvoiceID : UUID
  newItemID : Nat → UUID
  newCustomerID : UUID
  parseUUID : String → Option UUID
  uuidString : UUID → String
  now : Nat
  blobFails : BlobCall → Bool
  storageConfigured : Bool
  storageEndpoint : String
  newFilesID : FilesCaller → UUID
  pdfOutput : Invoice → Customer → Emitter → List InvoiceItem → Except Error Bytes
  formatDate : Nat → String
  httpGet : String → Except Error Bytes
  xmlElsewhere : Invoice → Customer → Emitter → List InvoiceItem → Bytes
  rowsAffectedFails : DBCall → Bool
  newSeriesID : UUID
  seriesBefore : EmitterSeries → EmitterSeries → Bool
  resendConfigured : Bool
  sendFails : Invoice → Customer → Emitter → Bool
  driverMessage : String
  rowsDelivered : DBCall → Option Nat

/-- The rows a `for rows.Next()` loop collects when `delivered` rows are delivered before
the rows are closed. -/
def deliveredRows {α : Type} (delivered : Option Nat) (rows : List α) : List α :=
  match delivered with
  | none => rows
  | some k => rows.take k

/-- Ghost bookkeeping: note that the round trip `call` was issued. -/
def Store.record (st : Store) (call : DBCall) : Store :=
  { st with log := st.log ++ [call] }

/-! ## `internal/database/connection.go` -/

/-- `DB.WithTransaction`: `fn` runs on the transaction's view of the store; its writes
reach the store only when `fn` returns nil and `tx.Commit()` succeeds.  Round trips issued
inside the transaction stay in the ghost log whatever the outcome. -/
def DB.WithTransaction (env : Env) (st : Store) (fn : Store → Option Error × Store) :
    Option Error × Store :=
  let st0 := st.record DBCall.txBegin
  if env.fails DBCall.txBegin then
    (some (Error.errorBeginningTransaction Error.driver), st0)
  else
    match fn st0 with
    | (some err, tx) =>
      let st1 := { st with log := tx.log ++ [DBCall.txRollback] }
      if env.fails DBCall.txRollback then
        (some (Error.errorRollingBackTransaction Error.driver err), st1)
      else
        (some err, st1)
    | (none, tx) =>
      if env.fails DBCall.txCommit then
        (some (Error.errorCommittingTransaction Error.driver),
          { st with log := tx.log ++ [DBCall.txCommit] })
      else
        (none, tx.record DBCall.txCommit)

/-! ## `internal/database/invoice_repository.go` -/

/-- The models.Invoice value `InvoiceRepository.GetByID` returns: the row, the joined
emitter and customer columns, and the items. -/
structure InvoiceRecord where
  invoice : Invoice
  emitterName : String
  emitterCompanyCode : String
  customerName : String
  customerEmail : String
  items : List InvoiceItem
  deriving DecidableEq, Repr

/-- The `for _, item := range items` loop of `InvoiceRepository.Create`, from line `line`
on, inside the transaction `tx`. -/
def InvoiceRepository.insertItems (env : Env) : List InvoiceItem → Nat → Store →
    Option Error × Store
  | [], _, tx => (none, tx)
  | item :: rest, line, tx =>
    let tx1 := tx.record (DBCall.invoiceItemInsert line)
    if env.fails (DBCall.invoiceItemInsert line) then
      (some (Error.errorInsertingInvoiceItem Error.driver), tx1)
    else
      InvoiceRepository.insertItems env rest (line + 1)
        { tx1 with invoiceItems := tx1.invoiceItems ++ [item] }

/-- The function `InvoiceRepository.Create` hands to `WithTransaction`. -/
def InvoiceRepository.createInTx (env : Env) (invoice : Invoice) (items : List InvoiceItem)
    (tx : Store) : Option Error × Store :=
  let tx1 := tx.record DBCall.invoiceInsert
  if env.fails DBCall.invoiceInsert then
    (some (Error.errorInsertingInvoice Error.driver), tx1)
  else
    InvoiceRepository.insertItems env items 0
      { tx1 with invoices := tx1.invoices ++ [invoice] }

/-- `InvoiceRepository.Create`. -/
def InvoiceRepository.Create (env : Env) (st : Store) (invoice : Invoice)
    (items : List InvoiceItem) : Option Error × Store :=
  DB.WithTransaction env st (InvoiceRepository.createInTx env invoice items)

/-- `InvoiceRepository.GetItemsByInvoiceID` (`ORDER BY line_no`); a failing `rows.Scan` is
not modelled. -/
def InvoiceRepository.GetItemsByInvoiceID (env : Env) (st : Store) (invoiceID : UUID) :
    Except Error (List InvoiceItem) × Store :=
  let st1 := st.record DBCall.invoiceItemsSelect
  if env.fails DBCall.invoiceItemsSelect then
    (Except.error (Error.errorQueryingInvoiceItems Error.driver), st1)
  else
    (Except.ok (deliveredRows (env.rowsDelivered DBCall.invoiceItemsSelect)
      (List.insertionSort (fun a b => a.lineNo ≤ b.lineNo)
        (st.invoiceItems.filter (fun it => it.invoiceID = invoiceID)))), st1)

/-- The first row of `invoices i JOIN emitters e JOIN customers c WHERE i.id = id`. -/
def InvoiceRepository.joinedRow (st : Store) (id : UUID) :
    Option (Invoice × Emitter × Customer) :=
  st.invoices.findSome? (fun i =>
    if i.id = id then
      (st.emitters.find? (fun e => e.id = i.emitterID)).bind (fun e =>
        (st.customers.find? (fun c => c.id = i.customerID)).map (fun c => (i, e, c)))
    else none)

/-- `InvoiceRepository.GetByID`; a failure of the items query is only logged and leaves
the items empty. -/
def InvoiceRepository.GetByID (env : Env) (st : Store) (id : UUID) :
    Except Error InvoiceRecord × Store :=
  let st1 := st.record DBCall.invoiceSelectByID
  if env.fails DBCall.invoiceSelectByID then
    (Except.error (Error.errorQueryingInvoice Error.driver), st1)
  else
    match InvoiceRepository.joinedRow st id with
    | none => (Except.error (Error.invoiceNotFound id), st1)
    | some (i, e, c) =>
      match InvoiceRepository.GetItemsByInvoiceID env st1 id with
      | (Except.ok items, st2) =>
        (Except.ok
          { invoice := i, emitterName := e.name, emitterCompanyCode := e.companyCode,
            customerName := c.name, customerEmail := c.email, items := items }, st2)
      | (Except.error _, st2) =>
        (Except.ok
          { invoice := i, emitterName := e.name, emitterCompanyCode := e.companyCode,
            customerName := c.name, customerEmail := c.email, items := [] }, st2)

/-- `InvoiceRepository.GetByIdempotencyKey`; `Except.ok none` is the `(nil, nil)` of
`sql.ErrNoRows`. -/
def InvoiceRepository.GetByIdempotencyKey (env : Env) (st : Store) (key : String) :
    Except Error (Option InvoiceRecord) × Store :=
  let st1 := st.record DBCall.invoiceSelectByIdempotencyKey
  if env.fails DBCall.invoiceSelectByIdempotencyKey then
    (Except.error (Error.errorQueryingInvoiceByIdempotencyKey Error.driver), st1)
  else
    match st.invoices.find? (fun i => i.idempotencyKey = some key) with
    | none => (Except.ok none, st1)
    | some row =>
      match InvoiceRepository.GetByID env st1 row.id with
      | (Except.ok r, st2) => (Except.ok (some r), st2)
      | (Except.error e, st2) => (Except.error e, st2)

/-- Whether a series row is the row of the series `(emitterID, ptoFacDF, docKind)`. -/
def EmitterSeries.hasKey (s : EmitterSeries) (emitterID : UUID) (ptoFacDF : String)
    (docKind : DocumentType) : Bool :=
  decide (s.emitterID = emitterID) && decide (s.ptoFacDF = ptoFacDF) &&
    decide (s.docKind = docKind)

/-- Modelled from the spec: the SQL function `get_next_folio` that
`InvoiceRepository.GetNextDocumentNumber` calls is not among the sources.  Following the
SeriesAllocator contract (a single atomically-incrementing operation on the series'
counter, `next_number` being the single source of truth for the next document number,
strictly increasing by exactly 1 per call), it returns the `next_number` of the row of
the series and stores `next_number + 1` in that row; `none` when the series has no row. -/
def get_next_folio : List EmitterSeries → UUID → String → DocumentType →
    Option (Nat × List EmitterSeries)
  | [], _, _, _ => none
  | s :: rest, emitterID, ptoFacDF, docKind =>
    if s.hasKey emitterID ptoFacDF docKind then
      some (s.nextNumber, { s with nextNumber := s.nextNumber + 1 } :: rest)
    else
      match get_next_folio rest emitterID ptoFacDF docKind with
      | none => none
      | some (n, rest1) => some (n, s :: rest1)

/-- `InvoiceRepository.GetNextDocumentNumber`: one autocommitted `SELECT get_next_folio`.
A failed round trip, or a series without a row, is the driver error of `Scan`. -/
def InvoiceRepository.GetNextDocumentNumber (env : Env) (st : Store) (emitterID : UUID)
    (ptoFacDF : String) (docKind : DocumentType) : Except Error Nat × Store :=
  let st1 := st.record DBCall.getNextFolio
  if env.fails DBCall.getNextFolio then
    (Except.error (Error.errorGettingNextDocumentNumber Error.driver), st1)
  else
    match get_next_folio st.series emitterID ptoFacDF docKind with
    | none => (Except.error (Error.errorGettingNextDocumentNumber Error.driver), st1)
    | some (n, series1) => (Except.ok n, { st1 with series := series1 })

/-! ## `internal/database/emitter_repository.go` -/

/-- `EmitterRepository.GetByID` (`WHERE id = $1 AND is_active = true`). -/
def EmitterRepository.GetByID (env : Env) (st : Store) (id : UUID) :
    Except Error Emitter × Store :=
  let st1 := st.record DBCall.emitterSelectByID
  if env.fails DBCall.emitterSelectByID then
    (Except.error (Error.errorQueryingEmitter Error.driver), st1)
  else
    match st.emitters.find? (fun e => decide (e.id = id) && e.isActive) with
    | none => (Except.error (Error.emitterNotFound id), st1)
    | some e => (Except.ok e, st1)

/-- `EmitterRepository.GetSeries` (`WHERE emitter_id = $1 AND pto_fac_df = $2 AND
doc_kind = $3 AND is_active = true`). -/
def EmitterRepository.GetSeries (env : Env) (st : Store) (emitterID : UUID)
    (ptoFacDF : String) (docKind : DocumentType) : Except Error EmitterSeries × Store :=
  let st1 := st.record DBCall.seriesSelect
  if env.fails DBCall.seriesSelect then
    (Except.error (Error.errorQueryingSeries Error.driver), st1)
  else
    match st.series.find? (fun s => s.hasKey emitterID ptoFacDF docKind && s.isActive) with
    | none => (Except.error (Error.seriesNotFound emitterID ptoFacDF docKind), st1)
    | some s => (Except.ok s, st1)

/-! ## `internal/database/customer_repository.go` -/

/-- The `models.CreateCustomerRequest` handed to `CustomerRepository.Create`. -/
structure CreateCustomerRequest where
  name : String
  email : String
  phone : Option String
  address : Option String
  ubiCode : Option String
  taxID : Option String
  deriving DecidableEq, Repr

/-- `CustomerRepository.GetByEmail` (`WHERE emitter_id = $1 AND email = $2 AND
is_active = true`).  The `SELECT` list leaves `tax_id` out, so the `TaxID` of the customer
returned is nil whatever the row holds. -/
def CustomerRepository.GetByEmail (env : Env) (st : Store) (emitterID : UUID)
    (email : String) : Except Error Customer × Store :=
  let st1 := st.record DBCall.customerSelectByEmail
  if env.fails DBCall.customerSelectByEmail then
    (Except.error (Error.errorQueryingCustomer Error.driver), st1)
  else
    match st.customers.find?
        (fun c => decide (c.emitterID = emitterID) && decide (c.email = email) && c.isActive) with
    | none => (Except.error (Error.customerNotFoundWithEmail email emitterID), st1)
    | some c => (Except.ok { c with taxID := none }, st1)

/-- `CustomerRepository.Create`: the insert leaves `tax_id` out. -/
def CustomerRepository.Create (env : Env) (st : Store) (req : CreateCustomerRequest)
    (emitterID : UUID) : Except Error Customer × Store :=
  let customer : Customer :=
    { id := env.newCustomerID, emitterID := emitterID, name := req.name, email := req.email,
      phone := req.phone, addressLine := req.address, ubiCode := req.ubiCode, taxID := none,
      isActive := true, createdAt := env.now, updatedAt := env.now }
  let st1 := st.record DBCall.customerInsert
  if env.fails DBCall.customerInsert then
    (Except.error (Error.errorCreatingCustomer Error.driver), st1)
  else
    (Except.ok customer, { st1 with customers := st1.customers ++ [customer] })

/-! ## `internal/database/product_repository.go` -/

/-- `ProductRepository.GetByID` (`WHERE id = $1 AND is_active = true`), issued for request
line `line`. -/
def ProductRepository.GetByID (env : Env) (st : Store) (line : Nat) (id : UUID) :
    Except Error Product × Store :=
  let st1 := st.record (DBCall.productSelectByID line)
  if env.fails (DBCall.productSelectByID line) then
    (Except.error (Error.errorQueryingProduct Error.driver), st1)
  else
    match st.products.find? (fun p => decide (p.id = id) && p.isActive) with
    | none => (Except.error (Error.productNotFound id), st1)
    | some p => (Except.ok p, st1)

/-- `ProductRepository.GetBySKU` (`WHERE emitter_id = $1 AND sku = $2 AND
is_active = true`), issued for request line `line`. -/
def ProductRepository.GetBySKU (env : Env) (st : Store) (line : Nat) (emitterID : UUID)
    (sku : String) : Except Error Product × Store :=
  let st1 := st.record (DBCall.productSelectBySKU line)
  if env.fails (DBCall.productSelectBySKU line) then
    (Except.error (Error.errorQueryingProduct Error.driver), st1)
  else
    match st.products.find?
        (fun p => decide (p.emitterID = emitterID) && decide (p.sku = sku) && p.isActive) with
    | none => (Except.error (Error.productNotFoundWithSKU sku emitterID), st1)
    | some p => (Except.ok p, st1)

/-! ## `internal/services/invoice_service.go` -/

/-- `InvoiceService.getReferenceValue`. -/
def getReferenceValue (ref : Option Reference) (field : String) : Option String :=
  match ref with
  | none => none
  | some r =>
    if field = "cufe" then some r.cufe
    else if field = "nrodf" then some r.number
    else if field = "pto_fac_df" then some r.ptoFac
    else none

/-- `InvoiceService.getOverrideValue`. -/
def getOverrideValue (override defaultValue : String) : String :=
  if override ≠ "" then override else defaultValue

/-- `InvoiceService.getOverrideField`. -/
def getOverrideField (overrides : Option Overrides) (field : String) : String :=
  match overrides with
  | none => ""
  | some o =>
    if field = "ITpEmis" then o.iTpEmis
    else if field = "IDoc" then o.iDoc
    else if field = "PtoFacDF" then o.ptoFacDF
    else ""

/-- `InvoiceService.getProductValue`. -/
def getProductValue (product : Option Product) (field : String)
    (requestValue : Option String) : Option String :=
  match product with
  | some p =>
    if field = "cpbs_abr" then p.cpbsAbr
    else if field = "cpbs_cmp" then p.cpbsCmp
    else requestValue
  | none => requestValue

/-- The issuing point `CreateInvoice` looks the series up with (the `if req.Overrides !=
nil && req.Overrides.PtoFacDF != ""` of the source). -/
def resolvePtoFacDF (req : CreateInvoiceRequest) (emitter : Emitter) : String :=
  match req.overrides with
  | some o => if o.ptoFacDF ≠ "" then o.ptoFacDF else emitter.ptoFacDefault
  | none => emitter.ptoFacDefault

/-- `InvoiceService.getOrCreateCustomer`: any error of the lookup leads to the insert. -/
def getOrCreateCustomer (env : Env) (st : Store) (req : CustomerRequest) (emitterID : UUID) :
    Except Error Customer × Store :=
  match CustomerRepository.GetByEmail env st emitterID req.email with
  | (Except.ok customer, st1) => (Except.ok customer, st1)
  | (Except.error _, st1) =>
    match CustomerRepository.Create env st1
        { name := req.name, email := req.email, phone := req.phone, address := req.address,
          ubiCode := req.ubiCode, taxID := none } emitterID with
    | (Except.ok customer, st2) => (Except.ok customer, st2)
    | (Except.error e, st2) => (Except.error (Error.errorCreatingCustomer e), st2)

/-- The declared-payment test of `CreateInvoice`:
`math.Abs(totalAmount - req.Payment.Amount) > 0.01`. -/
def amountMismatch (totalAmount paymentAmount : Money) : Bool :=
  Float64.gt (Float64.abs (totalAmount - paymentAmount)) (Float64.ofRat (1 / 100))

/-- The product lookup at the head of the item loop of `CreateInvoice`, for the item at
index `i`: by `product_id` when given (an error aborts the creation), else by SKU (an
error leaves the product nil). -/
def resolveProduct (env : Env) (st : Store) (emitterID : UUID) (i : Nat)
    (itemReq : ItemRequest) : Except Error (Option Product) × Store :=
  match itemReq.productID with
  | some pid =>
    match env.parseUUID pid with
    | none => (Except.error (Error.invalidProductIDFormat pid), st)
    | some productID =>
      match ProductRepository.GetByID env st i productID with
      | (Except.ok p, st1) => (Except.ok (some p), st1)
      | (Except.error e, st1) => (Except.error (Error.productWithIDNotFound pid e), st1)
  | none =>
    match itemReq.sku with
    | some sku =>
      match ProductRepository.GetBySKU env st i emitterID sku with
      | (Except.ok p, st1) => (Except.ok (some p), st1)
      | (Except.error _, st1) => (Except.ok none, st1)
    | none => (Except.ok none, st)

/-- The `models.InvoiceItem` the item loop of `CreateInvoice` stores at index `i`. -/
def buildItem (env : Env) (invoiceID : UUID) (i : Nat) (itemReq : ItemRequest)
    (product : Option Product) : InvoiceItem :=
  let description :=
    match product with
    | some p => if p.description ≠ "" then p.description else itemReq.description
    | none => itemReq.description
  let lineTotal := itemReq.quantity * itemReq.unitPrice
  { id := env.newItemID i, invoiceID := invoiceID, lineNo := i + 1, sku := itemReq.sku,
    description := description, quantity := itemReq.quantity, unitPrice := itemReq.unitPrice,
    itbmsRate := itemReq.taxRate, cpbsAbr := getProductValue product "cpbs_abr" none,
    cpbsCmp := getProductValue product "cpbs_cmp" none, lineTotal := lineTotal,
    createdAt := env.now }

/-- The item loop of `CreateInvoice` (`for i, itemReq := range req.Items`), from index
`i` on. -/
def buildItems (env : Env) (emitterID invoiceID : UUID) :
    List ItemRequest → Nat → Store → Except Error (List InvoiceItem) × Store
  | [], _, st => (Except.ok [], st)
  | itemReq :: rest, i, st =>
    match resolveProduct env st emitterID i itemReq with
    | (Except.error e, st1) => (Except.error e, st1)
    | (Except.ok product, st1) =>
      match buildItems env emitterID invoiceID rest (i + 1) st1 with
      | (Except.error e, st2) => (Except.error e, st2)
      | (Except.ok items, st2) =>
        (Except.ok (buildItem env invoiceID i itemReq product :: items), st2)

/-- The `models.Invoice` that `CreateInvoice` builds. -/
def buildInvoice (env : Env) (emitterID : UUID) (req : CreateInvoiceRequest)
    (idempotencyKey : String) (emitter : Emitter) (customer : Customer)
    (series : EmitterSeries) (documentNumber : Nat)
    (subtotal itbmsAmount totalAmount : Money) : Invoice :=
  { id := env.newInvoiceID, emitterID := emitterID, seriesID := series.id,
    customerID := customer.id, documentType := req.documentType,
    documentNumber := documentNumber, ptoFacDF := series.ptoFacDF,
    status := DocumentStatus.received, emailStatus := EmailStatus.pending,
    referenceCUFE := getReferenceValue req.reference "cufe",
    referenceNumber := getReferenceValue req.reference "nrodf",
    referencePtoFac := getReferenceValue req.reference "pto_fac_df",
    cufe := none, urlCUFE := none, xmlIn := none, xmlResponse := none, xmlFE := none,
    xmlProtocolo := none, cafePDFURL := none,
    iAmb := emitter.iAmb,
    iTpEmis := getOverrideValue (getOverrideField req.overrides "ITpEmis") emitter.iTpEmisDefault,
    iDoc := getOverrideValue (getOverrideField req.overrides "IDoc") emitter.iDocDefault,
    subtotal := subtotal, itbmsAmount := itbmsAmount, totalAmount := totalAmount,
    idempotencyKey := if idempotencyKey = "" then none else some idempotencyKey,
    createdAt := env.now, updatedAt := env.now }

/-- The `models.InvoiceResponse` that `CreateInvoice` answers with. -/
def buildResponse (env : Env) (invoice : Invoice) (emitter : Emitter) : InvoiceResponse :=
  { id := invoice.id, status := invoice.status, documentType := invoice.documentType,
    emitter :=
      { ruc := emitter.rucTipo ++ "-" ++ emitter.rucNumero ++ "-" ++ emitter.rucDV ++ "-" ++
          emitter.sucEm,
        ptoFac := invoice.ptoFacDF, number := invoice.documentNumber },
    totals :=
      { net := invoice.subtotal, itbms := invoice.itbmsAmount, total := invoice.totalAmount },
    links :=
      { self := "/v1/invoices/" ++ env.uuidString invoice.id,
        files := "/v1/invoices/" ++ env.uuidString invoice.id ++ "/files" } }

/-- The idempotency check at the head of `CreateInvoice`: `none` lets the creation go on,
`some err` is the error it returns. -/
def checkIdempotency (env : Env) (st : Store) (idempotencyKey : String) :
    Option Error × Store :=
  if idempotencyKey ≠ "" then
    match InvoiceRepository.GetByIdempotencyKey env st idempotencyKey with
    | (Except.error e, st1) => (some (Error.errorCheckingIdempotency e), st1)
    | (Except.ok (some _), st1) => (some Error.idempotencyKeyAlreadyUsed, st1)
    | (Except.ok none, st1) => (none, st1)
  else (none, st)

/-- What `CreateInvoice` has in hand when it reaches the totals step. -/
structure Lookups where
  emitter : Emitter
  customer : Customer
  series : EmitterSeries
  documentNumber : Nat
  deriving DecidableEq, Repr

/-- The head of `InvoiceService.CreateInvoice`, up to the totals step: idempotency check,
emitter, customer, series and document number. -/
def createInvoiceLookups (env : Env) (st : Store) (emitterID : UUID)
    (req : CreateInvoiceRequest) (idempotencyKey : String) : Except Error Lookups × Store :=
  match checkIdempotency env st idempotencyKey with
  | (some e, st1) => (Except.error e, st1)
  | (none, st1) =>
  match EmitterRepository.GetByID env st1 emitterID with
  | (Except.error e, st2) => (Except.error (Error.errorGettingEmitter e), st2)
  | (Except.ok emitter, st2) =>
  match getOrCreateCustomer env st2 req.customer emitterID with
  | (Except.error e, st3) => (Except.error (Error.errorGettingCreatingCustomer e), st3)
  | (Except.ok customer, st3) =>
  match EmitterRepository.GetSeries env st3 emitterID (resolvePtoFacDF req emitter)
      req.documentType with
  | (Except.error e, st4) => (Except.error (Error.errorGettingSeries e), st4)
  | (Except.ok series, st4) =>
  match InvoiceRepository.GetNextDocumentNumber env st4 emitterID series.ptoFacDF
      req.documentType with
  | (Except.error e, st5) => (Except.error (Error.errorGettingNextDocumentNumber e), st5)
  | (Except.ok documentNumber, st5) =>
    (Except.ok { emitter := emitter, customer := customer, series := series,
                 documentNumber := documentNumber }, st5)

/-- The tail of `InvoiceService.CreateInvoice`, from the totals step to the response. -/
def createInvoiceFromTotals (env : Env) (st5 : Store) (emitterID : UUID)
    (req : CreateInvoiceRequest) (idempotencyKey : String) (l : Lookups) :
    Except Error InvoiceResponse × Store :=
  match calculateTotals req.items with
  | (_, _, _, some e) => (Except.error (Error.errorCalculatingTotals e), st5)
  | (subtotal, itbmsAmount, totalAmount, none) =>
  if amountMismatch totalAmount req.payment.amount then
    (Except.error (Error.amountMismatch totalAmount req.payment.amount), st5)
  else
    let invoice := buildInvoice env emitterID req idempotencyKey l.emitter l.customer l.series
      l.documentNumber subtotal itbmsAmount totalAmount
    match buildItems env emitterID invoice.id req.items 0 st5 with
    | (Except.error e, st6) => (Except.error e, st6)
    | (Except.ok items, st6) =>
      match InvoiceRepository.Create env st6 invoice items with
      | (some e, st7) => (Except.error (Error.errorCreatingInvoice e), st7)
      | (none, st7) => (Except.ok (buildResponse env invoice l.emitter), st7)

/-- `InvoiceService.CreateInvoice`, from the idempotency check to the response, as a
function of the store; the e-mail goroutine started after the response is built is not
part of this function (see `CreateInvoiceThenEmail`). -/
def CreateInvoice (env : Env) (st : Store) (emitterID : UUID) (req : CreateInvoiceRequest)
    (idempotencyKey : String) : Except Error InvoiceResponse × Store :=
  match createInvoiceLookups env st emitterID req idempotencyKey with
  | (Except.error e, st5) => (Except.error e, st5)
  | (Except.ok l, st5) => createInvoiceFromTotals env st5 emitterID req idempotencyKey l

/-- How often the round trip `call` has been issued. -/
def Store.issued (st : Store) (call : DBCall) : Nat :=
  st.log.count call

/-- The two stores hold the same rows in every table (their ghost logs may differ). -/
def Store.sameData (a b : Store) : Prop :=
  a.emitters = b.emitters ∧ a.customers = b.customers ∧ a.series = b.series ∧
    a.products = b.products ∧ a.invoices = b.invoices ∧ a.invoiceItems = b.invoiceItems

/-- The log of `b` is the log of `a` followed by round trips that all satisfy `allowed`. -/
def Store.logExt (a b : Store) (allowed : DBCall → Prop) : Prop :=
  ∃ l, b.log = a.log ++ l ∧ ∀ c ∈ l, allowed c

/-- The round trips that only read (`SELECT` of rows). -/
def DBCall.isSelect : DBCall → Bool
  | DBCall.invoiceSelectByIdempotencyKey => true
  | DBCall.invoiceSelectByID => true
  | DBCall.invoiceItemsSelect => true
  | DBCall.emitterSelectByID => true
  | DBCall.customerSelectByEmail => true
  | DBCall.seriesSelect => true
  | DBCall.productSelectByID _ => true
  | DBCall.productSelectBySKU _ => true
  | DBCall.customerSelectByID => true
  | DBCall.invoiceFilesSelect => true
  | DBCall.invoiceFilesCount _ => true
  | DBCall.seriesListSelect => true
  | _ => false

/-- The round trips of the transaction of `InvoiceRepository.Create`. -/
def DBCall.isTx : DBCall → Bool
  | DBCall.txBegin => true
  | DBCall.invoiceInsert => true
  | DBCall.invoiceItemInsert _ => true
  | DBCall.txRollback => true
  | DBCall.txCommit => true
  | _ => false

/-- From `a` to `b` only reading round trips were issued and no table changed. -/
def Store.readOnly (a b : Store) : Prop :=
  a.sameData b ∧ a.logExt b (fun c => c.isSelect = true)

/-- Referential integrity of `invoices`: the emitter and the customer of every invoice
row have a row. -/
def Store.foreignKeysHold (st : Store) : Prop :=
  ∀ i ∈ st.invoices,
    (∃ e ∈ st.emitters, e.id = i.emitterID) ∧ (∃ c ∈ st.customers, c.id = i.customerID)

/-- The invoice `CreateInvoice` builds from what the lookups returned and the totals of
the request. -/
def invoiceOf (env : Env) (emitterID : UUID) (req : CreateInvoiceRequest)
    (idempotencyKey : String) (l : Lookups) : Invoice :=
  buildInvoice env emitterID req idempotencyKey l.emitter l.customer l.series l.documentNumber
    (calculateTotals req.items).1 (calculateTotals req.items).2.1
    (calculateTotals req.items).2.2.1

/-! ## The scenario of the specification

An emitter whose series `("001", invoice)` is at `next_number = 1`, and a request with the
two lines 2 × 10.00 at tax code "01" and 1 × 5.00 at tax code "00". -/

/-- The emitter of the scenario. -/
def scenarioEmitter : Emitter :=
  { id := 1, name := "Emisor", companyCode := "EM", rucTipo := "2", rucNumero := "155596713",
    rucDV := "86", sucEm := "0000", ptoFacDefault := "001", iAmb := 2, iTpEmisDefault := "01",
    iDocDefault := "01", email := "emisor@example.com", addressLine := some "Calle 50",
    isActive := true }

/-- The series of the scenario. -/
def scenarioSeries : EmitterSeries :=
  { id := 10, emitterID := 1, ptoFacDF := "001", docKind := DocumentType.invoice,
    nextNumber := 1, issuedCount := 0, authorizedCount := 0, rejectedCount := 0,
    isActive := true }

/-- The store of the scenario: the emitter, its series, and nothing else. -/
def scenarioStore : Store :=
  { emitters := [scenarioEmitter], customers := [], series := [scenarioSeries], products := [],
    invoices := [], invoiceItems := [], log := [] }

/-- An environment in which no round trip fails. -/
def scenarioEnv : Env :=
  { fails := fun _ => false, newInvoiceID := 100, newItemID := fun i => 200 + i,
    newCustomerID := 50, parseUUID := fun _ => none, uuidString := fun n => toString n,
    now := 0, blobFails := fun _ => false, storageConfigured := true,
    storageEndpoint := "https://ambtmugdpopskzxdafdm.storage.supabase.co/storage/v1/s3",
    newFilesID := fun c => if c = FilesCaller.storage then 300 else 301,
    pdfOutput := fun _ _ _ _ => Except.ok [37, 80, 68, 70],
    formatDate := fun _ => "2026-01-15",
    httpGet := fun _ => Except.error Error.driver,
    xmlElsewhere := fun _ _ _ _ => [],
    rowsAffectedFails := fun _ => false, newSeriesID := 11,
    seriesBefore := fun a b => decide (a.id ≤ b.id),
    resendConfigured := true, sendFails := fun _ _ _ => false,
    driverMessage := "pq: connection refused", rowsDelivered := fun _ => none }

/-- The two lines of the scenario. -/
def scenarioItems : List ItemRequest :=
  [{ productID := none, sku := none, description := "Servicio", quantity := 2,
     unitPrice := 10, taxRate := "01" },
   { productID := none, sku := none, description := "Producto", quantity := 1,
     unitPrice := 5, taxRate := "00" }]

/-- The request of the scenario with the declared payment `declared`. -/
def scenarioRequest (declared : Money) : CreateInvoiceRequest :=
  { documentType := DocumentType.invoice, reference := none,
    customer := { name := "Cliente", email := "cliente@example.com", phone := none,
                  address := none, ubiCode := none },
    items := scenarioItems, payment := { method := "01", amount := declared },
    overrides := none }

/-- The customer row the scenario's first request creates. -/
def scenarioCustomer : Customer :=
  { id := 50, emitterID := 1, name := "Cliente", email := "cliente@example.com", phone := none,
    addressLine := none, ubiCode := none, taxID := none, isActive := true, createdAt := 0,
    updatedAt := 0 }

/-- What the lookups of the scenario's first request return. -/
def scenarioLookups : Lookups :=
  { emitter := scenarioEmitter, customer := scenarioCustomer, series := scenarioSeries,
    documentNumber := 1 }

/-- The invoice the scenario's request with declared payment 26.40 leads to. -/
def scenarioInvoice : Invoice :=
  invoiceOf scenarioEnv 1 (scenarioRequest (132 / 5)) "" scenarioLookups

/-- The item rows the scenario's request leads to. -/
def scenarioInvoiceItems : List InvoiceItem :=
  [buildItem scenarioEnv 100 0
     { productID := none, sku := none, description := "Servicio", quantity := 2,
       unitPrice := 10, taxRate := "01" } none,
   buildItem scenarioEnv 100 1
     { productID := none, sku := none, description := "Producto", quantity := 1,
       unitPrice := 5, taxRate := "00" } none]

/-- The scenario's environment, except that the insert of the second item row fails. -/
def scenarioFailingEnv : Env :=
  { scenarioEnv with fails := fun c => decide (c = DBCall.invoiceItemInsert 1) }

/-- The scenario's store without any series. -/
def scenarioStoreNoSeries : Store :=
  { scenarioStore with series := [] }

/-- The precedence function of the specification, `override ?? emitterDefault`: the
caller's override when one is supplied and non-empty, the emitter's configured default
otherwise (overrides absent, or the field empty). -/
def precedence (override : Option String) (emitterDefault : String) : String :=
  match override with
  | some v => if v = "" then emitterDefault else v
  | none => emitterDefault

/-! ## Sequences of creations -/

/-- The `next_number` of the row of the series, if the series has a row. -/
def nextNumberOf (series : List EmitterSeries) (emitterID : UUID) (ptoFacDF : String)
    (docKind : DocumentType) : Option Nat :=
  (series.find? (fun s => s.hasKey emitterID ptoFacDF docKind)).map (fun s => s.nextNumber)

/-- The item row `it` is the row of the request item `r` at zero-based index `i` of the
invoice `invoiceID`: line number `i + 1`, the request's quantity, unit price and tax code,
`LineTotal = quantity × unitPrice`, and the invoice's id. -/
def isRowOf (invoiceID : UUID) (i : Nat) (r : ItemRequest) (it : InvoiceItem) : Prop :=
  it.lineNo = i + 1 ∧ it.quantity = r.quantity ∧ it.unitPrice = r.unitPrice ∧
    it.itbmsRate = r.taxRate ∧ it.lineTotal = r.quantity * r.unitPrice ∧
    it.invoiceID = invoiceID

/-- The scenario's request with the tax code of its second line replaced by "99". -/
def invalidTaxRequest : CreateInvoiceRequest :=
  { scenarioRequest (132 / 5) with
    items := [{ productID := none, sku := none, description := "Servicio", quantity := 2,
                unitPrice := 10, taxRate := "01" },
              { productID := none, sku := none, description := "Producto", quantity := 1,
                unitPrice := 5, taxRate := "99" }] }

/-! ## Exact decimal arithmetic and overflow -/

/-- The tax amount of the specification, `Σ quantity × unitPrice × rate(code)`, in exact
decimal arithmetic over the exact values of the quantities and prices; `none` when one of
them is not a finite number. -/
def specTaxAmount : List ItemRequest → Option ℚ
  | [] => some 0
  | it :: rest =>
    match it.quantity.toRat?, it.unitPrice.toRat?, specTaxAmount rest with
    | some q, some p, some t => some (q * p * specRate it.taxRate + t)
    | _, _, _ => none

/-- The test of the specification, `|x − y| ≤ 0.01`, on the exact values of two amounts;
it does not hold when one of them is not a finite number. -/
def withinCent (x y : Money) : Bool :=
  match x.toRat?, y.toRat? with
  | some a, some b => decide (|a - b| ≤ 1 / 100)
  | _, _ => false

/-- The exact sum of a list of amounts; `none` when one of them is not a finite number. -/
def exactSum : List Money → Option ℚ
  | [] => some 0
  | x :: rest =>
    match x.toRat?, exactSum rest with
    | some a, some s => some (a + s)
    | _, _ => none

/-- The test of the specification, `|x − y| ≤ 0.01`, between an exact sum and the exact
value of an amount. -/
def sumWithinCent (sum : Option ℚ) (y : Money) : Bool :=
  match sum, y.toRat? with
  | some a, some b => decide (|a - b| ≤ 1 / 100)
  | _, _ => false

/-- A request on the scenario whose line total overflows: one line 1e308 × 10.00 at tax
code "00" (line total +Inf, tax +Inf × 0 = NaN, total NaN), declared payment 1.00. -/
def overflowRequest : CreateInvoiceRequest :=
  { scenarioRequest 1 with
    items := [{ productID := none, sku := none, description := "Servicio",
                quantity := Float64.ofRat (10 ^ 308), unitPrice := 10, taxRate := "00" }] }

/-- A request on the scenario with amounts of different magnitudes: the two lines
1 × 1e17 and 1 × 0.30 at tax code "00", declared payment 1e17. -/
def largeRequest : CreateInvoiceRequest :=
  { scenarioRequest (Float64.ofRat (10 ^ 17)) with
    items := [{ productID := none, sku := none, description := "Servicio", quantity := 1,
                unitPrice := Float64.ofRat (10 ^ 17), taxRate := "00" },
              { productID := none, sku := none, description := "Producto", quantity := 1,
                unitPrice := 3 / 10, taxRate := "00" }] }

/-- Row of `invoice_files` (`models.InvoiceFiles`). -/
structure InvoiceFiles where
  id : UUID
  invoiceID : UUID
  pdfData : Bytes
  xmlData : Bytes
  pdfSize : Nat
  xmlSize : Nat
  pdfURL : Option String
  xmlURL : Option String
  generatedAt : Nat
  updatedAt : Nat
  deriving DecidableEq, Repr

/-- The `models.InvoiceFilesResponse` of the files endpoint. -/
structure InvoiceFilesResponse where
  xmlFE : Option String
  xmlProtocolo : Option String
  cafePDFURL : Option String
  disposition : String
  deriving DecidableEq, Repr

/-- The artifact side of the persistent state: the table `invoice_files`, rows in
insertion order, and the objects of the blob store, each under its bucket and key. -/
structure FileStore where
  invoiceFiles : List InvoiceFiles
  blobs : List ((String × String) × Bytes)
  deriving DecidableEq, Repr

/-! ## `internal/database/invoice_files_repository.go` -/

/-- `InvoiceFilesRepository.Exists` (`SELECT COUNT(*) … WHERE invoice_id = $1`, then
`count > 0`). -/
def InvoiceFilesRepository.Exists (env : Env) (fs : FileStore) (caller : FilesCaller)
    (invoiceID : UUID) : Except Error Bool :=
  if env.fails (DBCall.invoiceFilesCount caller) then
    Except.error (Error.errorCheckingInvoiceFilesExistence Error.driver)
  else
    Except.ok (decide ((fs.invoiceFiles.filter (fun f => f.invoiceID = invoiceID)).length > 0))

/-- `InvoiceFilesRepository.Create`. -/
def InvoiceFilesRepository.Create (env : Env) (fs : FileStore) (caller : FilesCaller)
    (files : InvoiceFiles) : Option Error × FileStore :=
  if env.fails (DBCall.invoiceFilesInsert caller) then
    (some (Error.errorCreatingInvoiceFiles Error.driver), fs)
  else
    (none, { fs with invoiceFiles := fs.invoiceFiles ++ [files] })

/-- `InvoiceFilesRepository.Update` (`UPDATE invoice_files SET pdf_data, xml_data,
pdf_size, xml_size, pdf_url, xml_url, updated_at … WHERE invoice_id = $8`). -/
def InvoiceFilesRepository.Update (env : Env) (fs : FileStore) (caller : FilesCaller)
    (files : InvoiceFiles) : Option Error × FileStore :=
  if env.fails (DBCall.invoiceFilesUpdate caller) then
    (some (Error.errorUpdatingInvoiceFiles Error.driver), fs)
  else
    (none, { fs with invoiceFiles := fs.invoiceFiles.map (fun row =>
      if row.invoiceID = files.invoiceID then
        { row with pdfData := files.pdfData, xmlData := files.xmlData,
                   pdfSize := files.pdfSize, xmlSize := files.xmlSize,
                   pdfURL := files.pdfURL, xmlURL := files.xmlURL, updatedAt := env.now }
      else row) })

/-- `InvoiceFilesRepository.CreateOrUpdate`. -/
def InvoiceFilesRepository.CreateOrUpdate (env : Env) (fs : FileStore) (caller : FilesCaller)
    (files : InvoiceFiles) : Option Error × FileStore :=
  match InvoiceFilesRepository.Exists env fs caller files.invoiceID with
  | Except.error e => (some (Error.errorCheckingExistence e), fs)
  | Except.ok true => InvoiceFilesRepository.Update env fs caller files
  | Except.ok false => InvoiceFilesRepository.Create env fs caller files

/-- `InvoiceFilesRepository.GetByInvoiceID`. -/
def InvoiceFilesRepository.GetByInvoiceID (env : Env) (fs : FileStore) (invoiceID : UUID) :
    Except Error InvoiceFiles :=
  if env.fails DBCall.invoiceFilesSelect then
    Except.error (Error.errorQueryingInvoiceFiles Error.driver)
  else
    match fs.invoiceFiles.find? (fun f => f.invoiceID = invoiceID) with
    | none => Except.error (Error.invoiceFilesNotFound invoiceID)
    | some f => Except.ok f

/-! ## `internal/database/supabase.go` -/

/-- `SupabaseClient.UploadFile`: `PutObject` under `(bucketName, fileName)`, replacing an
object already there; the answer is the URL `endpoint/bucket/file`. -/
def SupabaseClient.UploadFile (env : Env) (fs : FileStore) (call : BlobCall)
    (bucketName fileName : String) (fileData : Bytes) : Except Error String × FileStore :=
  if env.blobFails call then
    (Except.error (Error.errorUploadingFileToStorage Error.driver), fs)
  else
    (Except.ok (env.storageEndpoint ++ "/" ++ bucketName ++ "/" ++ fileName),
      { fs with blobs := fs.blobs.filter (fun b => b.1 ≠ (bucketName, fileName)) ++
          [((bucketName, fileName), fileData)] })

/-- `SupabaseClient.DeleteFile`: `DeleteObject` of `(bucketName, fileName)`. -/
def SupabaseClient.DeleteFile (env : Env) (fs : FileStore) (call : BlobCall)
    (bucketName fileName : String) : Option Error × FileStore :=
  if env.blobFails call then
    (some (Error.errorDeletingFileFromStorage Error.driver), fs)
  else
    (none, { fs with blobs := fs.blobs.filter (fun b => b.1 ≠ (bucketName, fileName)) })

/-! ## `internal/services/hybrid_storage_service.go` -/

/-- Go's `strings.TrimPrefix`. -/
def trimPrefixOf (s pre : String) : String :=
  if pre.data.isPrefixOf s.data then String.mk (s.data.drop pre.data.length) else s

/-- The bucket of `NewHybridStorageService`. -/
def bucketName : String := "invoice-files"

/-- The object key `invoices/{id}/factura_{id}.{ext}` of `StoreInvoiceFiles`. -/
def artifactKey (env : Env) (invoiceID : UUID) (ext : String) : String :=
  "invoices/" ++ env.uuidString invoiceID ++ "/factura_" ++ env.uuidString invoiceID ++ "." ++ ext

/-- The public URL `StoreInvoiceFiles` derives from the URL an upload returned. -/
def publicURL (url : String) : String :=
  "https://ambtmugdpopskzxdafdm.supabase.co/storage/v1/object/public/" ++
    trimPrefixOf url "https://ambtmugdpopskzxdafdm.storage.supabase.co/storage/v1/s3/"

/-- `HybridStorageService.StoreInvoiceFiles`; the errors of the two `DeleteFile` calls are
dropped, as in the source. -/
def HybridStorageService.StoreInvoiceFiles (env : Env) (fs : FileStore) (invoiceID : UUID)
    (pdfData xmlData : Bytes) : Except Error InvoiceFilesResponse × FileStore :=
  let pdfFileName := artifactKey env invoiceID "pdf"
  let xmlFileName := artifactKey env invoiceID "xml"
  match SupabaseClient.UploadFile env fs BlobCall.uploadPDF bucketName pdfFileName pdfData with
  | (Except.error e, fs1) => (Except.error (Error.errorUploadingPDFToSupabase e), fs1)
  | (Except.ok pdfURL, fs1) =>
  match SupabaseClient.UploadFile env fs1 BlobCall.uploadXML bucketName xmlFileName xmlData with
  | (Except.error e, fs2) => (Except.error (Error.errorUploadingXMLToSupabase e), fs2)
  | (Except.ok xmlURL, fs2) =>
    let publicPDFURL := publicURL pdfURL
    let publicXMLURL := publicURL xmlURL
    let files : InvoiceFiles :=
      { id := env.newFilesID FilesCaller.storage, invoiceID := invoiceID, pdfData := [],
        xmlData := [], pdfSize := pdfData.length, xmlSize := xmlData.length,
        pdfURL := some publicPDFURL, xmlURL := some publicXMLURL, generatedAt := env.now,
        updatedAt := env.now }
    match InvoiceFilesRepository.CreateOrUpdate env fs2 FilesCaller.storage files with
    | (some e, fs3) =>
      let fs4 := (SupabaseClient.DeleteFile env fs3 BlobCall.deletePDF bucketName pdfFileName).2
      let fs5 := (SupabaseClient.DeleteFile env fs4 BlobCall.deleteXML bucketName xmlFileName).2
      (Except.error (Error.errorSavingInvoiceFilesMetadata e), fs5)
    | (none, fs3) =>
      (Except.ok { xmlFE := some publicXMLURL, xmlProtocolo := some publicXMLURL,
                   cafePDFURL := some publicPDFURL, disposition := "inline" }, fs3)

/-- `HybridStorageService.DownloadFile`: an HTTP GET of the URL. -/
def HybridStorageService.DownloadFile (env : Env) (url : String) : Except Error Bytes :=
  env.httpGet url

/-! ## `internal/services/document_generator.go` -/

/-- The string value of a `models.DocumentType` constant. -/
def DocumentType.value : DocumentType → String
  | DocumentType.invoice => "invoice"
  | DocumentType.importInvoice => "import_invoice"
  | DocumentType.exportInvoice => "export_invoice"
  | DocumentType.creditNote => "credit_note"
  | DocumentType.debitNote => "debit_note"
  | DocumentType.zoneFranca => "zone_franca"
  | DocumentType.reembolso => "reembolso"
  | DocumentType.foreignInvoice => "foreign_invoice"

/-- An operand of `fmt.Sprintf`. -/
inductive FmtArg where
  | str (s : String)
  | int (n : Int)
  | float (x : Money)
  deriving DecidableEq, Repr

/-- Two decimal digits of a number below 100. -/
def twoDigits (n : Nat) : List Char :=
  (if n < 10 then ['0'] else []) ++ (toString n).data

/-- The `%.2f` rendering of an amount (`strconv` with precision 2): `NaN`, `+Inf` and
`-Inf` for the values that are not finite; else the exact value rounded to the nearest
whole number of cents, a tie going to the even one, written with the sign (also of a
negative number that rounds to zero), the integer part, a point and two digits. -/
def formatFixed2 (x : Money) : List Char :=
  match x with
  | Float64.nan => "NaN".data
  | Float64.inf negative => if negative then "-Inf".data else "+Inf".data
  | Float64.finite negative magnitude =>
    let cents : Nat := (roundHalfEven (magnitude * 100)).toNat
    (if negative then ['-'] else []) ++ (toString (cents / 100)).data ++ ['.'] ++
      twoDigits (cents % 100)

/-- Go's `fmt.Sprintf` on the directives the generator's templates use: `%s` with a
string, `%d` with an integer, `%.2f` with a float, and `%%`.  The format is read left to
right; each directive takes the next operand; a directive that finds no operand left is
written as `%!s(MISSING)`, `%!d(MISSING)` or `%!f(MISSING)`.  Every other situation (another
directive, an operand of another type, operands left over) is outside this model: `none`. -/
def sprintf : List Char → List FmtArg → Option (List Char)
  | [], [] => some []
  | [], _ :: _ => none
  | '%' :: '%' :: rest, args => (sprintf rest args).map (fun out => '%' :: out)
  | '%' :: 's' :: rest, FmtArg.str s :: args =>
    (sprintf rest args).map (fun out => s.data ++ out)
  | '%' :: 's' :: rest, [] =>
    (sprintf rest []).map (fun out => "%!s(MISSING)".data ++ out)
  | '%' :: 'd' :: rest, FmtArg.int n :: args =>
    (sprintf rest args).map (fun out => (toString n).data ++ out)
  | '%' :: 'd' :: rest, [] =>
    (sprintf rest []).map (fun out => "%!d(MISSING)".data ++ out)
  | '%' :: '.' :: '2' :: 'f' :: rest, FmtArg.float x :: args =>
    (sprintf rest args).map (fun out => formatFixed2 x ++ out)
  | '%' :: '.' :: '2' :: 'f' :: rest, [] =>
    (sprintf rest []).map (fun out => "%!f(MISSING)".data ++ out)
  | '%' :: _, _ => none
  | c :: rest, args => (sprintf rest args).map (fun out => c :: out)

/-- The first template of `GenerateInvoiceXML`, up to `<items>`. -/
def xmlHeaderTemplate : String :=
  "<?xml version=\"1.0\" encoding=\"UTF-8\"?>\n<factura>\n    <emisor>\n        <ruc>%s-%s-%s-%s</ruc>\n        <nombre>%s</nombre>\n        <direccion>%s</direccion>\n    </emisor>\n    <cliente>\n        <ruc>%s</ruc>\n        <nombre>%s</nombre>\n        <email>%s</email>\n        <direccion>%s</direccion>\n    </cliente>\n    <documento>\n        <numero>%s</numero>\n        <fecha>%s</fecha>\n        <ptoFac>%s</ptoFac>\n        <tipo>%s</tipo>\n    </documento>\n    <items>"

/-- The template of one `<item>` of `GenerateInvoiceXML`. -/
def xmlItemTemplate : String :=
  "\n        <item>\n            <linea>%d</linea>\n            <descripcion>%s</descripcion>\n            <cantidad>%.2f</cantidad>\n            <precioUnitario>%.2f</precioUnitario>\n            <total>%.2f</total>\n        </item>"

/-- The closing text of `GenerateInvoiceXML`, with the three `%.2f` of the totals. -/
def xmlFooterTemplate : String :=
  "\n    </items>\n    <totales>\n        <subtotal>%.2f</subtotal>\n        <itbms>%.2f</itbms>\n        <total>%.2f</total>\n    </totales>\n</factura>"

/-- The `for _, item := range items` loop of `GenerateInvoiceXML`: `xmlContent +=
fmt.Sprintf(template, …)` for every item. -/
def xmlAppendItems : List Char → List InvoiceItem → Option (List Char)
  | xmlContent, [] => some xmlContent
  | xmlContent, item :: rest =>
    match sprintf xmlItemTemplate.data
        [FmtArg.int item.lineNo, FmtArg.str item.description, FmtArg.float item.quantity,
         FmtArg.float item.unitPrice, FmtArg.float item.lineTotal] with
    | none => none
    | some text => xmlAppendItems (xmlContent ++ text) rest

/-- The text `DocumentGenerator.GenerateInvoiceXML` builds (`none` where `sprintf` is
outside its model): the header is formatted, the items are appended, the closing template
is appended, and then the whole of `xmlContent` is handed to `fmt.Sprintf` as the format of
the three totals. -/
def generateInvoiceXMLText (env : Env) (invoice : Invoice) (customer : Customer)
    (emitter : Emitter) (items : List InvoiceItem) : Option String :=
  match sprintf xmlHeaderTemplate.data
      [FmtArg.str emitter.rucTipo, FmtArg.str emitter.rucNumero, FmtArg.str emitter.rucDV,
       FmtArg.str emitter.sucEm, FmtArg.str emitter.name,
       FmtArg.str (match emitter.addressLine with | some a => a | none => "N/A"),
       FmtArg.str (match customer.taxID with | some t => t | none => "N/A"),
       FmtArg.str customer.name, FmtArg.str customer.email,
       FmtArg.str (match customer.addressLine with | some a => a | none => "N/A"),
       FmtArg.str (toString invoice.documentNumber),
       FmtArg.str (env.formatDate invoice.createdAt),
       FmtArg.str invoice.ptoFacDF, FmtArg.str invoice.documentType.value] with
  | none => none
  | some header =>
    match xmlAppendItems header items with
    | none => none
    | some withItems =>
      (sprintf (withItems ++ xmlFooterTemplate.data)
        [FmtArg.float invoice.subtotal, FmtArg.float invoice.itbmsAmount,
         FmtArg.float invoice.totalAmount]).map String.mk

/-- The totals footer an invoice's XML is to end with: the closing template with the
persisted subtotal, tax amount and total, each with two decimals. -/
def expectedFooter (invoice : Invoice) : String :=
  "\n    </items>\n    <totales>\n        <subtotal>" ++ String.mk (formatFixed2 invoice.subtotal) ++
    "</subtotal>\n        <itbms>" ++ String.mk (formatFixed2 invoice.itbmsAmount) ++
    "</itbms>\n        <total>" ++ String.mk (formatFixed2 invoice.totalAmount) ++
    "</total>\n    </totales>\n</factura>"

/-- The scenario's customer, with a trade name that contains `%.2f`. -/
def percentCustomer : Customer :=
  { scenarioCustomer with name := "Tasa %.2f S.A." }

/-- The UTF-8 bytes of a string (`[]byte(s)`). -/
def stringBytes (s : String) : Bytes :=
  s.data.flatMap String.utf8EncodeChar

/-- `DocumentGenerator.GenerateInvoiceXML`: the bytes of the text; its error is always
nil. -/
def GenerateInvoiceXML (env : Env) (invoice : Invoice) (customer : Customer)
    (emitter : Emitter) (items : List InvoiceItem) : Except Error Bytes :=
  match generateInvoiceXMLText env invoice customer emitter items with
  | some text => Except.ok (stringBytes text)
  | none => Except.ok (env.xmlElsewhere invoice customer emitter items)

/-- `DocumentGenerator.GenerateInvoicePDF`: the page is drawn with `gofpdf` and output to a
buffer; the bytes, or the error of `pdf.Output`, come from the environment. -/
def GenerateInvoicePDF (env : Env) (invoice : Invoice) (customer : Customer)
    (emitter : Emitter) (items : List InvoiceItem) : Except Error Bytes :=
  match env.pdfOutput invoice customer emitter items with
  | Except.error e => Except.error (Error.errorGeneratingPDF e)
  | Except.ok pdfData => Except.ok pdfData

/-- `DocumentGenerator.GenerateInvoiceFiles`. -/
def GenerateInvoiceFiles (env : Env) (invoice : Invoice) (customer : Customer)
    (emitter : Emitter) (items : List InvoiceItem) : Except Error InvoiceFiles :=
  match GenerateInvoicePDF env invoice customer emitter items with
  | Except.error e => Except.error (Error.errorGeneratingPDF e)
  | Except.ok pdfData =>
    match GenerateInvoiceXML env invoice customer emitter items with
    | Except.error e => Except.error (Error.errorGeneratingXML e)
    | Except.ok xmlData =>
      Except.ok
        { id := env.newFilesID FilesCaller.service, invoiceID := invoice.id,
          pdfData := pdfData, xmlData := xmlData, pdfSize := pdfData.length,
          xmlSize := xmlData.length, pdfURL := none, xmlURL := none,
          generatedAt := env.now, updatedAt := env.now }

/-! ## The files path of `internal/services/invoice_service.go` -/

/-- `CustomerRepository.GetByID` (`WHERE id = $1 AND is_active = true`).  The `SELECT`
list leaves `tax_id` out, so the `TaxID` of the customer returned is nil whatever the row
holds. -/
def CustomerRepository.GetByID (env : Env) (st : Store) (id : UUID) :
    Except Error Customer × Store :=
  let st1 := st.record DBCall.customerSelectByID
  if env.fails DBCall.customerSelectByID then
    (Except.error (Error.errorQueryingCustomer Error.driver), st1)
  else
    match st.customers.find? (fun c => decide (c.id = id) && c.isActive) with
    | none => (Except.error (Error.customerNotFound id), st1)
    | some c => (Except.ok { c with taxID := none }, st1)

/-- The answer of `GetInvoiceFiles` with the local links of the invoice. -/
def localFilesResponse (env : Env) (id : UUID) : InvoiceFilesResponse :=
  { xmlFE := some ("/v1/invoices/" ++ env.uuidString id ++ "/files/xml"),
    xmlProtocolo := some ("/v1/invoices/" ++ env.uuidString id ++ "/files/xml"),
    cafePDFURL := some ("/v1/invoices/" ++ env.uuidString id ++ "/files/pdf"),
    disposition := "inline" }

/-- The step of `InvoiceService.GetInvoiceFiles` between generation and the final save:
with a storage service, the files are handed to `StoreInvoiceFiles`; on success its URLs
are copied onto `files`, on failure a warning is logged and `files` stays as generated. -/
def storeGenerated (env : Env) (fs : FileStore) (id : UUID) (files : InvoiceFiles) :
    InvoiceFiles × FileStore :=
  if env.storageConfigured then
    match HybridStorageService.StoreInvoiceFiles env fs id files.pdfData files.xmlData with
    | (Except.error _, fs1) => (files, fs1)
    | (Except.ok storageResponse, fs1) =>
      ({ files with
          pdfURL := (match storageResponse.cafePDFURL with
            | some u => some u
            | none => files.pdfURL),
          xmlURL := (match storageResponse.xmlFE with
            | some u => some u
            | none => files.xmlURL) }, fs1)
  else (files, fs)

/-- The answer `InvoiceService.GetInvoiceFiles` builds after a generation: the local
links, replaced by the URLs of `files` where it has them. -/
def generatedFilesResponse (env : Env) (id : UUID) (files : InvoiceFiles) :
    InvoiceFilesResponse :=
  { xmlFE := (match files.xmlURL with
      | some u => some u
      | none => some ("/v1/invoices/" ++ env.uuidString id ++ "/files/xml")),
    xmlProtocolo := (match files.xmlURL with
      | some u => some u
      | none => some ("/v1/invoices/" ++ env.uuidString id ++ "/files/xml")),
    cafePDFURL := (match files.pdfURL with
      | some u => some u
      | none => some ("/v1/invoices/" ++ env.uuidString id ++ "/files/pdf")),
    disposition := "inline" }

/-- `InvoiceService.GetInvoiceFiles`: when `GetByInvoiceID` returns a row, the local links
are answered; otherwise (no row, or a failed query) the invoice, its customer, emitter and
items are read, the files are generated, stored, and saved with `CreateOrUpdate`. -/
def GetInvoiceFiles (env : Env) (st : Store) (fs : FileStore) (id : UUID) :
    Except Error InvoiceFilesResponse × Store × FileStore :=
  match InvoiceFilesRepository.GetByInvoiceID env fs id with
  | Except.ok _ => (Except.ok (localFilesResponse env id), st, fs)
  | Except.error _ =>
  match InvoiceRepository.GetByID env st id with
  | (Except.error e, st1) => (Except.error (Error.errorGettingInvoice e), st1, fs)
  | (Except.ok invoice, st1) =>
  match CustomerRepository.GetByID env st1 invoice.invoice.customerID with
  | (Except.error e, st2) => (Except.error (Error.errorGettingCustomer e), st2, fs)
  | (Except.ok customer, st2) =>
  match EmitterRepository.GetByID env st2 invoice.invoice.emitterID with
  | (Except.error e, st3) => (Except.error (Error.errorGettingEmitter e), st3, fs)
  | (Except.ok emitter, st3) =>
  match InvoiceRepository.GetItemsByInvoiceID env st3 id with
  | (Except.error e, st4) => (Except.error (Error.errorGettingInvoiceItems e), st4, fs)
  | (Except.ok items, st4) =>
  match GenerateInvoiceFiles env invoice.invoice customer emitter items with
  | Except.error e => (Except.error (Error.errorGeneratingInvoiceFiles e), st4, fs)
  | Except.ok files =>
    match InvoiceFilesRepository.CreateOrUpdate env (storeGenerated env fs id files).2
        FilesCaller.service (storeGenerated env fs id files).1 with
    | (some e, fs2) => (Except.error (Error.errorSavingInvoiceFiles e), st4, fs2)
    | (none, fs2) =>
      (Except.ok (generatedFilesResponse env id (storeGenerated env fs id files).1), st4, fs2)

/-- The end of `InvoiceService.DownloadInvoiceFile`: empty data is "file not found". -/
def finishDownload (fileType : String) (id : UUID) (fileData : Bytes) (fileName : String) :
    Except Error (Bytes × String) :=
  if fileData.length = 0 then Except.error (Error.fileNotFound fileType id)
  else Except.ok (fileData, fileName)

/-- `InvoiceService.DownloadInvoiceFile`: the row's inline data when there is some, else
the content behind the row's URL. -/
def DownloadInvoiceFile (env : Env) (fs : FileStore) (id : UUID) (fileType : String) :
    Except Error (Bytes × String) :=
  match InvoiceFilesRepository.GetByInvoiceID env fs id with
  | Except.error e => Except.error (Error.errorGettingInvoiceFiles e)
  | Except.ok files =>
    if fileType = "pdf" then
      if files.pdfData.length > 0 then
        finishDownload fileType id files.pdfData ("factura_" ++ env.uuidString id ++ ".pdf")
      else
        match files.pdfURL with
        | some url =>
          if env.storageConfigured then
            match HybridStorageService.DownloadFile env url with
            | Except.error e => Except.error (Error.errorDownloadingPDFFromSupabase e)
            | Except.ok downloadedData =>
              finishDownload fileType id downloadedData
                ("factura_" ++ env.uuidString id ++ ".pdf")
          else Except.error Error.storageServiceNotAvailable
        | none => Except.error (Error.pdfFileNotFound id)
    else if fileType = "xml" then
      if files.xmlData.length > 0 then
        finishDownload fileType id files.xmlData ("factura_" ++ env.uuidString id ++ ".xml")
      else
        match files.xmlURL with
        | some url =>
          if env.storageConfigured then
            match HybridStorageService.DownloadFile env url with
            | Except.error e => Except.error (Error.errorDownloadingXMLFromSupabase e)
            | Except.ok downloadedData =>
              finishDownload fileType id downloadedData
                ("factura_" ++ env.uuidString id ++ ".xml")
          else Except.error Error.storageServiceNotAvailable
        | none => Except.error (Error.xmlFileNotFound id)
    else Except.error (Error.invalidFileType fileType)

/-! ## Sequences of upserts and scenarios of the files path -/

/-- One call of `InvoiceFilesRepository.CreateOrUpdate`. -/
structure Upsert where
  env : Env
  caller : FilesCaller
  files : InvoiceFiles

/-- The artifact store after the upserts of the list have run one after the other. -/
def runUpserts (fs : FileStore) : List Upsert → FileStore
  | [] => fs
  | u :: rest => runUpserts (InvoiceFilesRepository.CreateOrUpdate u.env fs u.caller u.files).2 rest

/-- At most one row of `invoice_files` per invoice. -/
def FileStore.atMostOnePerInvoice (fs : FileStore) : Prop :=
  ∀ id, (fs.invoiceFiles.filter (fun f => f.invoiceID = id)).length ≤ 1

/-- An artifact store without rows and without blobs. -/
def emptyFiles : FileStore :=
  { invoiceFiles := [], blobs := [] }

/-- The scenario's store after its request with declared payment 26.40 has been created:
it holds the invoice with id 100. -/
def scenarioStoreWithInvoice : Store :=
  (CreateInvoice scenarioEnv scenarioStore 1 (scenarioRequest (132 / 5)) "").2

/-- The scenario's environment, except that the upload of the XML fails. -/
def scenarioXMLUploadFails : Env :=
  { scenarioEnv with blobFails := fun c => decide (c = BlobCall.uploadXML) }

/-- The scenario's environment without a storage service. -/
def scenarioNoStorage : Env :=
  { scenarioEnv with storageConfigured := false }

/-- A first and a second generation for invoice 100, the second with other bytes. -/
def scenarioUpserts : List Upsert :=
  [{ env := scenarioEnv, caller := FilesCaller.service,
     files := { id := 301, invoiceID := 100, pdfData := [37, 80, 68, 70], xmlData := [60],
                pdfSize := 4, xmlSize := 1, pdfURL := none, xmlURL := none,
                generatedAt := 0, updatedAt := 0 } },
   { env := scenarioEnv, caller := FilesCaller.service,
     files := { id := 302, invoiceID := 100, pdfData := [37, 80, 68, 70, 10],
                xmlData := [60, 62], pdfSize := 5, xmlSize := 2,
                pdfURL := some "https://blob/pdf", xmlURL := none,
                generatedAt := 1, updatedAt := 1 } }]

/-- The scenario's environment, except that the count query of the metadata save inside
`StoreInvoiceFiles` fails. -/
def scenarioMetadataFails : Env :=
  { scenarioEnv with
    fails := fun c => decide (c = DBCall.invoiceFilesCount FilesCaller.storage) }

/-! ## The updates of `internal/database/invoice_repository.go`

An `UPDATE` is one round trip; when it was executed, `result.RowsAffected()` may still fail
(`env.rowsAffectedFails`), after the rows were written. -/

/-- `InvoiceRepository.UpdateStatus`
(`UPDATE invoices SET status = $1, updated_at = $2 WHERE id = $3` with the arguments
`status, time.Now(), id`). -/
def InvoiceRepository.UpdateStatus (env : Env) (st : Store) (id : UUID)
    (status : DocumentStatus) : Option Error × Store :=
  let st1 := st.record DBCall.invoiceUpdateStatus
  if env.fails DBCall.invoiceUpdateStatus then
    (some (Error.errorUpdatingInvoiceStatus Error.driver), st1)
  else
    let st2 := { st1 with invoices := st1.invoices.map (fun i =>
      if i.id = id then { i with status := status, updatedAt := env.now } else i) }
    if env.rowsAffectedFails DBCall.invoiceUpdateStatus then
      (some (Error.errorGettingRowsAffected Error.driver), st2)
    else if (st.invoices.filter (fun i => i.id = id)).length = 0 then
      (some (Error.invoiceNotFound id), st2)
    else (none, st2)

/-- `InvoiceRepository.UpdatePACResponse`.  The statement is embedded as it is written,
`UPDATE invoices SET cufe = $1, url_cufe = $2, xml_fe = $3, xml_protocolo = $4,
updated_at = $5 WHERE id = $3`, with the arguments `cufe, urlCUFE, xmlFE, xmlProtocolo,
time.Now(), id`: the row filter `id = $3` names the third argument, `xmlFE`, which the
database has to read as an id (`env.parseUUID`; a text that is no id is a driver error).
The `id` of the call is the sixth argument, which no placeholder names; a driver that
rejects the surplus argument is the case `env.fails`.  The not-found message is built
from `id`. -/
def InvoiceRepository.UpdatePACResponse (env : Env) (st : Store) (id : UUID)
    (cufe urlCUFE xmlFE xmlProtocolo : String) : Option Error × Store :=
  let st1 := st.record DBCall.invoiceUpdatePACResponse
  if env.fails DBCall.invoiceUpdatePACResponse then
    (some (Error.errorUpdatingPACResponse Error.driver), st1)
  else
    match env.parseUUID xmlFE with
    | none => (some (Error.errorUpdatingPACResponse Error.driver), st1)
    | some key =>
      let st2 := { st1 with invoices := st1.invoices.map (fun i =>
        if i.id = key then
          { i with cufe := some cufe, urlCUFE := some urlCUFE, xmlFE := some xmlFE,
                   xmlProtocolo := some xmlProtocolo, updatedAt := env.now }
        else i) }
      if env.rowsAffectedFails DBCall.invoiceUpdatePACResponse then
        (some (Error.errorGettingRowsAffected Error.driver), st2)
      else if (st.invoices.filter (fun i => i.id = key)).length = 0 then
        (some (Error.invoiceNotFound id), st2)
      else (none, st2)

/-- `InvoiceRepository.UpdateEmailStatus`
(`UPDATE invoices SET email_status = $1, updated_at = $2 WHERE id = $3` with the arguments
`status, time.Now(), id`). -/
def InvoiceRepository.UpdateEmailStatus (env : Env) (st : Store) (id : UUID)
    (status : EmailStatus) : Option Error × Store :=
  let st1 := st.record DBCall.invoiceUpdateEmailStatus
  if env.fails DBCall.invoiceUpdateEmailStatus then
    (some (Error.errorUpdatingEmailStatus Error.driver), st1)
  else
    let st2 := { st1 with invoices := st1.invoices.map (fun i =>
      if i.id = id then { i with emailStatus := status, updatedAt := env.now } else i) }
    if env.rowsAffectedFails DBCall.invoiceUpdateEmailStatus then
      (some (Error.errorGettingRowsAffected Error.driver), st2)
    else if (st.invoices.filter (fun i => i.id = id)).length = 0 then
      (some (Error.invoiceNotFound id), st2)
    else (none, st2)

/-! ## The series operations of `internal/database/emitter_repository.go` -/

/-- The `models.CreateSeriesRequest`. -/
structure CreateSeriesRequest where
  ptoFacDF : String
  docKind : DocumentType
  deriving DecidableEq, Repr

/-- `EmitterRepository.GetSeriesList` (`WHERE emitter_id = $1 AND is_active = true ORDER BY
pto_fac_df, doc_kind`); a failing `rows.Scan` is not modelled. -/
def EmitterRepository.GetSeriesList (env : Env) (st : Store) (emitterID : UUID) :
    Except Error (List EmitterSeries) × Store :=
  let st1 := st.record DBCall.seriesListSelect
  if env.fails DBCall.seriesListSelect then
    (Except.error (Error.errorQueryingSeries Error.driver), st1)
  else
    (Except.ok (deliveredRows (env.rowsDelivered DBCall.seriesListSelect)
      (List.insertionSort (fun a b => env.seriesBefore a b = true)
        (st.series.filter (fun s => decide (s.emitterID = emitterID) && s.isActive)))), st1)

/-- `EmitterRepository.CreateSeries`: the insert is skipped only when `GetSeries` returned
a series without an error (`err == nil && existingSeries != nil`); any error of the lookup
leads to the insert.  The timestamps of a series row are not modelled. -/
def EmitterRepository.CreateSeries (env : Env) (st : Store) (emitterID : UUID)
    (req : CreateSeriesRequest) : Except Error EmitterSeries × Store :=
  match EmitterRepository.GetSeries env st emitterID req.ptoFacDF req.docKind with
  | (Except.ok _, st1) =>
    (Except.error (Error.seriesAlreadyExists emitterID req.ptoFacDF req.docKind), st1)
  | (Except.error _, st1) =>
    let series : EmitterSeries :=
      { id := env.newSeriesID, emitterID := emitterID, ptoFacDF := req.ptoFacDF,
        docKind := req.docKind, nextNumber := 1, issuedCount := 0, authorizedCount := 0,
        rejectedCount := 0, isActive := true }
    let st2 := st1.record DBCall.seriesInsert
    if env.fails DBCall.seriesInsert then
      (Except.error (Error.errorCreatingSeries Error.driver), st2)
    else
      (Except.ok series, { st2 with series := st2.series ++ [series] })

/-- The column `UpdateSeriesCounters` increments for a status (`switch status`). -/
def bumpCounter (status : DocumentStatus) (s : EmitterSeries) : EmitterSeries :=
  match status with
  | DocumentStatus.authorized => { s with authorizedCount := s.authorizedCount + 1 }
  | DocumentStatus.rejected => { s with rejectedCount := s.rejectedCount + 1 }
  | _ => { s with issuedCount := s.issuedCount + 1 }

/-- `EmitterRepository.UpdateSeriesCounters`
(`UPDATE emitter_series SET field = field + 1, updated_at = $1 WHERE id = $2`); the
timestamps of a series row are not modelled. -/
def EmitterRepository.UpdateSeriesCounters (env : Env) (st : Store) (seriesID : UUID)
    (status : DocumentStatus) : Option Error × Store :=
  let st1 := st.record DBCall.seriesUpdateCounters
  if env.fails DBCall.seriesUpdateCounters then
    (some (Error.errorUpdatingSeriesCounters Error.driver), st1)
  else
    let st2 := { st1 with series := st1.series.map (fun s =>
      if s.id = seriesID then bumpCounter status s else s) }
    if env.rowsAffectedFails DBCall.seriesUpdateCounters then
      (some (Error.errorGettingRowsAffected Error.driver), st2)
    else if (st.series.filter (fun s => s.id = seriesID)).length = 0 then
      (some (Error.seriesNotFoundByID seriesID), st2)
    else (none, st2)

/-! ## `internal/services/emitter_service.go` -/

/-- The `models.SeriesItem` of a series answer. -/
structure SeriesItem where
  ptoFacDF : String
  docKind : String
  lastAssigned : Int
  issuedCount : Nat
  authorizedCount : Nat
  rejectedCount : Nat
  deriving DecidableEq, Repr

/-- The item `EmitterService.GetSeries` builds for a series row. -/
def seriesItemOf (s : EmitterSeries) : SeriesItem :=
  { ptoFacDF := s.ptoFacDF, docKind := s.docKind.value, lastAssigned := (s.nextNumber : Int) - 1,
    issuedCount := s.issuedCount, authorizedCount := s.authorizedCount,
    rejectedCount := s.rejectedCount }

/-- The value of a Go `int` expression (64 bits, two's complement): results wrap. -/
def wrapInt (x : Int) : Int :=
  (x + 9223372036854775808) % 18446744073709551616 - 9223372036854775808

/-- The pagination at the end of `EmitterService.GetSeries`; `none` is the run-time panic
of a slice expression `items[start:end]` whose bounds are out of range (`start < 0` or
`end < start`; `end` is at most `len(items)` there). -/
def slicePage (items : List SeriesItem) (page pageSize : Int) : Option (List SeriesItem) :=
  let total : Int := items.length
  let start := wrapInt (wrapInt (page - 1) * pageSize)
  let end0 := wrapInt (start + pageSize)
  if start ≥ total then some []
  else
    let end1 := if end0 > total then total else end0
    if 0 ≤ start ∧ start ≤ end1 then
      some ((items.drop start.toNat).take (end1 - start).toNat)
    else none

/-- `EmitterService.GetSeries`: the page and the total; `none` is a run-time panic. -/
def EmitterService.GetSeries (env : Env) (st : Store) (emitterID : UUID)
    (page pageSize : Int) : Option (Except Error (List SeriesItem × Nat)) × Store :=
  match EmitterRepository.GetSeriesList env st emitterID with
  | (Except.error e, st1) => (some (Except.error (Error.errorGettingSeries e)), st1)
  | (Except.ok series, st1) =>
    let items := series.map seriesItemOf
    match slicePage items page pageSize with
    | none => (none, st1)
    | some window => (some (Except.ok (window, items.length)), st1)

/-- `EmitterService.CreateSeries`. -/
def EmitterService.CreateSeries (env : Env) (st : Store) (emitterID : UUID)
    (req : CreateSeriesRequest) : Except Error EmitterSeries × Store :=
  match EmitterRepository.GetByID env st emitterID with
  | (Except.error e, st1) => (Except.error (Error.errorGettingEmitter e), st1)
  | (Except.ok _, st1) =>
    match EmitterRepository.CreateSeries env st1 emitterID req with
    | (Except.error e, st2) => (Except.error (Error.errorCreatingSeries e), st2)
    | (Except.ok series, st2) => (Except.ok series, st2)

/-! ## The notification after a creation (`invoice_service.go`) -/

/-- The body of the goroutine `CreateInvoice` starts after the response is built, run on
the store `st`: the customer and the emitter are read, `SendInvoiceEmail` is called, and
the e-mail status is updated; errors are only logged.  The second component counts the
calls of `SendInvoiceEmail`. -/
def sendEmailDirect (env : Env) (st : Store) (invoice : Invoice) : Store × Nat :=
  match CustomerRepository.GetByID env st invoice.customerID with
  | (Except.error _, st1) => (st1, 0)
  | (Except.ok customer, st1) =>
    match EmitterRepository.GetByID env st1 invoice.emitterID with
    | (Except.error _, st2) => (st2, 0)
    | (Except.ok emitter, st2) =>
      if env.sendFails invoice customer emitter then
        ((InvoiceRepository.UpdateEmailStatus env st2 invoice.id EmailStatus.failed).2, 1)
      else
        ((InvoiceRepository.UpdateEmailStatus env st2 invoice.id EmailStatus.sent).2, 1)

/-- `InvoiceService.CreateInvoice` followed by its goroutine, the goroutine running to its
end on the store the creation left: the answer of the creation, the store, and the number
of calls of `SendInvoiceEmail`.  The goroutine is started on the success path only, and
only when an e-mail service is configured. -/
def CreateInvoiceThenEmail (env : Env) (st : Store) (emitterID : UUID)
    (req : CreateInvoiceRequest) (idempotencyKey : String) :
    Except Error InvoiceResponse × Store × Nat :=
  match createInvoiceLookups env st emitterID req idempotencyKey with
  | (Except.error e, st5) => (Except.error e, st5, 0)
  | (Except.ok l, st5) =>
    match createInvoiceFromTotals env st5 emitterID req idempotencyKey l with
    | (Except.error e, st7) => (Except.error e, st7, 0)
    | (Except.ok response, st7) =>
      if env.resendConfigured then
        (Except.ok response,
          sendEmailDirect env st7 (invoiceOf env emitterID req idempotencyKey l))
      else (Except.ok response, st7, 0)

/-! ## The handlers of `internal/api/api.go`

Each handler is embedded from the point where the emitter is authenticated and the request
is bound; its result is the HTTP status it answers with. -/

/-- Go `strings.Contains` on the characters of the two texts. -/
def containsChars : List Char → List Char → Bool
  | [], sub => sub.isPrefixOf []
  | c :: rest, sub => sub.isPrefixOf (c :: rest) || containsChars rest sub

/-- Go `strings.Contains(s, substr)`. -/
def stringsContains (s substr : String) : Bool :=
  containsChars s.data substr.data

/-- The text `err.Error()` of an error: the format of its `fmt.Errorf`, a wrapped error
rendered in place of `%w`. -/
def Error.message (env : Env) : Error → String
  | .driver => env.driverMessage
  | .invalidTaxRate code => "invalid tax rate: " ++ code
  | .invoiceNotFound id => "invoice not found: " ++ env.uuidString id
  | .errorQueryingInvoice inner => "error querying invoice: " ++ inner.message env
  | .errorQueryingInvoiceByIdempotencyKey inner =>
    "error querying invoice by idempotency key: " ++ inner.message env
  | .errorQueryingInvoiceItems inner => "error querying invoice items: " ++ inner.message env
  | .emitterNotFound id => "emitter not found: " ++ env.uuidString id
  | .errorQueryingEmitter inner => "error querying emitter: " ++ inner.message env
  | .customerNotFoundWithEmail email emitterID =>
    "customer not found with email " ++ email ++ " for emitter " ++ env.uuidString emitterID
  | .errorQueryingCustomer inner => "error querying customer: " ++ inner.message env
  | .errorCreatingCustomer inner => "error creating customer: " ++ inner.message env
  | .seriesNotFound emitterID ptoFacDF docKind =>
    "series not found for emitter " ++ env.uuidString emitterID ++ ", pto_fac_df " ++
      ptoFacDF ++ ", doc_kind " ++ docKind.value
  | .errorQueryingSeries inner => "error querying series: " ++ inner.message env
  | .productNotFound id => "product not found: " ++ env.uuidString id
  | .productNotFoundWithSKU sku emitterID =>
    "product not found with SKU " ++ sku ++ " for emitter " ++ env.uuidString emitterID
  | .errorQueryingProduct inner => "error querying product: " ++ inner.message env
  | .errorBeginningTransaction inner => "error beginning transaction: " ++ inner.message env
  | .errorRollingBackTransaction rollback original =>
    "error rolling back transaction: " ++ rollback.message env ++ ", original error: " ++
      original.message env
  | .errorCommittingTransaction inner => "error committing transaction: " ++ inner.message env
  | .errorInsertingInvoice inner => "error inserting invoice: " ++ inner.message env
  | .errorInsertingInvoiceItem inner => "error inserting invoice item: " ++ inner.message env
  | .idempotencyKeyAlreadyUsed => "idempotency key already used"
  | .errorCheckingIdempotency inner => "error checking idempotency: " ++ inner.message env
  | .errorGettingEmitter inner => "error getting emitter: " ++ inner.message env
  | .errorGettingCreatingCustomer inner =>
    "error getting/creating customer: " ++ inner.message env
  | .errorGettingSeries inner => "error getting series: " ++ inner.message env
  | .errorGettingNextDocumentNumber inner =>
    "error getting next document number: " ++ inner.message env
  | .errorCalculatingTotals inner => "error calculating totals: " ++ inner.message env
  | .amountMismatch total payment =>
    "calculated total (" ++ String.mk (formatFixed2 total) ++
      ") does not match payment amount (" ++ String.mk (formatFixed2 payment) ++ ")"
  | .invalidProductIDFormat productID => "invalid product_id format: " ++ productID
  | .productWithIDNotFound productID inner =>
    "product with ID " ++ productID ++ " not found: " ++ inner.message env
  | .errorCreatingInvoice inner => "error creating invoice: " ++ inner.message env
  | .customerNotFound id => "customer not found: " ++ env.uuidString id
  | .invoiceFilesNotFound invoiceID =>
    "invoice files not found for invoice " ++ env.uuidString invoiceID
  | .errorQueryingInvoiceFiles inner => "error querying invoice files: " ++ inner.message env
  | .errorCheckingInvoiceFilesExistence inner =>
    "error checking invoice files existence: " ++ inner.message env
  | .errorCheckingExistence inner => "error checking existence: " ++ inner.message env
  | .errorCreatingInvoiceFiles inner => "error creating invoice files: " ++ inner.message env
  | .errorUpdatingInvoiceFiles inner => "error updating invoice files: " ++ inner.message env
  | .errorUploadingFileToStorage inner =>
    "error uploading file to Supabase storage: " ++ inner.message env
  | .errorDeletingFileFromStorage inner =>
    "error deleting file from Supabase storage: " ++ inner.message env
  | .errorUploadingPDFToSupabase inner => "error uploading PDF to Supabase: " ++ inner.message env
  | .errorUploadingXMLToSupabase inner => "error uploading XML to Supabase: " ++ inner.message env
  | .errorSavingInvoiceFilesMetadata inner =>
    "error saving invoice files metadata: " ++ inner.message env
  | .errorGeneratingPDF inner => "error generating PDF: " ++ inner.message env
  | .errorGeneratingXML inner => "error generating XML: " ++ inner.message env
  | .errorGettingInvoice inner => "error getting invoice: " ++ inner.message env
  | .errorGettingCustomer inner => "error getting customer: " ++ inner.message env
  | .errorGettingInvoiceItems inner => "error getting invoice items: " ++ inner.message env
  | .errorGeneratingInvoiceFiles inner =>
    "error generating invoice files: " ++ inner.message env
  | .errorSavingInvoiceFiles inner => "error saving invoice files: " ++ inner.message env
  | .errorGettingInvoiceFiles inner => "error getting invoice files: " ++ inner.message env
  | .errorDownloadingPDFFromSupabase inner =>
    "error downloading PDF from Supabase: " ++ inner.message env
  | .errorDownloadingXMLFromSupabase inner =>
    "error downloading XML from Supabase: " ++ inner.message env
  | .storageServiceNotAvailable => "storage service not available"
  | .pdfFileNotFound invoiceID => "PDF file not found for invoice " ++ env.uuidString invoiceID
  | .xmlFileNotFound invoiceID => "XML file not found for invoice " ++ env.uuidString invoiceID
  | .invalidFileType fileType => "invalid file type: " ++ fileType
  | .fileNotFound fileType invoiceID =>
    "file " ++ fileType ++ " not found for invoice " ++ env.uuidString invoiceID
  | .errorUpdatingInvoiceStatus inner => "error updating invoice status: " ++ inner.message env
  | .errorUpdatingPACResponse inner => "error updating PAC response: " ++ inner.message env
  | .errorUpdatingEmailStatus inner => "error updating email status: " ++ inner.message env
  | .errorGettingRowsAffected inner => "error getting rows affected: " ++ inner.message env
  | .seriesAlreadyExists emitterID ptoFacDF docKind =>
    "series already exists for emitter " ++ env.uuidString emitterID ++ ", pto_fac_df " ++
      ptoFacDF ++ ", doc_kind " ++ docKind.value
  | .errorCreatingSeries inner => "error creating series: " ++ inner.message env
  | .errorUpdatingSeriesCounters inner =>
    "error updating series counters: " ++ inner.message env
  | .seriesNotFoundByID seriesID => "series not found: " ++ env.uuidString seriesID

/-- `API.CreateInvoice`: 201 with the response, 409 when the text of the error contains
"idempotency key already used", 500 for every other error. -/
def API.CreateInvoice (env : Env) (st : Store) (emitterID : UUID)
    (req : CreateInvoiceRequest) (idempotencyKey : String) : Nat × Store :=
  match Billing.CreateInvoice env st emitterID req idempotencyKey with
  | (Except.error e, st1) =>
    if stringsContains (e.message env) "idempotency key already used" then (409, st1)
    else (500, st1)
  | (Except.ok _, st1) => (201, st1)

/-- `API.CreateSeries`: 201 with the series, 409 when the text of the error contains
"already exists", 500 for every other error. -/
def API.CreateSeries (env : Env) (st : Store) (emitterID : UUID)
    (req : CreateSeriesRequest) : Nat × Store :=
  match EmitterService.CreateSeries env st emitterID req with
  | (Except.error e, st1) =>
    if stringsContains (e.message env) "already exists" then (409, st1) else (500, st1)
  | (Except.ok _, st1) => (201, st1)

/-- `API.GetSeries`, from the parsed `page` and `page_size` on: a page below 1 becomes 1,
a page size outside 1..100 becomes 20; 200 with the page, 500 on an error; `none` when
`EmitterService.GetSeries` panics. -/
def API.GetSeries (env : Env) (st : Store) (emitterID : UUID) (page pageSize : Int) :
    Option Nat × Store :=
  let page := if page < 1 then 1 else page
  let pageSize := if pageSize < 1 ∨ pageSize > 100 then 20 else pageSize
  match EmitterService.GetSeries env st emitterID page pageSize with
  | (none, st1) => (none, st1)
  | (some (Except.error _), st1) => (some 500, st1)
  | (some (Except.ok _), st1) => (some 200, st1)

/-! ## Scenarios of the updates, the series and the handlers -/

/-- The scenario's store after its invoice 100 was authorized. -/
def scenarioStoreAuthorized : Store :=
  (InvoiceRepository.UpdateStatus scenarioEnv scenarioStoreWithInvoice 100
    DocumentStatus.authorized).2

/-- The scenario's environment, except that `SendInvoiceEmail` fails. -/
def scenarioSendFails : Env :=
  { scenarioEnv with sendFails := fun _ _ _ => true }

/-- A request for the series the scenario's emitter already has. -/
def scenarioSeriesRequest : CreateSeriesRequest :=
  { ptoFacDF := "001", docKind := DocumentType.invoice }

/-- A request for a series the scenario's emitter does not have yet. -/
def scenarioNewSeriesRequest : CreateSeriesRequest :=
  { ptoFacDF := "002", docKind := DocumentType.creditNote }

/-- Three items of a series answer. -/
def scenarioSeriesItems : List SeriesItem :=
  [seriesItemOf scenarioSeries,
   seriesItemOf { scenarioSeries with id := 11, ptoFacDF := "002", nextNumber := 5 },
   seriesItemOf { scenarioSeries with id := 12, ptoFacDF := "003", nextNumber := 9 }]

/-- The page number 2^62 + 1: with page size 2, `(page - 1) * pageSize` is 2^63. -/
def overflowPage : Int := 4611686018427387905

/-! ## Overlapping creations

`CreateInvoice` allocates its document number in an autocommitted statement
(`GetNextDocumentNumber`) and inserts the invoice in a later transaction
(`InvoiceRepository.Create`); between the two, other calls may run. -/

/-- The scenario's store with its series deactivated. -/
def scenarioStoreInactiveSeries : Store :=
  { scenarioStore with series := [{ scenarioSeries with isActive := false }] }

/-- The scenario's environment, except that the insert of a series row fails, as it does
under a unique constraint on the tuple. -/
def scenarioSeriesInsertFails : Env :=
  { scenarioEnv with
    fails := fun c => decide (c = DBCall.seriesInsert),
    driverMessage := "pq: duplicate key value violates unique constraint" }

/-- The scenario's environment, except that the lookup of a series fails. -/
def scenarioSeriesSelectFails : Env :=
  { scenarioEnv with fails := fun c => decide (c = DBCall.seriesSelect) }

/-! # Properties -/

/-! ## Bookkeeping lemmas -/

@[simp] theorem Store.record_emitters (st : Store) (c : DBCall) :
    (st.record c).emitters = st.emitters := rfl

@[simp] theorem Store.record_customers (st : Store) (c : DBCall) :
    (st.record c).customers = st.customers := rfl

@[simp] theorem Store.record_series (st : Store) (c : DBCall) :
    (st.record c).series = st.series := rfl

@[simp] theorem Store.record_products (st : Store) (c : DBCall) :
    (st.record c).products = st.products := rfl

@[simp] theorem Store.record_invoices (st : Store) (c : DBCall) :
    (st.record c).invoices = st.invoices := rfl

@[simp] theorem Store.record_invoiceItems (st : Store) (c : DBCall) :
    (st.record c).invoiceItems = st.invoiceItems := rfl

@[simp] theorem Store.record_log (st : Store) (c : DBCall) :
    (st.record c).log = st.log ++ [c] := rfl

theorem Store.sameData_refl (a : Store) : a.sameData a :=
  ⟨rfl, rfl, rfl, rfl, rfl, rfl⟩

theorem Store.sameData_trans {a b c : Store} (h1 : a.sameData b) (h2 : b.sameData c) :
    a.sameData c := by
  obtain ⟨a1, a2, a3, a4, a5, a6⟩ := h1
  obtain ⟨b1, b2, b3, b4, b5, b6⟩ := h2
  exact ⟨a1.trans b1, a2.trans b2, a3.trans b3, a4.trans b4, a5.trans b5, a6.trans b6⟩

theorem Store.sameData_record (a : Store) (c : DBCall) : a.sameData (a.record c) :=
  ⟨rfl, rfl, rfl, rfl, rfl, rfl⟩

theorem Store.logExt_refl (a : Store) (P : DBCall → Prop) : a.logExt a P :=
  ⟨[], by simp, by simp⟩

theorem Store.logExt_trans {a b c : Store} {P : DBCall → Prop} (h1 : a.logExt b P)
    (h2 : b.logExt c P) : a.logExt c P := by
  obtain ⟨l1, e1, p1⟩ := h1
  obtain ⟨l2, e2, p2⟩ := h2
  refine ⟨l1 ++ l2, by rw [e2, e1, List.append_assoc], ?_⟩
  intro x hx
  rcases List.mem_append.1 hx with h | h
  · exact p1 x h
  · exact p2 x h

theorem Store.logExt_mono {a b : Store} {P Q : DBCall → Prop} (h : a.logExt b P)
    (hPQ : ∀ c, P c → Q c) : a.logExt b Q := by
  obtain ⟨l, e, p⟩ := h
  exact ⟨l, e, fun c hc => hPQ c (p c hc)⟩

theorem Store.logExt_record (a : Store) (c : DBCall) (P : DBCall → Prop) (hc : P c) :
    a.logExt (a.record c) P :=
  ⟨[c], rfl, by simpa using hc⟩

theorem Store.logExt_issued {a b : Store} {P : DBCall → Prop} (h : a.logExt b P)
    (c : DBCall) (hc : ¬ P c) : b.issued c = a.issued c := by
  obtain ⟨l, e, p⟩ := h
  have hnot : c ∉ l := fun hm => hc (p c hm)
  simp [Store.issued, e, List.count_append, List.count_eq_zero_of_not_mem hnot]

/-! ## Frame lemmas of the repositories -/

theorem InvoiceRepository.GetItemsByInvoiceID_store (env : Env) (st : Store) (id : UUID) :
    (InvoiceRepository.GetItemsByInvoiceID env st id).2 =
      st.record DBCall.invoiceItemsSelect := by
  unfold InvoiceRepository.GetItemsByInvoiceID
  split <;> rfl

theorem Store.readOnly_refl (a : Store) : a.readOnly a :=
  ⟨Store.sameData_refl a, Store.logExt_refl a _⟩

theorem Store.readOnly_trans {a b c : Store} (h1 : a.readOnly b) (h2 : b.readOnly c) :
    a.readOnly c :=
  ⟨Store.sameData_trans h1.1 h2.1, Store.logExt_trans h1.2 h2.2⟩

theorem Store.readOnly_record (a : Store) (c : DBCall) (hc : c.isSelect = true) :
    a.readOnly (a.record c) :=
  ⟨Store.sameData_record a c, Store.logExt_record a c _ hc⟩

theorem InvoiceRepository.GetByID_frame (env : Env) (st : Store) (id : UUID) :
    st.readOnly (InvoiceRepository.GetByID env st id).2 := by
  have hitems := InvoiceRepository.GetItemsByInvoiceID_store env
    (st.record DBCall.invoiceSelectByID) id
  have h1 : st.readOnly (st.record DBCall.invoiceSelectByID) := Store.readOnly_record _ _ rfl
  have h2 : st.readOnly
      ((st.record DBCall.invoiceSelectByID).record DBCall.invoiceItemsSelect) :=
    Store.readOnly_trans h1 (Store.readOnly_record _ _ rfl)
  simp only [InvoiceRepository.GetByID]
  split
  · exact h1
  · split
    · exact h1
    · rcases hres : InvoiceRepository.GetItemsByInvoiceID env
        (st.record DBCall.invoiceSelectByID) id with ⟨r, st2⟩
      have hst : st2 = (st.record DBCall.invoiceSelectByID).record DBCall.invoiceItemsSelect := by
        rw [← hitems, hres]
      subst hst
      cases r <;> exact h2

theorem InvoiceRepository.GetByID_ok_of_joined (env : Env) (st : Store) (id : UUID)
    (hf : env.fails DBCall.invoiceSelectByID = false)
    (hj : (InvoiceRepository.joinedRow st id).isSome = true) :
    ∃ r, (InvoiceRepository.GetByID env st id).1 = Except.ok r := by
  simp only [InvoiceRepository.GetByID, hf, Bool.false_eq_true, if_false]
  cases hrow : InvoiceRepository.joinedRow st id with
  | none => simp [hrow] at hj
  | some x =>
    obtain ⟨i, e, c⟩ := x
    rcases hres : InvoiceRepository.GetItemsByInvoiceID env
      (st.record DBCall.invoiceSelectByID) id with ⟨r, st2⟩
    cases r <;> exact ⟨_, rfl⟩

theorem InvoiceRepository.joinedRow_isSome (st : Store) (row : Invoice)
    (hrow : row ∈ st.invoices)
    (hfk : (∃ e ∈ st.emitters, e.id = row.emitterID) ∧
      (∃ c ∈ st.customers, c.id = row.customerID)) :
    (InvoiceRepository.joinedRow st row.id).isSome = true := by
  unfold InvoiceRepository.joinedRow
  rw [List.findSome?_isSome_iff]
  refine ⟨row, hrow, ?_⟩
  obtain ⟨⟨e, he, hee⟩, ⟨c, hc, hcc⟩⟩ := hfk
  have h1 : (st.emitters.find? (fun e => decide (e.id = row.emitterID))).isSome = true := by
    rw [List.find?_isSome]
    exact ⟨e, he, by simpa using hee⟩
  have h2 : (st.customers.find? (fun c => decide (c.id = row.customerID))).isSome = true := by
    rw [List.find?_isSome]
    exact ⟨c, hc, by simpa using hcc⟩
  obtain ⟨e1, he1⟩ := Option.isSome_iff_exists.1 h1
  obtain ⟨c1, hc1⟩ := Option.isSome_iff_exists.1 h2
  simp [he1, hc1]

theorem InvoiceRepository.GetByIdempotencyKey_frame (env : Env) (st : Store) (key : String) :
    st.readOnly (InvoiceRepository.GetByIdempotencyKey env st key).2 := by
  have h1 : st.readOnly (st.record DBCall.invoiceSelectByIdempotencyKey) :=
    Store.readOnly_record _ _ rfl
  simp only [InvoiceRepository.GetByIdempotencyKey]
  split
  · exact h1
  · split
    · exact h1
    · rename_i row _
      have h2 := InvoiceRepository.GetByID_frame env
        (st.record DBCall.invoiceSelectByIdempotencyKey) row.id
      rcases hres : InvoiceRepository.GetByID env
        (st.record DBCall.invoiceSelectByIdempotencyKey) row.id with ⟨r, st2⟩
      rw [hres] at h2
      cases r <;> exact Store.readOnly_trans h1 h2

theorem InvoiceRepository.GetByIdempotencyKey_none (env : Env) (st : Store) (key : String)
    (h : (InvoiceRepository.GetByIdempotencyKey env st key).1 = Except.ok none) :
    ∀ i ∈ st.invoices, i.idempotencyKey ≠ some key := by
  simp only [InvoiceRepository.GetByIdempotencyKey] at h
  split at h
  · simp at h
  · cases hfind : st.invoices.find? (fun i => decide (i.idempotencyKey = some key)) with
    | none =>
      intro i hi
      simpa using List.find?_eq_none.1 hfind i hi
    | some row =>
      rcases hres : InvoiceRepository.GetByID env
        (st.record DBCall.invoiceSelectByIdempotencyKey) row.id with ⟨r2, st2⟩
      simp only [hfind, hres] at h
      cases r2 <;> simp at h

theorem InvoiceRepository.GetByIdempotencyKey_found (env : Env) (st : Store) (key : String)
    (hf1 : env.fails DBCall.invoiceSelectByIdempotencyKey = false)
    (hf2 : env.fails DBCall.invoiceSelectByID = false)
    (hj : ∀ row, st.invoices.find? (fun i => decide (i.idempotencyKey = some key)) = some row →
      (InvoiceRepository.joinedRow st row.id).isSome = true)
    (hex : ∃ i ∈ st.invoices, i.idempotencyKey = some key) :
    ∃ r, (InvoiceRepository.GetByIdempotencyKey env st key).1 = Except.ok (some r) := by
  simp only [InvoiceRepository.GetByIdempotencyKey, hf1, Bool.false_eq_true, if_false]
  cases hfind : st.invoices.find? (fun i => decide (i.idempotencyKey = some key)) with
  | none =>
    obtain ⟨i, hi, hk⟩ := hex
    have := List.find?_eq_none.1 hfind i hi
    simp [hk] at this
  | some row =>
    have hj1 := hj row hfind
    obtain ⟨r, hr⟩ := InvoiceRepository.GetByID_ok_of_joined env
      (st.record DBCall.invoiceSelectByIdempotencyKey) row.id hf2 hj1
    rcases hres : InvoiceRepository.GetByID env
      (st.record DBCall.invoiceSelectByIdempotencyKey) row.id with ⟨r2, st2⟩
    rw [hres] at hr
    simp only at hr
    subst hr
    exact ⟨r, by simp only [hres]⟩

theorem InvoiceRepository.GetByIdempotencyKey_not_none (env : Env) (st : Store) (key : String)
    (hex : ∃ i ∈ st.invoices, i.idempotencyKey = some key) :
    (InvoiceRepository.GetByIdempotencyKey env st key).1 ≠ Except.ok none := by
  intro h
  obtain ⟨i, hi, hk⟩ := hex
  exact InvoiceRepository.GetByIdempotencyKey_none env st key h i hi hk

theorem checkIdempotency_frame (env : Env) (st : Store) (key : String) :
    st.readOnly (checkIdempotency env st key).2 := by
  unfold checkIdempotency
  split
  · have h := InvoiceRepository.GetByIdempotencyKey_frame env st key
    rcases hres : InvoiceRepository.GetByIdempotencyKey env st key with ⟨r, st1⟩
    rw [hres] at h
    rcases r with e | (_ | v) <;> exact h
  · exact Store.readOnly_refl st

theorem checkIdempotency_duplicate (env : Env) (st : Store) (key : String)
    (hkey : key ≠ "")
    (hf1 : env.fails DBCall.invoiceSelectByIdempotencyKey = false)
    (hf2 : env.fails DBCall.invoiceSelectByID = false)
    (hj : ∀ row, st.invoices.find? (fun i => decide (i.idempotencyKey = some key)) = some row →
      (InvoiceRepository.joinedRow st row.id).isSome = true)
    (hex : ∃ i ∈ st.invoices, i.idempotencyKey = some key) :
    (checkIdempotency env st key).1 = some Error.idempotencyKeyAlreadyUsed := by
  obtain ⟨r, hr⟩ := InvoiceRepository.GetByIdempotencyKey_found env st key hf1 hf2 hj hex
  unfold checkIdempotency
  rw [if_pos hkey]
  rcases hres : InvoiceRepository.GetByIdempotencyKey env st key with ⟨r2, st1⟩
  rw [hres] at hr
  simp only at hr
  subst hr
  rfl

theorem checkIdempotency_blocks (env : Env) (st : Store) (key : String)
    (hkey : key ≠ "") (hex : ∃ i ∈ st.invoices, i.idempotencyKey = some key) :
    ∃ e, (checkIdempotency env st key).1 = some e := by
  have hnn := InvoiceRepository.GetByIdempotencyKey_not_none env st key hex
  unfold checkIdempotency
  rw [if_pos hkey]
  rcases hres : InvoiceRepository.GetByIdempotencyKey env st key with ⟨r, st1⟩
  rw [hres] at hnn
  rcases r with e | (_ | v)
  · exact ⟨_, rfl⟩
  · exact absurd rfl hnn
  · exact ⟨_, rfl⟩

theorem joinedRow_of_foreignKeys (st : Store) (hfk : st.foreignKeysHold) (key : String) :
    ∀ row, st.invoices.find? (fun i => decide (i.idempotencyKey = some key)) = some row →
      (InvoiceRepository.joinedRow st row.id).isSome = true :=
  fun row h => InvoiceRepository.joinedRow_isSome st row (List.mem_of_find?_eq_some h)
    (hfk row (List.mem_of_find?_eq_some h))

theorem checkIdempotency_pass (env : Env) (st : Store) (key : String)
    (h : (checkIdempotency env st key).1 = none) :
    key = "" ∨ ∀ i ∈ st.invoices, i.idempotencyKey ≠ some key := by
  by_cases hkey : key = ""
  · exact Or.inl hkey
  · right
    unfold checkIdempotency at h
    rw [if_pos hkey] at h
    rcases hres : InvoiceRepository.GetByIdempotencyKey env st key with ⟨r, st1⟩
    rw [hres] at h
    rcases r with e | (_ | v)
    · simp at h
    · exact InvoiceRepository.GetByIdempotencyKey_none env st key (by rw [hres])
    · simp at h

theorem EmitterRepository.GetByID_store (env : Env) (st : Store) (id : UUID) :
    (EmitterRepository.GetByID env st id).2 = st.record DBCall.emitterSelectByID := by
  simp only [EmitterRepository.GetByID]
  split
  · rfl
  · split <;> rfl

theorem EmitterRepository.GetByID_ok (env : Env) (st : Store) (id : UUID) (e : Emitter)
    (h : (EmitterRepository.GetByID env st id).1 = Except.ok e) :
    st.emitters.find? (fun e => decide (e.id = id) && e.isActive) = some e := by
  simp only [EmitterRepository.GetByID] at h
  split at h
  · simp at h
  · split at h
    · simp at h
    · rename_i e1 hfind
      simp only [Except.ok.injEq] at h
      rw [hfind, h]

theorem EmitterRepository.GetSeries_store (env : Env) (st : Store) (emitterID : UUID)
    (ptoFacDF : String) (docKind : DocumentType) :
    (EmitterRepository.GetSeries env st emitterID ptoFacDF docKind).2 =
      st.record DBCall.seriesSelect := by
  simp only [EmitterRepository.GetSeries]
  split
  · rfl
  · split <;> rfl

theorem EmitterRepository.GetSeries_ok (env : Env) (st : Store) (emitterID : UUID)
    (ptoFacDF : String) (docKind : DocumentType) (s : EmitterSeries)
    (h : (EmitterRepository.GetSeries env st emitterID ptoFacDF docKind).1 = Except.ok s) :
    st.series.find? (fun s => s.hasKey emitterID ptoFacDF docKind && s.isActive) = some s := by
  simp only [EmitterRepository.GetSeries] at h
  split at h
  · simp at h
  · split at h
    · simp at h
    · rename_i s1 hfind
      simp only [Except.ok.injEq] at h
      rw [hfind, h]

theorem EmitterRepository.GetSeries_not_found (env : Env) (st : Store) (emitterID : UUID)
    (ptoFacDF : String) (docKind : DocumentType)
    (hf : env.fails DBCall.seriesSelect = false)
    (hnone : ∀ s ∈ st.series, ¬ (s.hasKey emitterID ptoFacDF docKind = true ∧ s.isActive = true)) :
    (EmitterRepository.GetSeries env st emitterID ptoFacDF docKind).1 =
      Except.error (Error.seriesNotFound emitterID ptoFacDF docKind) := by
  have hfind : st.series.find? (fun s => s.hasKey emitterID ptoFacDF docKind && s.isActive)
      = none := by
    rw [List.find?_eq_none]
    intro s hs
    simpa using hnone s hs
  simp only [EmitterRepository.GetSeries, hf, Bool.false_eq_true, if_false, hfind]

theorem CustomerRepository.GetByEmail_store (env : Env) (st : Store) (emitterID : UUID)
    (email : String) :
    (CustomerRepository.GetByEmail env st emitterID email).2 =
      st.record DBCall.customerSelectByEmail := by
  simp only [CustomerRepository.GetByEmail]
  split
  · rfl
  · split <;> rfl

theorem CustomerRepository.GetByEmail_ok (env : Env) (st : Store) (emitterID : UUID)
    (email : String) (c : Customer)
    (h : (CustomerRepository.GetByEmail env st emitterID email).1 = Except.ok c) :
    ∃ row ∈ st.customers, c = { row with taxID := none } := by
  simp only [CustomerRepository.GetByEmail] at h
  split at h
  · simp at h
  · split at h
    · simp at h
    · rename_i c1 hfind
      simp only [Except.ok.injEq] at h
      exact ⟨c1, List.mem_of_find?_eq_some hfind, h.symm⟩

/-- What `getOrCreateCustomer` leaves behind: only `customers` may grow, by the returned
customer, and only the lookup and the insert are issued. -/
theorem getOrCreateCustomer_frame (env : Env) (st : Store) (req : CustomerRequest)
    (emitterID : UUID) :
    (getOrCreateCustomer env st req emitterID).2.emitters = st.emitters ∧
    (getOrCreateCustomer env st req emitterID).2.series = st.series ∧
    (getOrCreateCustomer env st req emitterID).2.products = st.products ∧
    (getOrCreateCustomer env st req emitterID).2.invoices = st.invoices ∧
    (getOrCreateCustomer env st req emitterID).2.invoiceItems = st.invoiceItems ∧
    (∃ l, (getOrCreateCustomer env st req emitterID).2.customers = st.customers ++ l) ∧
    st.logExt (getOrCreateCustomer env st req emitterID).2
      (fun c => c.isSelect = true ∨ c = DBCall.customerInsert) ∧
    (∀ c, (getOrCreateCustomer env st req emitterID).1 = Except.ok c →
      ∃ row ∈ (getOrCreateCustomer env st req emitterID).2.customers,
        c = { row with taxID := none }) := by
  have hstore := CustomerRepository.GetByEmail_store env st emitterID req.email
  have hok := CustomerRepository.GetByEmail_ok env st emitterID req.email
  have l1 : st.logExt (st.record DBCall.customerSelectByEmail)
      (fun c => c.isSelect = true ∨ c = DBCall.customerInsert) :=
    Store.logExt_record _ _ _ (Or.inl rfl)
  have l2 : st.logExt ((st.record DBCall.customerSelectByEmail).record DBCall.customerInsert)
      (fun c => c.isSelect = true ∨ c = DBCall.customerInsert) :=
    Store.logExt_trans l1 (Store.logExt_record _ _ _ (Or.inr rfl))
  simp only [getOrCreateCustomer]
  rcases hres : CustomerRepository.GetByEmail env st emitterID req.email with ⟨r, st1⟩
  rw [hres] at hstore hok
  simp only at hstore hok
  subst hstore
  cases r with
  | ok c =>
    refine ⟨rfl, rfl, rfl, rfl, rfl, ⟨[], by simp⟩, l1, ?_⟩
    intro c1 hc1
    simp only [Except.ok.injEq] at hc1
    subst hc1
    exact hok c rfl
  | error e =>
    simp only [CustomerRepository.Create]
    cases hf : env.fails DBCall.customerInsert with
    | true =>
      simp only [if_true]
      refine ⟨rfl, rfl, rfl, rfl, rfl, ⟨[], by simp⟩, l2, ?_⟩
      intro c1 hc1
      simp at hc1
    | false =>
      simp only [Bool.false_eq_true, if_false]
      refine ⟨rfl, rfl, rfl, rfl, rfl, ⟨[_], rfl⟩, ?_, ?_⟩
      · obtain ⟨l, hl, hp⟩ := l2
        exact ⟨l, hl, hp⟩
      · intro c1 hc1
        simp only [Except.ok.injEq] at hc1
        subst hc1
        exact ⟨_, List.mem_append_right _ (List.mem_singleton_self _), rfl⟩

theorem get_next_folio_none (series : List EmitterSeries) (emitterID : UUID)
    (ptoFacDF : String) (docKind : DocumentType)
    (h : get_next_folio series emitterID ptoFacDF docKind = none) :
    ∀ s ∈ series, s.hasKey emitterID ptoFacDF docKind = false := by
  induction series with
  | nil => intro s hs; simp at hs
  | cons a rest ih =>
    intro s hs
    simp only [get_next_folio] at h
    by_cases hk : a.hasKey emitterID ptoFacDF docKind = true
    · simp [hk] at h
    · simp only [hk, Bool.false_eq_true, if_false] at h
      cases hrec : get_next_folio rest emitterID ptoFacDF docKind with
      | none =>
        rcases List.mem_cons.1 hs with h1 | h1
        · subst h1; simpa using hk
        · exact ih hrec s h1
      | some x => simp [hrec] at h

theorem InvoiceRepository.GetNextDocumentNumber_frame (env : Env) (st : Store)
    (emitterID : UUID) (ptoFacDF : String) (docKind : DocumentType) :
    (InvoiceRepository.GetNextDocumentNumber env st emitterID ptoFacDF docKind).2.emitters
      = st.emitters ∧
    (InvoiceRepository.GetNextDocumentNumber env st emitterID ptoFacDF docKind).2.customers
      = st.customers ∧
    (InvoiceRepository.GetNextDocumentNumber env st emitterID ptoFacDF docKind).2.products
      = st.products ∧
    (InvoiceRepository.GetNextDocumentNumber env st emitterID ptoFacDF docKind).2.invoices
      = st.invoices ∧
    (InvoiceRepository.GetNextDocumentNumber env st emitterID ptoFacDF docKind).2.invoiceItems
      = st.invoiceItems ∧
    (InvoiceRepository.GetNextDocumentNumber env st emitterID ptoFacDF docKind).2.log
      = st.log ++ [DBCall.getNextFolio] ∧
    (∀ n, (InvoiceRepository.GetNextDocumentNumber env st emitterID ptoFacDF docKind).1
        = Except.ok n →
      get_next_folio st.series emitterID ptoFacDF docKind = some (n,
        (InvoiceRepository.GetNextDocumentNumber env st emitterID ptoFacDF docKind).2.series)) ∧
    (∀ e, (InvoiceRepository.GetNextDocumentNumber env st emitterID ptoFacDF docKind).1
        = Except.error e →
      (InvoiceRepository.GetNextDocumentNumber env st emitterID ptoFacDF docKind).2.series
        = st.series) := by
  simp only [InvoiceRepository.GetNextDocumentNumber]
  split
  · refine ⟨rfl, rfl, rfl, rfl, rfl, rfl, ?_, ?_⟩
    · intro n hn; simp at hn
    · intro e _; rfl
  · cases hfolio : get_next_folio st.series emitterID ptoFacDF docKind with
    | none =>
      refine ⟨rfl, rfl, rfl, rfl, rfl, rfl, ?_, ?_⟩
      · intro n hn; simp at hn
      · intro e _; rfl
    | some x =>
      obtain ⟨n, series1⟩ := x
      refine ⟨rfl, rfl, rfl, rfl, rfl, rfl, ?_, ?_⟩
      · intro n1 hn1
        simp only [Except.ok.injEq] at hn1
        subst hn1
        rfl
      · intro e he; simp at he

theorem DBCall.isTx_of_isSelect (c : DBCall) (h : c.isSelect = true) : c.isTx = false := by
  cases c <;> first | rfl | cases h

/-- What the head of `CreateInvoice` leaves behind and what it has established when it
reaches the totals step. -/
theorem createInvoiceLookups_spec (env : Env) (st : Store) (emitterID : UUID)
    (req : CreateInvoiceRequest) (key : String) :
    (createInvoiceLookups env st emitterID req key).2.emitters = st.emitters ∧
    (createInvoiceLookups env st emitterID req key).2.products = st.products ∧
    (createInvoiceLookups env st emitterID req key).2.invoices = st.invoices ∧
    (createInvoiceLookups env st emitterID req key).2.invoiceItems = st.invoiceItems ∧
    (∃ l, (createInvoiceLookups env st emitterID req key).2.customers = st.customers ++ l) ∧
    st.logExt (createInvoiceLookups env st emitterID req key).2 (fun c => c.isTx = false) ∧
    (∀ e, (createInvoiceLookups env st emitterID req key).1 = Except.error e →
      (createInvoiceLookups env st emitterID req key).2.series = st.series) ∧
    (∀ l, (createInvoiceLookups env st emitterID req key).1 = Except.ok l →
      (key = "" ∨ ∀ i ∈ st.invoices, i.idempotencyKey ≠ some key) ∧
      st.emitters.find? (fun e => decide (e.id = emitterID) && e.isActive) = some l.emitter ∧
      (∃ row ∈ (createInvoiceLookups env st emitterID req key).2.customers,
        l.customer = { row with taxID := none }) ∧
      st.series.find? (fun s => s.hasKey emitterID (resolvePtoFacDF req l.emitter)
        req.documentType && s.isActive) = some l.series ∧
      get_next_folio st.series emitterID l.series.ptoFacDF req.documentType =
        some (l.documentNumber, (createInvoiceLookups env st emitterID req key).2.series)) := by
  have sel : ∀ c : DBCall, c.isSelect = true → c.isTx = false := DBCall.isTx_of_isSelect
  simp only [createInvoiceLookups]
  -- idempotency check
  have f1 := checkIdempotency_frame env st key
  have p1 := checkIdempotency_pass env st key
  rcases h1 : checkIdempotency env st key with ⟨r1, st1⟩
  rw [h1] at f1 p1
  simp only at f1 p1
  obtain ⟨⟨a1, a2, a3, a4, a5, a6⟩, lg1⟩ := f1
  have lg1 : st.logExt st1 (fun c => c.isTx = false) := Store.logExt_mono lg1 sel
  cases r1 with
  | some e =>
    refine ⟨a1.symm, a4.symm, a5.symm, a6.symm, ⟨[], by simp [a2]⟩, lg1, ?_, ?_⟩
    · intro _ _; exact a3.symm
    · intro l hl; simp at hl
  | none =>
  simp only
  -- emitter
  have f2 := EmitterRepository.GetByID_store env st1 emitterID
  have p2 := EmitterRepository.GetByID_ok env st1 emitterID
  rcases h2 : EmitterRepository.GetByID env st1 emitterID with ⟨r2, st2⟩
  rw [h2] at f2 p2
  simp only at f2 p2
  subst f2
  have lg2 : st.logExt (st1.record DBCall.emitterSelectByID) (fun c => c.isTx = false) :=
    Store.logExt_trans lg1 (Store.logExt_record _ _ _ rfl)
  cases r2 with
  | error e =>
    refine ⟨a1.symm, a4.symm, a5.symm, a6.symm, ⟨[], by simp [a2]⟩, lg2, ?_, ?_⟩
    · intro _ _; exact a3.symm
    · intro l hl; simp at hl
  | ok emitter =>
  simp only
  -- customer
  have f3 := getOrCreateCustomer_frame env (st1.record DBCall.emitterSelectByID) req.customer
    emitterID
  rcases h3 : getOrCreateCustomer env (st1.record DBCall.emitterSelectByID) req.customer
    emitterID with ⟨r3, st3⟩
  rw [h3] at f3
  simp only [Store.record_emitters, Store.record_series, Store.record_products,
    Store.record_invoices, Store.record_invoiceItems, Store.record_customers] at f3
  obtain ⟨b1, b3, b4, b5, b6, ⟨cl, b2⟩, lg3, p3⟩ := f3
  have lg3 : st.logExt st3 (fun c => c.isTx = false) :=
    Store.logExt_trans lg2 (Store.logExt_mono lg3 (by
      intro c hc
      rcases hc with hc | hc
      · exact sel c hc
      · subst hc; rfl))
  cases r3 with
  | error e =>
    refine ⟨b1.trans a1.symm, b4.trans a4.symm, b5.trans a5.symm, b6.trans a6.symm,
      ⟨cl, by rw [b2, a2]⟩, lg3, ?_, ?_⟩
    · intro _ _; exact b3.trans a3.symm
    · intro l hl; simp at hl
  | ok customer =>
  simp only
  -- series
  have f4 := EmitterRepository.GetSeries_store env st3 emitterID (resolvePtoFacDF req emitter)
    req.documentType
  have p4 := EmitterRepository.GetSeries_ok env st3 emitterID (resolvePtoFacDF req emitter)
    req.documentType
  rcases h4 : EmitterRepository.GetSeries env st3 emitterID (resolvePtoFacDF req emitter)
    req.documentType with ⟨r4, st4⟩
  rw [h4] at f4 p4
  simp only at f4 p4
  subst f4
  have lg4 : st.logExt (st3.record DBCall.seriesSelect) (fun c => c.isTx = false) :=
    Store.logExt_trans lg3 (Store.logExt_record _ _ _ rfl)
  cases r4 with
  | error e =>
    refine ⟨b1.trans a1.symm, b4.trans a4.symm, b5.trans a5.symm, b6.trans a6.symm,
      ⟨cl, by rw [Store.record_customers, b2, a2]⟩, lg4, ?_, ?_⟩
    · intro _ _; exact b3.trans a3.symm
    · intro l hl; simp at hl
  | ok series =>
  simp only
  -- document number
  have f5 := InvoiceRepository.GetNextDocumentNumber_frame env (st3.record DBCall.seriesSelect)
    emitterID series.ptoFacDF req.documentType
  rcases h5 : InvoiceRepository.GetNextDocumentNumber env (st3.record DBCall.seriesSelect)
    emitterID series.ptoFacDF req.documentType with ⟨r5, st5⟩
  rw [h5] at f5
  simp only [Store.record_emitters, Store.record_series, Store.record_products,
    Store.record_invoices, Store.record_invoiceItems, Store.record_customers] at f5
  obtain ⟨c1, c2, c4, c5, c6, clog, pok, perr⟩ := f5
  have lg5 : st.logExt st5 (fun c => c.isTx = false) :=
    Store.logExt_trans lg4 ⟨[DBCall.getNextFolio], clog, by simp [DBCall.isTx]⟩
  cases r5 with
  | error e =>
    refine ⟨c1.trans (b1.trans a1.symm), c4.trans (b4.trans a4.symm),
      c5.trans (b5.trans a5.symm), c6.trans (b6.trans a6.symm),
      ⟨cl, by rw [c2, b2, a2]⟩, lg5, ?_, ?_⟩
    · intro _ _; exact (perr e rfl).trans (b3.trans a3.symm)
    · intro l hl; simp at hl
  | ok n =>
    refine ⟨c1.trans (b1.trans a1.symm), c4.trans (b4.trans a4.symm),
      c5.trans (b5.trans a5.symm), c6.trans (b6.trans a6.symm),
      ⟨cl, by rw [c2, b2, a2]⟩, lg5, ?_, ?_⟩
    · intro e he; simp at he
    · intro l hl
      simp only [Except.ok.injEq] at hl
      subst hl
      simp only
      refine ⟨?_, ?_, ?_, ?_, ?_⟩
      · rcases p1 rfl with h | h
        · exact Or.inl h
        · exact Or.inr h
      · have := p2 emitter rfl
        rw [← a1] at this
        exact this
      · rw [c2]; exact p3 customer rfl
      · have := p4 series rfl
        rw [b3, ← a3] at this
        exact this
      · have := pok n rfl
        rw [b3, ← a3] at this
        exact this

/-! ## The transaction of `InvoiceRepository.Create` -/

theorem InvoiceRepository.insertItems_spec (env : Env) (items : List InvoiceItem) :
    ∀ (line : Nat) (tx : Store),
      (InvoiceRepository.insertItems env items line tx).2.emitters = tx.emitters ∧
      (InvoiceRepository.insertItems env items line tx).2.customers = tx.customers ∧
      (InvoiceRepository.insertItems env items line tx).2.series = tx.series ∧
      (InvoiceRepository.insertItems env items line tx).2.products = tx.products ∧
      (InvoiceRepository.insertItems env items line tx).2.invoices = tx.invoices ∧
      tx.logExt (InvoiceRepository.insertItems env items line tx).2 (fun c => c.isTx = true) ∧
      ((InvoiceRepository.insertItems env items line tx).1 = none →
        (InvoiceRepository.insertItems env items line tx).2.invoiceItems =
          tx.invoiceItems ++ items) ∧
      ((InvoiceRepository.insertItems env items line tx).1 = none ↔
        ∀ i, i < items.length → env.fails (DBCall.invoiceItemInsert (line + i)) = false) := by
  induction items with
  | nil =>
    intro line tx
    simp only [InvoiceRepository.insertItems]
    exact ⟨(by trivial), (by trivial), (by trivial), (by trivial), (by trivial), Store.logExt_refl _ _, fun _ => by simp, by simp⟩
  | cons item rest ih =>
    intro line tx
    simp only [InvoiceRepository.insertItems]
    have lrec : tx.logExt (tx.record (DBCall.invoiceItemInsert line)) (fun c => c.isTx = true) :=
      Store.logExt_record _ _ _ rfl
    cases hf : env.fails (DBCall.invoiceItemInsert line) with
    | true =>
      simp only [if_true]
      refine ⟨(by trivial), (by trivial), (by trivial), (by trivial), (by trivial), lrec, fun h => by simp at h, ?_⟩
      constructor
      · intro h; simp at h
      · intro h
        have := h 0 (by simp)
        simp [hf] at this
    | false =>
      simp only [Bool.false_eq_true, if_false]
      obtain ⟨e1, e2, e3, e4, e5, lg, happ, hiff⟩ := ih (line + 1)
        { tx.record (DBCall.invoiceItemInsert line) with
          invoiceItems := (tx.record (DBCall.invoiceItemInsert line)).invoiceItems ++ [item] }
      refine ⟨e1, e2, e3, e4, e5, ?_, ?_, ?_⟩
      · obtain ⟨l, hl, hp⟩ := lg
        refine ⟨DBCall.invoiceItemInsert line :: l, ?_, ?_⟩
        · rw [hl]; simp
        · intro c hc
          rcases List.mem_cons.1 hc with h | h
          · subst h; rfl
          · exact hp c h
      · intro h
        rw [happ h]
        simp
      · rw [hiff]
        constructor
        · intro h i hi
          cases i with
          | zero => simpa using hf
          | succ j =>
            have := h j (by simpa using hi)
            rw [show line + (j + 1) = line + 1 + j by omega]
            exact this
        · intro h i hi
          have := h (i + 1) (by simpa using hi)
          rw [show line + 1 + i = line + (i + 1) by omega]
          exact this

/-- `InvoiceRepository.Create` is all-or-nothing on `invoices` and `invoice_items`, touches
no other table, and succeeds exactly when no round trip of the transaction fails. -/
theorem InvoiceRepository.Create_spec (env : Env) (st : Store) (invoice : Invoice)
    (items : List InvoiceItem) :
    (InvoiceRepository.Create env st invoice items).2.emitters = st.emitters ∧
    (InvoiceRepository.Create env st invoice items).2.customers = st.customers ∧
    (InvoiceRepository.Create env st invoice items).2.series = st.series ∧
    (InvoiceRepository.Create env st invoice items).2.products = st.products ∧
    st.logExt (InvoiceRepository.Create env st invoice items).2 (fun c => c.isTx = true) ∧
    ((InvoiceRepository.Create env st invoice items).1 = none →
      (InvoiceRepository.Create env st invoice items).2.invoices = st.invoices ++ [invoice] ∧
      (InvoiceRepository.Create env st invoice items).2.invoiceItems =
        st.invoiceItems ++ items) ∧
    ((InvoiceRepository.Create env st invoice items).1 ≠ none →
      (InvoiceRepository.Create env st invoice items).2.invoices = st.invoices ∧
      (InvoiceRepository.Create env st invoice items).2.invoiceItems = st.invoiceItems) ∧
    ((InvoiceRepository.Create env st invoice items).1 = none ↔
      env.fails DBCall.txBegin = false ∧ env.fails DBCall.invoiceInsert = false ∧
      (∀ i, i < items.length → env.fails (DBCall.invoiceItemInsert i) = false) ∧
      env.fails DBCall.txCommit = false) := by
  simp only [InvoiceRepository.Create, DB.WithTransaction]
  have l0 : st.logExt (st.record DBCall.txBegin) (fun c => c.isTx = true) :=
    Store.logExt_record _ _ _ rfl
  cases hb : env.fails DBCall.txBegin with
  | true =>
    simp only [if_true]
    exact ⟨(by trivial), (by trivial), (by trivial), (by trivial), l0, fun h => by simp at h, fun _ => ⟨(by trivial), (by trivial)⟩, by simp⟩
  | false =>
  simp only [Bool.false_eq_true, if_false, InvoiceRepository.createInTx]
  have l1 : st.logExt ((st.record DBCall.txBegin).record DBCall.invoiceInsert)
      (fun c => c.isTx = true) :=
    Store.logExt_trans l0 (Store.logExt_record _ _ _ rfl)
  cases hi : env.fails DBCall.invoiceInsert with
  | true =>
    simp only [if_true]
    have l2 : st.logExt
        { st with log := ((st.record DBCall.txBegin).record DBCall.invoiceInsert).log ++
          [DBCall.txRollback] } (fun c => c.isTx = true) := by
      obtain ⟨l, hl, hp⟩ := l1
      refine ⟨l ++ [DBCall.txRollback], ?_, ?_⟩
      · show ((st.record DBCall.txBegin).record DBCall.invoiceInsert).log ++
          [DBCall.txRollback] = st.log ++ (l ++ [DBCall.txRollback])
        rw [hl, List.append_assoc]
      intro c hc
      rcases List.mem_append.1 hc with h | h
      · exact hp c h
      · simp at h; subst h; rfl
    split <;> exact ⟨(by trivial), (by trivial), (by trivial), (by trivial), l2, fun h => by simp at h, fun _ => ⟨(by trivial), (by trivial)⟩, by simp⟩
  | false =>
  simp only [Bool.false_eq_true, if_false]
  obtain ⟨e1, e2, e3, e4, e5, lg, happ, hiff⟩ := InvoiceRepository.insertItems_spec env items 0
    { (st.record DBCall.txBegin).record DBCall.invoiceInsert with
      invoices := ((st.record DBCall.txBegin).record DBCall.invoiceInsert).invoices ++ [invoice] }
  simp only [Nat.zero_add] at hiff
  rcases hres : InvoiceRepository.insertItems env items 0
    { (st.record DBCall.txBegin).record DBCall.invoiceInsert with
      invoices := ((st.record DBCall.txBegin).record DBCall.invoiceInsert).invoices ++ [invoice] }
    with ⟨r, tx⟩
  rw [hres] at e1 e2 e3 e4 e5 lg happ hiff
  simp only at e1 e2 e3 e4 e5 lg happ hiff
  have ltx : st.logExt tx (fun c => c.isTx = true) := by
    obtain ⟨la, hla, hpa⟩ := l1
    obtain ⟨lb, hlb, hpb⟩ := lg
    refine ⟨la ++ lb, ?_, ?_⟩
    · rw [hlb]
      simp only [Store.record_log] at hla ⊢
      rw [hla, List.append_assoc]
    · intro c hc
      rcases List.mem_append.1 hc with h | h
      · exact hpa c h
      · exact hpb c h
  have lext : ∀ c : DBCall, c.isTx = true →
      st.logExt { st with log := tx.log ++ [c] } (fun c => c.isTx = true) := by
    intro c hc
    obtain ⟨l, hl, hp⟩ := ltx
    refine ⟨l ++ [c], ?_, ?_⟩
    · show tx.log ++ [c] = st.log ++ (l ++ [c])
      rw [hl, List.append_assoc]
    intro x hx
    rcases List.mem_append.1 hx with h | h
    · exact hp x h
    · simp at h; subst h; exact hc
  cases r with
  | some err =>
    simp only
    have hne : ¬ (∀ i, i < items.length → env.fails (DBCall.invoiceItemInsert i) = false) := by
      intro h
      have := hiff.2 h
      simp at this
    split <;>
      exact ⟨(by trivial), (by trivial), (by trivial), (by trivial), lext _ rfl, fun h => by simp at h, fun _ => ⟨(by trivial), (by trivial)⟩,
        by simp [hne]⟩
  | none =>
    simp only
    have hall := hiff.1 rfl
    cases hc : env.fails DBCall.txCommit with
    | true =>
      simp only [if_true]
      exact ⟨(by trivial), (by trivial), (by trivial), (by trivial), lext _ rfl, fun h => by simp at h, fun _ => ⟨(by trivial), (by trivial)⟩,
        by simp⟩
    | false =>
      simp only [Bool.false_eq_true, if_false]
      refine ⟨e1, e2, e3, e4, Store.logExt_trans ltx (Store.logExt_record _ _ _ rfl), ?_, ?_, ?_⟩
      · intro _
        exact ⟨by simp [e5], by simp [happ rfl]⟩
      · intro h; simp at h
      · simp only [true_and, and_true]
        exact ⟨fun _ => hall, fun _ => trivial⟩

/-! ## The tail of `CreateInvoice` -/

theorem resolveProduct_frame (env : Env) (st : Store) (emitterID : UUID) (i : Nat)
    (itemReq : ItemRequest) : st.readOnly (resolveProduct env st emitterID i itemReq).2 := by
  simp only [resolveProduct]
  split
  · split
    · exact Store.readOnly_refl st
    · rename_i productID _
      have hst : (ProductRepository.GetByID env st i productID).2 =
          st.record (DBCall.productSelectByID i) := by
        simp only [ProductRepository.GetByID]
        split
        · rfl
        · split <;> rfl
      rcases hres : ProductRepository.GetByID env st i productID with ⟨r, st1⟩
      rw [hres] at hst
      simp only at hst
      subst hst
      cases r <;> exact Store.readOnly_record _ _ rfl
  · split
    · rename_i sku _
      have hst : (ProductRepository.GetBySKU env st i emitterID sku).2 =
          st.record (DBCall.productSelectBySKU i) := by
        simp only [ProductRepository.GetBySKU]
        split
        · rfl
        · split <;> rfl
      rcases hres : ProductRepository.GetBySKU env st i emitterID sku with ⟨r, st1⟩
      rw [hres] at hst
      simp only at hst
      subst hst
      cases r <;> exact Store.readOnly_record _ _ rfl
    · exact Store.readOnly_refl st

theorem buildItems_spec (env : Env) (emitterID invoiceID : UUID) (reqs : List ItemRequest) :
    ∀ (i : Nat) (st : Store),
      st.readOnly (buildItems env emitterID invoiceID reqs i st).2 ∧
      ∀ items, (buildItems env emitterID invoiceID reqs i st).1 = Except.ok items →
        items.map (fun it => it.lineTotal) = reqs.map (fun r => r.quantity * r.unitPrice) ∧
        (∀ it ∈ items, it.invoiceID = invoiceID) ∧
        items.length = reqs.length := by
  induction reqs with
  | nil =>
    intro i st
    simp only [buildItems]
    refine ⟨Store.readOnly_refl st, ?_⟩
    intro items h
    simp only [Except.ok.injEq] at h
    subst h
    simp
  | cons itemReq rest ih =>
    intro i st
    simp only [buildItems]
    have f1 := resolveProduct_frame env st emitterID i itemReq
    rcases h1 : resolveProduct env st emitterID i itemReq with ⟨r1, st1⟩
    rw [h1] at f1
    simp only at f1
    cases r1 with
    | error e =>
      refine ⟨f1, ?_⟩
      intro items h
      simp at h
    | ok product =>
      simp only
      obtain ⟨f2, p2⟩ := ih (i + 1) st1
      rcases h2 : buildItems env emitterID invoiceID rest (i + 1) st1 with ⟨r2, st2⟩
      rw [h2] at f2 p2
      simp only at f2 p2
      cases r2 with
      | error e =>
        refine ⟨Store.readOnly_trans f1 f2, ?_⟩
        intro items h
        simp at h
      | ok items0 =>
        refine ⟨Store.readOnly_trans f1 f2, ?_⟩
        intro items h
        simp only [Except.ok.injEq] at h
        subst h
        obtain ⟨q1, q2, q3⟩ := p2 items0 rfl
        refine ⟨?_, ?_, ?_⟩
        · simp only [List.map_cons, q1]
          rfl
        · intro it hit
          rcases List.mem_cons.1 hit with h | h
          · subst h; rfl
          · exact q2 it h
        · simp [q3]

/-- What the tail of `CreateInvoice` does to the store it is entered with. -/
theorem createInvoiceFromTotals_spec (env : Env) (st5 : Store) (emitterID : UUID)
    (req : CreateInvoiceRequest) (key : String) (l : Lookups) :
    (createInvoiceFromTotals env st5 emitterID req key l).2.emitters = st5.emitters ∧
    (createInvoiceFromTotals env st5 emitterID req key l).2.customers = st5.customers ∧
    (createInvoiceFromTotals env st5 emitterID req key l).2.series = st5.series ∧
    (createInvoiceFromTotals env st5 emitterID req key l).2.products = st5.products ∧
    (∀ e, (createInvoiceFromTotals env st5 emitterID req key l).1 = Except.error e →
      (createInvoiceFromTotals env st5 emitterID req key l).2.invoices = st5.invoices ∧
      (createInvoiceFromTotals env st5 emitterID req key l).2.invoiceItems =
        st5.invoiceItems) ∧
    (∀ resp, (createInvoiceFromTotals env st5 emitterID req key l).1 = Except.ok resp →
      (calculateTotals req.items).2.2.2 = none ∧
      amountMismatch (calculateTotals req.items).2.2.1 req.payment.amount = false ∧
      resp = buildResponse env (invoiceOf env emitterID req key l) l.emitter ∧
      (createInvoiceFromTotals env st5 emitterID req key l).2.invoices =
        st5.invoices ++ [invoiceOf env emitterID req key l] ∧
      ∃ items,
        (createInvoiceFromTotals env st5 emitterID req key l).2.invoiceItems =
          st5.invoiceItems ++ items ∧
        items.map (fun it => it.lineTotal) =
          req.items.map (fun r => r.quantity * r.unitPrice) ∧
        (∀ it ∈ items, it.invoiceID = (invoiceOf env emitterID req key l).id) ∧
        items.length = req.items.length) := by
  simp only [createInvoiceFromTotals, invoiceOf]
  rcases hct : calculateTotals req.items with ⟨sub, itb, tot, err⟩
  cases err with
  | some e =>
    simp only
    exact ⟨trivial, trivial, trivial, trivial, fun _ _ => ⟨trivial, trivial⟩, fun r h => by simp at h⟩
  | none =>
  simp only
  cases hm : amountMismatch tot req.payment.amount with
  | true =>
    simp only [if_true]
    exact ⟨trivial, trivial, trivial, trivial, fun _ _ => ⟨trivial, trivial⟩, fun r h => by simp at h⟩
  | false =>
  simp only [Bool.false_eq_true, if_false]
  obtain ⟨f6, p6⟩ := buildItems_spec env emitterID
    (buildInvoice env emitterID req key l.emitter l.customer l.series l.documentNumber
      sub itb tot).id req.items 0 st5
  rcases h6 : buildItems env emitterID
    (buildInvoice env emitterID req key l.emitter l.customer l.series l.documentNumber
      sub itb tot).id req.items 0 st5 with ⟨r6, st6⟩
  rw [h6] at f6 p6
  simp only at f6 p6
  obtain ⟨⟨a1, a2, a3, a4, a5, a6⟩, _⟩ := f6
  cases r6 with
  | error e =>
    simp only
    exact ⟨a1.symm, a2.symm, a3.symm, a4.symm, fun _ _ => ⟨a5.symm, a6.symm⟩,
      fun r h => by simp at h⟩
  | ok items =>
  simp only
  obtain ⟨q1, q2, q3⟩ := p6 items rfl
  obtain ⟨c1, c2, c3, c4, _, cok, cerr, _⟩ := InvoiceRepository.Create_spec env st6
    (buildInvoice env emitterID req key l.emitter l.customer l.series l.documentNumber
      sub itb tot) items
  rcases h7 : InvoiceRepository.Create env st6
    (buildInvoice env emitterID req key l.emitter l.customer l.series l.documentNumber
      sub itb tot) items with ⟨r7, st7⟩
  rw [h7] at c1 c2 c3 c4 cok cerr
  simp only at c1 c2 c3 c4 cok cerr
  cases r7 with
  | some e =>
    simp only
    obtain ⟨d1, d2⟩ := cerr (by simp)
    exact ⟨c1.trans a1.symm, c2.trans a2.symm, c3.trans a3.symm, c4.trans a4.symm,
      fun _ _ => ⟨d1.trans a5.symm, d2.trans a6.symm⟩, fun r h => by simp at h⟩
  | none =>
    simp only
    obtain ⟨d1, d2⟩ := cok rfl
    refine ⟨c1.trans a1.symm, c2.trans a2.symm, c3.trans a3.symm, c4.trans a4.symm,
      fun e h => by simp at h, ?_⟩
    intro resp hresp
    simp only [Except.ok.injEq] at hresp
    refine ⟨trivial, trivial, hresp.symm, by rw [d1, a5], items, by rw [d2, a6], q1, q2, q3⟩

/-- What a call of `CreateInvoice` does to the store, by outcome. -/
theorem CreateInvoice_spec (env : Env) (st : Store) (emitterID : UUID)
    (req : CreateInvoiceRequest) (key : String) :
    (CreateInvoice env st emitterID req key).2.emitters = st.emitters ∧
    (CreateInvoice env st emitterID req key).2.products = st.products ∧
    (∃ cl, (CreateInvoice env st emitterID req key).2.customers = st.customers ++ cl) ∧
    (∀ e, (CreateInvoice env st emitterID req key).1 = Except.error e →
      (CreateInvoice env st emitterID req key).2.invoices = st.invoices ∧
      (CreateInvoice env st emitterID req key).2.invoiceItems = st.invoiceItems ∧
      ((CreateInvoice env st emitterID req key).2.series = st.series ∨
        ∃ p n, get_next_folio st.series emitterID p req.documentType =
          some (n, (CreateInvoice env st emitterID req key).2.series))) ∧
    (∀ resp, (CreateInvoice env st emitterID req key).1 = Except.ok resp →
      ∃ l, (createInvoiceLookups env st emitterID req key).1 = Except.ok l ∧
        (key = "" ∨ ∀ i ∈ st.invoices, i.idempotencyKey ≠ some key) ∧
        st.emitters.find? (fun e => decide (e.id = emitterID) && e.isActive) = some l.emitter ∧
        (∃ row ∈ (CreateInvoice env st emitterID req key).2.customers,
          l.customer = { row with taxID := none }) ∧
        st.series.find? (fun s => s.hasKey emitterID (resolvePtoFacDF req l.emitter)
          req.documentType && s.isActive) = some l.series ∧
        get_next_folio st.series emitterID l.series.ptoFacDF req.documentType =
          some (l.documentNumber, (CreateInvoice env st emitterID req key).2.series) ∧
        (calculateTotals req.items).2.2.2 = none ∧
        amountMismatch (calculateTotals req.items).2.2.1 req.payment.amount = false ∧
        resp = buildResponse env (invoiceOf env emitterID req key l) l.emitter ∧
        (CreateInvoice env st emitterID req key).2.invoices =
          st.invoices ++ [invoiceOf env emitterID req key l] ∧
        ∃ items,
          (CreateInvoice env st emitterID req key).2.invoiceItems = st.invoiceItems ++ items ∧
          items.map (fun it => it.lineTotal) =
            req.items.map (fun r => r.quantity * r.unitPrice) ∧
          (∀ it ∈ items, it.invoiceID = (invoiceOf env emitterID req key l).id) ∧
          items.length = req.items.length) := by
  obtain ⟨a1, a4, a5, a6, ⟨cl, a2⟩, _, aerr, aok⟩ :=
    createInvoiceLookups_spec env st emitterID req key
  simp only [CreateInvoice]
  rcases h1 : createInvoiceLookups env st emitterID req key with ⟨r1, st5⟩
  rw [h1] at a1 a2 a4 a5 a6 aerr aok
  simp only at a1 a2 a4 a5 a6 aerr aok
  cases r1 with
  | error e =>
    simp only
    refine ⟨a1, a4, ⟨cl, a2⟩, ?_, ?_⟩
    · intro _ _
      exact ⟨a5, a6, Or.inl (aerr e rfl)⟩
    · intro resp h; simp at h
  | ok l =>
    simp only
    obtain ⟨p1, p2, p3, p4, p5⟩ := aok l rfl
    obtain ⟨b1, b2, b3, b4, berr, bok⟩ :=
      createInvoiceFromTotals_spec env st5 emitterID req key l
    refine ⟨b1.trans a1, b4.trans a4, ⟨cl, b2.trans a2⟩, ?_, ?_⟩
    · intro e he
      obtain ⟨d1, d2⟩ := berr e he
      refine ⟨d1.trans a5, d2.trans a6, Or.inr ⟨l.series.ptoFacDF, l.documentNumber, ?_⟩⟩
      rw [b3]; exact p5
    · intro resp hresp
      obtain ⟨q1, q2, q3, q4, items, q5, q6, q7, q8⟩ := bok resp hresp
      refine ⟨l, rfl, p1, p2, ?_, p4, ?_, q1, q2, q3, ?_, items, ?_, q6, q7, q8⟩
      · rw [b2]; exact p3
      · rw [b3]; exact p5
      · rw [q4, a5]
      · rw [q5, a6]

theorem CreateInvoice_of_check_error (env : Env) (st : Store) (emitterID : UUID)
    (req : CreateInvoiceRequest) (key : String) (e : Error)
    (h : (checkIdempotency env st key).1 = some e) :
    CreateInvoice env st emitterID req key = (Except.error e, (checkIdempotency env st key).2) := by
  simp only [CreateInvoice, createInvoiceLookups]
  rcases hres : checkIdempotency env st key with ⟨r, st1⟩
  rw [hres] at h
  simp only at h
  subst h
  rfl

/-! ## Totals -/

theorem itbmsRate_of_valid {code : String} (h : validTaxCode code) :
    itbmsRate code = some (Float64.ofRat (specRate code)) := by
  unfold validTaxCode at h
  rcases h with h | h | h | h <;> subst h <;> rfl

theorem itbmsRate_eq_none_iff (code : String) :
    itbmsRate code = none ↔ ¬ validTaxCode code := by
  unfold itbmsRate validTaxCode
  by_cases h0 : code = "00"
  · simp [h0]
  by_cases h1 : code = "01"
  · simp [h1]
  by_cases h2 : code = "02"
  · simp [h2]
  by_cases h3 : code = "03"
  · simp [h3]
  simp [h0, h1, h2, h3]

theorem calculateTotalsLoop_of_valid (items : List ItemRequest) :
    ∀ (subtotal itbmsAmount : Money), (∀ it ∈ items, validTaxCode it.taxRate) →
      calculateTotalsLoop items subtotal itbmsAmount =
        (items.foldl (fun acc it => acc + it.quantity * it.unitPrice) subtotal,
         items.foldl
           (fun acc it => acc + it.quantity * it.unitPrice * Float64.ofRat (specRate it.taxRate))
           itbmsAmount,
         items.foldl (fun acc it => acc + it.quantity * it.unitPrice) subtotal +
           items.foldl
             (fun acc it =>
               acc + it.quantity * it.unitPrice * Float64.ofRat (specRate it.taxRate))
             itbmsAmount,
         none) := by
  induction items with
  | nil => intro s t _; simp [calculateTotalsLoop]
  | cons it rest ih =>
    intro s t h
    have hit : validTaxCode it.taxRate := h it (List.mem_cons_self _ _)
    have hrest : ∀ x ∈ rest, validTaxCode x.taxRate :=
      fun x hx => h x (List.mem_cons_of_mem _ hx)
    simp only [calculateTotalsLoop, itbmsRate_of_valid hit, ih _ _ hrest, List.foldl_cons]

theorem calculateTotalsLoop_error_iff (items : List ItemRequest) :
    ∀ (subtotal itbmsAmount : Money),
      (calculateTotalsLoop items subtotal itbmsAmount).2.2.2 ≠ none ↔
        ∃ it ∈ items, ¬ validTaxCode it.taxRate := by
  induction items with
  | nil => intro s t; simp [calculateTotalsLoop]
  | cons it rest ih =>
    intro s t
    by_cases hv : validTaxCode it.taxRate
    · simp only [calculateTotalsLoop, itbmsRate_of_valid hv, ih, List.mem_cons,
        exists_eq_or_imp, hv, not_true_eq_false, false_or]
    · have hn : itbmsRate it.taxRate = none := (itbmsRate_eq_none_iff _).2 hv
      simp only [calculateTotalsLoop, hn]
      simp [hv]

theorem calculateTotalsLoop_error_zero (items : List ItemRequest) :
    ∀ (subtotal itbmsAmount : Money),
      (calculateTotalsLoop items subtotal itbmsAmount).2.2.2 ≠ none →
        (calculateTotalsLoop items subtotal itbmsAmount).1 = 0 ∧
        (calculateTotalsLoop items subtotal itbmsAmount).2.1 = 0 ∧
        (calculateTotalsLoop items subtotal itbmsAmount).2.2.1 = 0 := by
  induction items with
  | nil => intro s t h; simp [calculateTotalsLoop] at h
  | cons it rest ih =>
    intro s t h
    cases hr : itbmsRate it.taxRate with
    | none => simp [calculateTotalsLoop, hr]
    | some rate =>
      simp only [calculateTotalsLoop, hr] at h ⊢
      exact ih _ _ h

/-- Counterexample to C1: on the two lines of the scenario (2 × 10.00 at code "01",
1 × 5.00 at code "00") every tax code is valid and the exact decimal sum
Σ quantity × unitPrice × rate is 1.40, but the tax amount `calculateTotals` returns is the
`float64` product 20 × 0.07 = 1.4000000000000001 (6305039478318695 / 2^52); and on one
line 1e308 × 10.00 at code "00" the subtotal it returns is +Inf and the tax amount and the
total are NaN, which are no numbers at all. -/
theorem calculateTotals_not_exact :
    (∀ it ∈ scenarioItems, validTaxCode it.taxRate) ∧
    specTaxAmount scenarioItems = some (7 / 5) ∧
    (calculateTotals scenarioItems).2.1 =
      Float64.finite false (6305039478318695 / 4503599627370496) ∧
    Float64.toRat? (calculateTotals scenarioItems).2.1 ≠ specTaxAmount scenarioItems ∧
    (∀ it ∈ overflowRequest.items, validTaxCode it.taxRate) ∧
    calculateTotals overflowRequest.items =
      (Float64.inf false, Float64.nan, Float64.nan, none) := by
  refine ⟨by decide, by decide!, by decide!, by decide!, by decide!, by decide!⟩

/-- C1, amended. When every tax code of the list is one of "00", "01", "02", "03",
`calculateTotals` returns no error; the subtotal is the `float64` running sum, from 0 and
in the order of the list, of the products quantity × unit price; the tax amount is the
`float64` running sum of the products (quantity × unit price) × rate(code), the rate being
the `float64` nearest to 0, 0.07, 0.10, 0.15; and the total is the `float64` sum of the
two.  Every product and every addition is rounded to `float64`. -/
theorem calculateTotals_float_sums (items : List ItemRequest)
    (h : ∀ it ∈ items, validTaxCode it.taxRate) :
    calculateTotals items =
      (items.foldl (fun acc it => acc + it.quantity * it.unitPrice) 0,
       items.foldl
         (fun acc it => acc + it.quantity * it.unitPrice * Float64.ofRat (specRate it.taxRate))
         0,
       items.foldl (fun acc it => acc + it.quantity * it.unitPrice) 0 +
         items.foldl
           (fun acc it =>
             acc + it.quantity * it.unitPrice * Float64.ofRat (specRate it.taxRate))
           0,
       none) ∧
    specRate "00" = 0 ∧ specRate "01" = 7 / 100 ∧ specRate "02" = 10 / 100 ∧
      specRate "03" = 15 / 100 := by
  refine ⟨?_, rfl, rfl, rfl, rfl⟩
  unfold calculateTotals
  exact calculateTotalsLoop_of_valid items 0 0 h

/-- Witness of C1 (amended) on the two lines of the scenario. -/
theorem calculateTotals_float_sums_witness :
    (∀ it ∈ scenarioItems, validTaxCode it.taxRate) ∧
    calculateTotals scenarioItems =
      (scenarioItems.foldl (fun acc it => acc + it.quantity * it.unitPrice) 0,
       scenarioItems.foldl
         (fun acc it => acc + it.quantity * it.unitPrice * Float64.ofRat (specRate it.taxRate))
         0,
       scenarioItems.foldl (fun acc it => acc + it.quantity * it.unitPrice) 0 +
         scenarioItems.foldl
           (fun acc it =>
             acc + it.quantity * it.unitPrice * Float64.ofRat (specRate it.taxRate))
           0,
       none) :=
  ⟨by decide, (calculateTotals_float_sums scenarioItems (by decide)).1⟩

/-- C2. `calculateTotals` returns an error exactly when some item of the list carries a
tax code outside "00", "01", "02", "03"; and whenever it returns an error, the subtotal,
tax amount and total it returns are all zero. -/
theorem calculateTotals_error_iff (items : List ItemRequest) :
    ((calculateTotals items).2.2.2 ≠ none ↔ ∃ it ∈ items, ¬ validTaxCode it.taxRate) ∧
    ((calculateTotals items).2.2.2 ≠ none →
      (calculateTotals items).1 = 0 ∧ (calculateTotals items).2.1 = 0 ∧
        (calculateTotals items).2.2.1 = 0) :=
  ⟨calculateTotalsLoop_error_iff items 0 0, calculateTotalsLoop_error_zero items 0 0⟩

/-- Witness of C2 on a list whose second line carries the code "99". -/
theorem calculateTotals_error_iff_witness :
    (∃ it ∈ [(⟨none, none, "a", 2, 10, "01"⟩ : ItemRequest), ⟨none, none, "b", 1, 5, "99"⟩],
        ¬ validTaxCode it.taxRate) ∧
    (calculateTotals [(⟨none, none, "a", 2, 10, "01"⟩ : ItemRequest), ⟨none, none, "b", 1, 5, "99"⟩]).2.2.2
      ≠ none ∧
    (calculateTotals [(⟨none, none, "a", 2, 10, "01"⟩ : ItemRequest), ⟨none, none, "b", 1, 5, "99"⟩]).1 = 0 ∧
    (calculateTotals [(⟨none, none, "a", 2, 10, "01"⟩ : ItemRequest), ⟨none, none, "b", 1, 5, "99"⟩]).2.1 = 0 ∧
    (calculateTotals [(⟨none, none, "a", 2, 10, "01"⟩ : ItemRequest), ⟨none, none, "b", 1, 5, "99"⟩]).2.2.1 = 0 :=
  have hbad : ∃ it ∈ [(⟨none, none, "a", 2, 10, "01"⟩ : ItemRequest), ⟨none, none, "b", 1, 5, "99"⟩],
      ¬ validTaxCode it.taxRate := ⟨⟨none, none, "b", 1, 5, "99"⟩, by simp, by decide⟩
  have herr := (calculateTotals_error_iff _).1.2 hbad
  ⟨hbad, herr, (calculateTotals_error_iff _).2 herr⟩

/-! ## The pre-commit amount gate -/

/-- Counterexample to C4: on the two lines of the scenario the tax amount computed is not
1.40: it is the `float64` product 20 × 0.07 = 1.4000000000000001, which is neither the
exact 1.40 nor the `float64` nearest to 1.40. -/
theorem scenario_tax_not_140 :
    (calculateTotals scenarioItems).2.1 =
      Float64.finite false (6305039478318695 / 4503599627370496) ∧
    Float64.toRat? (calculateTotals scenarioItems).2.1 ≠ some (7 / 5) ∧
    (calculateTotals scenarioItems).2.1 ≠ Float64.ofRat (7 / 5) := by
  refine ⟨by decide!, by decide!, by decide!⟩

/-- C4, amended. On the scenario's two lines (2 × 10.00 at code "01", 1 × 5.00 at code
"00") the totals are subtotal 25.00, tax 1.4000000000000001 (the `float64` product
20 × 0.07, printed as 1.40 by `%.2f`) and total the `float64` nearest to 26.40; with the
declared payment 26.40 `CreateInvoice` succeeds, answers these totals and persists one
invoice; with the declared payment 20.00 it returns the amount-mismatch error and persists
none. -/
theorem scenario_float_totals_and_gate :
    calculateTotals scenarioItems =
      (25, Float64.finite false (6305039478318695 / 4503599627370496), Float64.ofRat (132 / 5),
        none) ∧
    formatFixed2 (calculateTotals scenarioItems).1 = "25.00".data ∧
    formatFixed2 (calculateTotals scenarioItems).2.1 = "1.40".data ∧
    formatFixed2 (calculateTotals scenarioItems).2.2.1 = "26.40".data ∧
    (scenarioRequest (132 / 5)).payment.amount = Float64.ofRat (132 / 5) ∧
    amountMismatch (Float64.ofRat (132 / 5)) (Float64.ofRat (132 / 5)) = false ∧
    amountMismatch (Float64.ofRat (132 / 5)) 20 = true ∧
    (CreateInvoice scenarioEnv scenarioStore 1 (scenarioRequest (132 / 5)) "").1.toOption.map
        (fun r => r.totals) =
      some { net := 25, itbms := Float64.finite false (6305039478318695 / 4503599627370496),
             total := Float64.ofRat (132 / 5) } ∧
    ((CreateInvoice scenarioEnv scenarioStore 1 (scenarioRequest (132 / 5)) "").2.invoices.map
        (fun i => (i.documentNumber, i.subtotal, i.itbmsAmount, i.totalAmount))) =
      [(1, 25, Float64.finite false (6305039478318695 / 4503599627370496),
        Float64.ofRat (132 / 5))] ∧
    (CreateInvoice scenarioEnv scenarioStore 1 (scenarioRequest 20) "").1 =
      Except.error (Error.amountMismatch (Float64.ofRat (132 / 5)) 20) ∧
    (CreateInvoice scenarioEnv scenarioStore 1 (scenarioRequest 20) "").2.invoices = [] ∧
    (CreateInvoice scenarioEnv scenarioStore 1 (scenarioRequest 20) "").2.invoiceItems = [] := by
  refine ⟨by decide!, by decide!, by decide!, by decide!, by decide!, by decide!, by decide!,
    by decide!, by decide!, by decide!, by decide!, by decide!⟩

/-! ## Idempotency -/

theorem invoiceOf_idempotencyKey (env : Env) (emitterID : UUID) (req : CreateInvoiceRequest)
    (key : String) (l : Lookups) (hkey : key ≠ "") :
    (invoiceOf env emitterID req key l).idempotencyKey = some key := by
  simp [invoiceOf, buildInvoice, hkey]

/-- C5. For a non-empty idempotency key `k`.  (1) If the store holds an invoice carrying
`k` (with its emitter and customer rows present) and the two lookups of the check do not
fail, `CreateInvoice` called with `k` returns "idempotency key already used", leaves every
table as it was, and issues neither `get_next_folio` nor the transaction.  (2) After a
successful `CreateInvoice` with `k`, any further `CreateInvoice` with `k` fails (with
"idempotency key already used" when its lookups do not fail), allocates no number, and
the store then holds exactly one invoice carrying `k`. -/
theorem createInvoice_idempotent :
    (∀ (env : Env) (st : Store) (emitterID : UUID) (req : CreateInvoiceRequest) (key : String),
      key ≠ "" → st.foreignKeysHold → (∃ i ∈ st.invoices, i.idempotencyKey = some key) →
      env.fails DBCall.invoiceSelectByIdempotencyKey = false →
      env.fails DBCall.invoiceSelectByID = false →
        (CreateInvoice env st emitterID req key).1 =
          Except.error Error.idempotencyKeyAlreadyUsed ∧
        st.sameData (CreateInvoice env st emitterID req key).2 ∧
        (CreateInvoice env st emitterID req key).2.issued DBCall.getNextFolio =
          st.issued DBCall.getNextFolio ∧
        (CreateInvoice env st emitterID req key).2.issued DBCall.txBegin =
          st.issued DBCall.txBegin) ∧
    (∀ (env1 env2 : Env) (st : Store) (emitter1 emitter2 : UUID)
        (req1 req2 : CreateInvoiceRequest) (key : String) (resp1 : InvoiceResponse),
      key ≠ "" → (CreateInvoice env1 st emitter1 req1 key).1 = Except.ok resp1 →
        (∃ e, (CreateInvoice env2 (CreateInvoice env1 st emitter1 req1 key).2 emitter2 req2
          key).1 = Except.error e) ∧
        (env2.fails DBCall.invoiceSelectByIdempotencyKey = false →
          env2.fails DBCall.invoiceSelectByID = false →
          (CreateInvoice env2 (CreateInvoice env1 st emitter1 req1 key).2 emitter2 req2 key).1 =
            Except.error Error.idempotencyKeyAlreadyUsed) ∧
        (CreateInvoice env1 st emitter1 req1 key).2.sameData
          (CreateInvoice env2 (CreateInvoice env1 st emitter1 req1 key).2 emitter2 req2 key).2 ∧
        (CreateInvoice env2 (CreateInvoice env1 st emitter1 req1 key).2 emitter2 req2
            key).2.issued DBCall.getNextFolio =
          (CreateInvoice env1 st emitter1 req1 key).2.issued DBCall.getNextFolio ∧
        ((CreateInvoice env2 (CreateInvoice env1 st emitter1 req1 key).2 emitter2 req2
            key).2.invoices.filter (fun i => decide (i.idempotencyKey = some key))).length
          = 1) := by
  constructor
  · intro env st emitterID req key hkey hfk hex hf1 hf2
    have hdup := checkIdempotency_duplicate env st key hkey hf1 hf2
      (joinedRow_of_foreignKeys st hfk key) hex
    have hrun := CreateInvoice_of_check_error env st emitterID req key _ hdup
    obtain ⟨hsame, hlog⟩ := checkIdempotency_frame env st key
    rw [hrun]
    exact ⟨rfl, hsame, Store.logExt_issued hlog _ (by simp [DBCall.isSelect]),
      Store.logExt_issued hlog _ (by simp [DBCall.isSelect])⟩
  · intro env1 env2 st emitter1 emitter2 req1 req2 key resp1 hkey hok
    obtain ⟨hem, _, _, _, hokspec⟩ := CreateInvoice_spec env1 st emitter1 req1 key
    obtain ⟨l, _, hfresh, hemit, hcust, _, _, _, _, _, hinv, _⟩ := hokspec resp1 hok
    generalize CreateInvoice env1 st emitter1 req1 key = run1 at *
    obtain ⟨r1, st1⟩ := run1
    simp only at hem hcust hinv hok
    have hnone : ∀ i ∈ st.invoices, i.idempotencyKey ≠ some key := by
      rcases hfresh with h | h
      · exact absurd h hkey
      · exact h
    have hkeyinv := invoiceOf_idempotencyKey env1 emitter1 req1 key l hkey
    have hmem : invoiceOf env1 emitter1 req1 key l ∈ st1.invoices := by
      rw [hinv]; simp
    have hex : ∃ i ∈ st1.invoices, i.idempotencyKey = some key := ⟨_, hmem, hkeyinv⟩
    have hfilter0 : st.invoices.filter (fun i => decide (i.idempotencyKey = some key)) = [] := by
      rw [List.filter_eq_nil_iff]
      intro i hi
      simpa using hnone i hi
    have hcount : (st1.invoices.filter
        (fun i => decide (i.idempotencyKey = some key))).length = 1 := by
      rw [hinv, List.filter_append, hfilter0]
      simp [List.filter_cons, hkeyinv]
    obtain ⟨e, he⟩ := checkIdempotency_blocks env2 st1 key hkey hex
    have hrun := CreateInvoice_of_check_error env2 st1 emitter2 req2 key e he
    obtain ⟨hsame, hlog⟩ := checkIdempotency_frame env2 st1 key
    rw [hrun]
    refine ⟨⟨e, rfl⟩, ?_, hsame, Store.logExt_issued hlog _ (by simp [DBCall.isSelect]), ?_⟩
    · intro hf1 hf2
      have hj : ∀ row,
          st1.invoices.find? (fun i => decide (i.idempotencyKey = some key)) = some row →
          (InvoiceRepository.joinedRow st1 row.id).isSome = true := by
        intro row hrow
        have hrowmem : row ∈ st1.invoices := List.mem_of_find?_eq_some hrow
        have hrowkey : row.idempotencyKey = some key := by
          simpa using List.find?_some hrow
        have hroweq : row = invoiceOf env1 emitter1 req1 key l := by
          rw [hinv] at hrowmem
          rcases List.mem_append.1 hrowmem with h | h
          · exact absurd hrowkey (hnone row h)
          · simpa using h
        subst hroweq
        refine InvoiceRepository.joinedRow_isSome st1 _ hmem ⟨?_, ?_⟩
        · refine ⟨l.emitter, ?_, ?_⟩
          · rw [hem]; exact List.mem_of_find?_eq_some hemit
          · have := List.find?_some hemit
            simp only [Bool.and_eq_true, decide_eq_true_eq] at this
            exact this.1
        · obtain ⟨row, hrow, hrw⟩ := hcust
          exact ⟨row, hrow, (congrArg Customer.id hrw).symm⟩
      have hdup := checkIdempotency_duplicate env2 st1 key hkey hf1 hf2 hj hex
      rw [hdup] at he
      simp only [Option.some.injEq] at he
      rw [← he]
    · simp only
      rw [← hsame.2.2.2.2.1]
      exact hcount

/-- Witness of C5 on the scenario: a first request with key "k-1" succeeds, a second one
with the same key is refused, and one invoice carries the key. -/
theorem createInvoice_idempotent_witness :
    (CreateInvoice scenarioEnv
        (CreateInvoice scenarioEnv scenarioStore 1 (scenarioRequest (132 / 5)) "k-1").2 1
        (scenarioRequest (132 / 5)) "k-1").1 = Except.error Error.idempotencyKeyAlreadyUsed ∧
    ((CreateInvoice scenarioEnv
        (CreateInvoice scenarioEnv scenarioStore 1 (scenarioRequest (132 / 5)) "k-1").2 1
        (scenarioRequest (132 / 5)) "k-1").2.invoices.filter
          (fun i => decide (i.idempotencyKey = some "k-1"))).length = 1 ∧
    (CreateInvoice scenarioEnv
        (CreateInvoice scenarioEnv scenarioStore 1 (scenarioRequest (132 / 5)) "k-1").2 2
        (scenarioRequest 20) "k-1").1 = Except.error Error.idempotencyKeyAlreadyUsed :=
  have h2 := createInvoice_idempotent.2 scenarioEnv scenarioEnv scenarioStore 1 1
    (scenarioRequest (132 / 5)) (scenarioRequest (132 / 5)) "k-1"
    (buildResponse scenarioEnv (invoiceOf scenarioEnv 1 (scenarioRequest (132 / 5)) "k-1"
      scenarioLookups) scenarioEmitter)
    (by decide) (by decide!)
  have h1 := createInvoice_idempotent.1 scenarioEnv
    (CreateInvoice scenarioEnv scenarioStore 1 (scenarioRequest (132 / 5)) "k-1").2 2
    (scenarioRequest 20) "k-1" (by decide)
    (by unfold Store.foreignKeysHold; decide!)
    (by decide!) rfl rfl
  ⟨h2.2.1 rfl rfl, h2.2.2.2.2, h1.1⟩

/-! ## Atomic persistence -/

/-- C7. `InvoiceRepository.Create` is all-or-nothing.  If the invoice insert or the insert
of any of the items fails, it returns an error and `invoices` and `invoice_items` are
what they were; the same holds for every error it returns.  If `BEGIN`, every insert and
`COMMIT` succeed, it returns nil, and the invoice row and all the item rows, in order,
have been appended. -/
theorem create_all_or_nothing (env : Env) (st : Store) (invoice : Invoice)
    (items : List InvoiceItem) :
    ((env.fails DBCall.invoiceInsert = true ∨
        ∃ i, i < items.length ∧ env.fails (DBCall.invoiceItemInsert i) = true) →
      (InvoiceRepository.Create env st invoice items).1 ≠ none ∧
      (InvoiceRepository.Create env st invoice items).2.invoices = st.invoices ∧
      (InvoiceRepository.Create env st invoice items).2.invoiceItems = st.invoiceItems) ∧
    ((InvoiceRepository.Create env st invoice items).1 ≠ none →
      (InvoiceRepository.Create env st invoice items).2.invoices = st.invoices ∧
      (InvoiceRepository.Create env st invoice items).2.invoiceItems = st.invoiceItems) ∧
    (env.fails DBCall.txBegin = false ∧ env.fails DBCall.invoiceInsert = false ∧
        (∀ i, i < items.length → env.fails (DBCall.invoiceItemInsert i) = false) ∧
        env.fails DBCall.txCommit = false →
      (InvoiceRepository.Create env st invoice items).1 = none ∧
      (InvoiceRepository.Create env st invoice items).2.invoices = st.invoices ++ [invoice] ∧
      (InvoiceRepository.Create env st invoice items).2.invoiceItems =
        st.invoiceItems ++ items) := by
  obtain ⟨_, _, _, _, _, hok, herr, hiff⟩ := InvoiceRepository.Create_spec env st invoice items
  refine ⟨?_, herr, ?_⟩
  · intro hfail
    have hne : (InvoiceRepository.Create env st invoice items).1 ≠ none := by
      intro hnone
      obtain ⟨_, hi, hall, _⟩ := hiff.1 hnone
      rcases hfail with h | ⟨i, hlt, h⟩
      · rw [hi] at h; cases h
      · rw [hall i hlt] at h; cases h
    exact ⟨hne, herr hne⟩
  · intro hall
    have hnone := hiff.2 hall
    exact ⟨hnone, hok hnone⟩

/-- Witness of C7 on the scenario's invoice and its two item rows: with the insert of the
second item failing nothing is persisted, with no failure everything is. -/
theorem create_all_or_nothing_witness :
    ((InvoiceRepository.Create scenarioFailingEnv scenarioStore scenarioInvoice
        scenarioInvoiceItems).1 ≠ none ∧
      (InvoiceRepository.Create scenarioFailingEnv scenarioStore scenarioInvoice
        scenarioInvoiceItems).2.invoices = [] ∧
      (InvoiceRepository.Create scenarioFailingEnv scenarioStore scenarioInvoice
        scenarioInvoiceItems).2.invoiceItems = []) ∧
    ((InvoiceRepository.Create scenarioEnv scenarioStore scenarioInvoice
        scenarioInvoiceItems).1 = none ∧
      (InvoiceRepository.Create scenarioEnv scenarioStore scenarioInvoice
        scenarioInvoiceItems).2.invoices = [scenarioInvoice] ∧
      (InvoiceRepository.Create scenarioEnv scenarioStore scenarioInvoice
        scenarioInvoiceItems).2.invoiceItems = scenarioInvoiceItems) :=
  ⟨(create_all_or_nothing scenarioFailingEnv scenarioStore scenarioInvoice
      scenarioInvoiceItems).1 (Or.inr ⟨1, by decide, rfl⟩),
   (create_all_or_nothing scenarioEnv scenarioStore scenarioInvoice
      scenarioInvoiceItems).2.2 ⟨rfl, rfl, fun _ _ => rfl, rfl⟩⟩

/-! ## Series lookup and override resolution -/

/-- C8. When a creation reaches the series lookup (the idempotency check lets it through,
the emitter is found, the customer is obtained), the lookup itself does not fail, and no
active series row exists for (emitter, resolved issuing point, document kind), then
`CreateInvoice` returns "error getting series: series not found …", issues no
`get_next_folio` (the series table is unchanged) and persists no invoice and no item. -/
theorem createInvoice_series_not_found (env : Env) (st st1 st2 st3 : Store) (emitterID : UUID)
    (req : CreateInvoiceRequest) (key : String) (emitter : Emitter) (customer : Customer)
    (h1 : checkIdempotency env st key = (none, st1))
    (h2 : EmitterRepository.GetByID env st1 emitterID = (Except.ok emitter, st2))
    (h3 : getOrCreateCustomer env st2 req.customer emitterID = (Except.ok customer, st3))
    (hf : env.fails DBCall.seriesSelect = false)
    (hnone : ∀ s ∈ st.series,
      ¬ (s.hasKey emitterID (resolvePtoFacDF req emitter) req.documentType = true ∧
        s.isActive = true)) :
    (CreateInvoice env st emitterID req key).1 =
      Except.error (Error.errorGettingSeries
        (Error.seriesNotFound emitterID (resolvePtoFacDF req emitter) req.documentType)) ∧
    (CreateInvoice env st emitterID req key).2.issued DBCall.getNextFolio =
      st.issued DBCall.getNextFolio ∧
    (CreateInvoice env st emitterID req key).2.series = st.series ∧
    (CreateInvoice env st emitterID req key).2.invoices = st.invoices ∧
    (CreateInvoice env st emitterID req key).2.invoiceItems = st.invoiceItems := by
  -- frames of the three steps that precede the lookup
  have f1 := checkIdempotency_frame env st key
  rw [h1] at f1
  obtain ⟨⟨_, _, a3, _, a5, a6⟩, lg1⟩ := f1
  have f2 := EmitterRepository.GetByID_store env st1 emitterID
  rw [h2] at f2
  simp only at f2
  subst f2
  have f3 := getOrCreateCustomer_frame env (st1.record DBCall.emitterSelectByID) req.customer
    emitterID
  rw [h3] at f3
  simp only [Store.record_series, Store.record_invoices, Store.record_invoiceItems] at f3
  obtain ⟨_, b3, _, b5, b6, _, lg3, _⟩ := f3
  have hseries : st3.series = st.series := b3.trans a3.symm
  -- the lookup
  have hnf := EmitterRepository.GetSeries_not_found env st3 emitterID
    (resolvePtoFacDF req emitter) req.documentType hf (by rw [hseries]; exact hnone)
  have hst := EmitterRepository.GetSeries_store env st3 emitterID
    (resolvePtoFacDF req emitter) req.documentType
  have hrun : CreateInvoice env st emitterID req key =
      (Except.error (Error.errorGettingSeries
        (Error.seriesNotFound emitterID (resolvePtoFacDF req emitter) req.documentType)),
       st3.record DBCall.seriesSelect) := by
    simp only [CreateInvoice, createInvoiceLookups, h1, h2, h3]
    rcases hres : EmitterRepository.GetSeries env st3 emitterID (resolvePtoFacDF req emitter)
      req.documentType with ⟨r, st4⟩
    rw [hres] at hnf hst
    simp only at hnf hst
    subst hnf
    subst hst
    rfl
  have wide : ∀ c : DBCall, c.isSelect = true → (c.isSelect = true ∨ c = DBCall.customerInsert) :=
    fun _ h => Or.inl h
  have lg : st.logExt (st3.record DBCall.seriesSelect)
      (fun c => c.isSelect = true ∨ c = DBCall.customerInsert) :=
    Store.logExt_trans
      (Store.logExt_trans
        (Store.logExt_trans (Store.logExt_mono lg1 wide)
          (Store.logExt_record st1 DBCall.emitterSelectByID _ (Or.inl rfl)))
        lg3)
      (Store.logExt_record st3 DBCall.seriesSelect _ (Or.inl rfl))
  rw [hrun]
  refine ⟨rfl, Store.logExt_issued lg _ (by simp [DBCall.isSelect]), hseries,
    b5.trans a5.symm, b6.trans a6.symm⟩

/-- Witness of C8 on the scenario's store without its series. -/
theorem createInvoice_series_not_found_witness :
    (CreateInvoice scenarioEnv scenarioStoreNoSeries 1 (scenarioRequest (132 / 5)) "").1 =
      Except.error (Error.errorGettingSeries
        (Error.seriesNotFound 1 "001" DocumentType.invoice)) ∧
    (CreateInvoice scenarioEnv scenarioStoreNoSeries 1 (scenarioRequest (132 / 5)) "").2.invoices
      = [] :=
  have h := createInvoice_series_not_found scenarioEnv scenarioStoreNoSeries
    scenarioStoreNoSeries
    (scenarioStoreNoSeries.record DBCall.emitterSelectByID)
    (getOrCreateCustomer scenarioEnv (scenarioStoreNoSeries.record DBCall.emitterSelectByID)
      (scenarioRequest (132 / 5)).customer 1).2
    1 (scenarioRequest (132 / 5)) "" scenarioEmitter scenarioCustomer
    rfl (by decide) (by decide) rfl (by decide)
  ⟨h.1, h.2.2.2.1⟩

theorem resolvePtoFacDF_eq_precedence (req : CreateInvoiceRequest) (emitter : Emitter) :
    resolvePtoFacDF req emitter =
      precedence (req.overrides.map (fun o => o.ptoFacDF)) emitter.ptoFacDefault := by
  unfold resolvePtoFacDF precedence
  cases req.overrides with
  | none => rfl
  | some o =>
    by_cases h : o.ptoFacDF = "" <;> simp [h]

theorem overrideValue_eq_precedence (overrides : Option Overrides) (emitterDefault : String) :
    getOverrideValue (getOverrideField overrides "ITpEmis") emitterDefault =
        precedence (overrides.map (fun o => o.iTpEmis)) emitterDefault ∧
    getOverrideValue (getOverrideField overrides "IDoc") emitterDefault =
        precedence (overrides.map (fun o => o.iDoc)) emitterDefault ∧
    getOverrideValue (getOverrideField overrides "PtoFacDF") emitterDefault =
        precedence (overrides.map (fun o => o.ptoFacDF)) emitterDefault := by
  cases overrides with
  | none => exact ⟨rfl, rfl, rfl⟩
  | some o =>
    have e1 : getOverrideField (some o) "ITpEmis" = o.iTpEmis := rfl
    have e2 : getOverrideField (some o) "IDoc" = o.iDoc := rfl
    have e3 : getOverrideField (some o) "PtoFacDF" = o.ptoFacDF := rfl
    rw [e1, e2, e3]
    unfold getOverrideValue precedence
    refine ⟨?_, ?_, ?_⟩
    · by_cases h : o.iTpEmis = "" <;> simp [h]
    · by_cases h : o.iDoc = "" <;> simp [h]
    · by_cases h : o.ptoFacDF = "" <;> simp [h]

theorem hasKey_ptoFacDF (s : EmitterSeries) (emitterID : UUID) (p : String)
    (k : DocumentType) (h : s.hasKey emitterID p k = true) :
    s.emitterID = emitterID ∧ s.ptoFacDF = p ∧ s.docKind = k := by
  simpa [EmitterSeries.hasKey, and_assoc] using h

/-- C9. Override resolution is `override ?? emitterDefault`.  The issuing point that
`CreateInvoice` looks the series up with is the `pto_fac_df` override when the overrides
are present and the field is non-empty, else the emitter's default; and on every
successful creation the persisted invoice belongs to the active series of that issuing
point, carries that issuing point, and carries as emission and document codes the
`i_tp_emis` / `i_doc` override when present and non-empty, else the emitter's defaults. -/
theorem createInvoice_override_precedence :
    (∀ (req : CreateInvoiceRequest) (emitter : Emitter),
      resolvePtoFacDF req emitter =
        precedence (req.overrides.map (fun o => o.ptoFacDF)) emitter.ptoFacDefault) ∧
    (∀ (env : Env) (st : Store) (emitterID : UUID) (req : CreateInvoiceRequest) (key : String)
        (resp : InvoiceResponse),
      (CreateInvoice env st emitterID req key).1 = Except.ok resp →
      ∃ emitter series inv,
        st.emitters.find? (fun e => decide (e.id = emitterID) && e.isActive) = some emitter ∧
        st.series.find? (fun s => s.hasKey emitterID
          (precedence (req.overrides.map (fun o => o.ptoFacDF)) emitter.ptoFacDefault)
          req.documentType && s.isActive) = some series ∧
        (CreateInvoice env st emitterID req key).2.invoices = st.invoices ++ [inv] ∧
        inv.id = resp.id ∧
        inv.seriesID = series.id ∧
        inv.ptoFacDF =
          precedence (req.overrides.map (fun o => o.ptoFacDF)) emitter.ptoFacDefault ∧
        inv.iTpEmis =
          precedence (req.overrides.map (fun o => o.iTpEmis)) emitter.iTpEmisDefault ∧
        inv.iDoc = precedence (req.overrides.map (fun o => o.iDoc)) emitter.iDocDefault) := by
  refine ⟨resolvePtoFacDF_eq_precedence, ?_⟩
  intro env st emitterID req key resp hok
  obtain ⟨_, _, _, _, hokspec⟩ := CreateInvoice_spec env st emitterID req key
  obtain ⟨l, _, _, hemit, _, hser, _, _, _, hresp, hinv, _⟩ := hokspec resp hok
  rw [resolvePtoFacDF_eq_precedence] at hser
  have hk := List.find?_some hser
  simp only [Bool.and_eq_true] at hk
  have hp := (hasKey_ptoFacDF _ _ _ _ hk.1).2.1
  refine ⟨l.emitter, l.series, invoiceOf env emitterID req key l, hemit, hser, hinv, ?_, rfl,
    hp, ?_, ?_⟩
  · rw [hresp]; rfl
  · exact (overrideValue_eq_precedence req.overrides l.emitter.iTpEmisDefault).1
  · exact (overrideValue_eq_precedence req.overrides l.emitter.iDocDefault).2.1

/-- Witness of C9 on the scenario, whose request has no overrides. -/
theorem createInvoice_override_precedence_witness :
    ∃ emitter series inv,
      scenarioStore.emitters.find? (fun e => decide (e.id = 1) && e.isActive) = some emitter ∧
      scenarioStore.series.find? (fun s => s.hasKey 1
        (precedence ((scenarioRequest (132 / 5)).overrides.map (fun o => o.ptoFacDF))
          emitter.ptoFacDefault)
        (scenarioRequest (132 / 5)).documentType && s.isActive) = some series ∧
      (CreateInvoice scenarioEnv scenarioStore 1 (scenarioRequest (132 / 5)) "").2.invoices =
        scenarioStore.invoices ++ [inv] ∧
      inv.id = (buildResponse scenarioEnv scenarioInvoice scenarioEmitter).id ∧
      inv.seriesID = series.id ∧
      inv.ptoFacDF = precedence ((scenarioRequest (132 / 5)).overrides.map (fun o => o.ptoFacDF))
        emitter.ptoFacDefault ∧
      inv.iTpEmis = precedence ((scenarioRequest (132 / 5)).overrides.map (fun o => o.iTpEmis))
        emitter.iTpEmisDefault ∧
      inv.iDoc = precedence ((scenarioRequest (132 / 5)).overrides.map (fun o => o.iDoc))
        emitter.iDocDefault :=
  createInvoice_override_precedence.2 scenarioEnv scenarioStore 1 (scenarioRequest (132 / 5)) ""
    (buildResponse scenarioEnv scenarioInvoice scenarioEmitter) (by decide!)

/-! ## Consistency of the persisted totals -/

theorem calculateTotals_of_ok (items : List ItemRequest)
    (h : (calculateTotals items).2.2.2 = none) :
    (calculateTotals items).1 =
      items.foldl (fun acc it => acc + it.quantity * it.unitPrice) 0 ∧
    (calculateTotals items).2.2.1 = (calculateTotals items).1 + (calculateTotals items).2.1 := by
  have hvalid : ∀ it ∈ items, validTaxCode it.taxRate := by
    intro it hit
    by_contra hbad
    exact (calculateTotalsLoop_error_iff items 0 0).2 ⟨it, hit, hbad⟩ h
  unfold calculateTotals
  rw [calculateTotalsLoop_of_valid items 0 0 hvalid]
  exact ⟨rfl, rfl⟩

theorem foldl_lineTotals (items : List InvoiceItem) (reqs : List ItemRequest)
    (h : items.map (fun it => it.lineTotal) = reqs.map (fun r => r.quantity * r.unitPrice)) :
    ∀ acc : Money, items.foldl (fun acc it => acc + it.lineTotal) acc =
      reqs.foldl (fun acc r => acc + r.quantity * r.unitPrice) acc := by
  intro acc
  have h1 : items.foldl (fun acc it => acc + it.lineTotal) acc =
      (items.map (fun it => it.lineTotal)).foldl (fun acc x => acc + x) acc := by
    rw [List.foldl_map]
  have h2 : reqs.foldl (fun acc r => acc + r.quantity * r.unitPrice) acc =
      (reqs.map (fun r => r.quantity * r.unitPrice)).foldl (fun acc x => acc + x) acc := by
    rw [List.foldl_map]
  rw [h1, h2, h]

/-- Counterexample to C10: on the scenario, the request with the lines 1 × 1e17 and
1 × 0.30 at code "00" succeeds; the persisted line totals are 1e17 and 0.3 (exact sum
1e17 + 0.3) and the persisted subtotal is 1e17, more than 0.01 away.  And the request with
one line 1e308 × 10.00 at code "00" succeeds and persists the subtotal +Inf, the tax NaN
and the total NaN, for which no tolerance holds. -/
theorem createInvoice_totals_beyond_tolerance :
    (CreateInvoice scenarioEnv scenarioStore 1 largeRequest "").2.invoices.map
        (fun i => i.subtotal) = [Float64.finite false (10 ^ 17)] ∧
    (CreateInvoice scenarioEnv scenarioStore 1 largeRequest "").2.invoiceItems.map
        (fun it => it.lineTotal) =
      [Float64.finite false (10 ^ 17),
       Float64.finite false (5404319552844595 / 18014398509481984)] ∧
    sumWithinCent
      (exactSum ((CreateInvoice scenarioEnv scenarioStore 1 largeRequest "").2.invoiceItems.map
        (fun it => it.lineTotal)))
      (Float64.finite false (10 ^ 17)) = false ∧
    (CreateInvoice scenarioEnv scenarioStore 1 overflowRequest "").2.invoices.map
        (fun i => (i.subtotal, i.itbmsAmount, i.totalAmount)) =
      [(Float64.inf false, Float64.nan, Float64.nan)] ∧
    withinCent (Float64.inf false + Float64.nan) Float64.nan = false := by
  refine ⟨by decide!, by decide!, by decide!, by decide!, by decide!⟩

/-- C10, amended. For every invoice `CreateInvoice` persists, together with the item rows
it persists for it: the invoice's `Subtotal` is the `float64` running sum, from 0 and in
line order, of the items' `LineTotal`, and its `TotalAmount` is the `float64` sum
`Subtotal + ITBMSAmount`; every addition is rounded to `float64` (and may be +Inf or NaN),
so the exact sums are matched up to that rounding, not within a fixed 0.01. -/
theorem createInvoice_totals_float_consistent (env : Env) (st : Store) (emitterID : UUID)
    (req : CreateInvoiceRequest) (key : String) (resp : InvoiceResponse)
    (hok : (CreateInvoice env st emitterID req key).1 = Except.ok resp) :
    ∃ inv items,
      (CreateInvoice env st emitterID req key).2.invoices = st.invoices ++ [inv] ∧
      (CreateInvoice env st emitterID req key).2.invoiceItems = st.invoiceItems ++ items ∧
      inv.id = resp.id ∧
      (∀ it ∈ items, it.invoiceID = inv.id) ∧
      items.foldl (fun acc it => acc + it.lineTotal) 0 = inv.subtotal ∧
      inv.subtotal + inv.itbmsAmount = inv.totalAmount := by
  obtain ⟨_, _, _, _, hokspec⟩ := CreateInvoice_spec env st emitterID req key
  obtain ⟨l, _, _, _, _, _, _, htot, _, hresp, hinv, items, hitems, hlines, hids, _⟩ :=
    hokspec resp hok
  obtain ⟨hsub, hsum⟩ := calculateTotals_of_ok req.items htot
  have e1 : items.foldl (fun acc it => acc + it.lineTotal) 0 =
      (invoiceOf env emitterID req key l).subtotal := by
    rw [foldl_lineTotals items req.items hlines 0]
    exact hsub.symm
  have e2 : (invoiceOf env emitterID req key l).subtotal +
      (invoiceOf env emitterID req key l).itbmsAmount =
      (invoiceOf env emitterID req key l).totalAmount := hsum.symm
  refine ⟨invoiceOf env emitterID req key l, items, hinv, hitems, ?_, hids, e1, e2⟩
  rw [hresp]; rfl

/-- Witness of C10 (amended) on the scenario with the declared payment 26.40. -/
theorem createInvoice_totals_float_consistent_witness :
    ∃ inv items,
      (CreateInvoice scenarioEnv scenarioStore 1 (scenarioRequest (132 / 5)) "").2.invoices =
        scenarioStore.invoices ++ [inv] ∧
      (CreateInvoice scenarioEnv scenarioStore 1 (scenarioRequest (132 / 5)) "").2.invoiceItems =
        scenarioStore.invoiceItems ++ items ∧
      inv.id = (buildResponse scenarioEnv scenarioInvoice scenarioEmitter).id ∧
      (∀ it ∈ items, it.invoiceID = inv.id) ∧
      items.foldl (fun acc it => acc + it.lineTotal) 0 = inv.subtotal ∧
      inv.subtotal + inv.itbmsAmount = inv.totalAmount :=
  createInvoice_totals_float_consistent scenarioEnv scenarioStore 1 (scenarioRequest (132 / 5))
    "" (buildResponse scenarioEnv scenarioInvoice scenarioEmitter) (by decide!)

/-! ## Document numbering -/

theorem hasKey_iff (s : EmitterSeries) (e : UUID) (p : String) (k : DocumentType) :
    s.hasKey e p k = true ↔ s.emitterID = e ∧ s.ptoFacDF = p ∧ s.docKind = k := by
  simp [EmitterSeries.hasKey, and_assoc]

/-- The allocator hands out the counter of the series and moves it on by one; the counters
of the other series stay. -/
theorem get_next_folio_counter (series : List EmitterSeries) (e : UUID) (p : String)
    (k : DocumentType) :
    ∀ (n : Nat) (series1 : List EmitterSeries),
      get_next_folio series e p k = some (n, series1) →
      nextNumberOf series e p k = some n ∧
      nextNumberOf series1 e p k = some (n + 1) ∧
      ∀ e1 p1 k1, ¬ (e1 = e ∧ p1 = p ∧ k1 = k) →
        nextNumberOf series1 e1 p1 k1 = nextNumberOf series e1 p1 k1 := by
  induction series with
  | nil => intro n series1 h; simp [get_next_folio] at h
  | cons s rest ih =>
    intro n series1 h
    simp only [get_next_folio] at h
    by_cases hk : s.hasKey e p k = true
    · simp only [hk, if_true, Option.some.injEq, Prod.mk.injEq] at h
      obtain ⟨hn, hs⟩ := h
      subst hn
      subst hs
      have hk1 : ({ s with nextNumber := s.nextNumber + 1 } : EmitterSeries).hasKey e p k
          = true := hk
      refine ⟨?_, ?_, ?_⟩
      · simp [nextNumberOf, List.find?_cons, hk]
      · simp [nextNumberOf, List.find?_cons, hk1]
      · intro e1 p1 k1 hne
        have hkey := (hasKey_iff s e p k).1 hk
        have h1 : s.hasKey e1 p1 k1 = false := by
          cases hh : s.hasKey e1 p1 k1 with
          | false => rfl
          | true =>
            have := (hasKey_iff s e1 p1 k1).1 hh
            exact absurd ⟨this.1.symm.trans hkey.1, this.2.1.symm.trans hkey.2.1,
              this.2.2.symm.trans hkey.2.2⟩ hne
        have h2 : ({ s with nextNumber := s.nextNumber + 1 } : EmitterSeries).hasKey e1 p1 k1
            = false := h1
        simp [nextNumberOf, List.find?_cons, h1, h2]
    · simp only [hk, Bool.false_eq_true, if_false] at h
      cases hrec : get_next_folio rest e p k with
      | none => simp [hrec] at h
      | some x =>
        obtain ⟨m, rest1⟩ := x
        simp only [hrec, Option.some.injEq, Prod.mk.injEq] at h
        obtain ⟨hn, hs⟩ := h
        subst hn
        subst hs
        obtain ⟨i1, i2, i3⟩ := ih m rest1 hrec
        have hkf : s.hasKey e p k = false := by simpa using hk
        refine ⟨?_, ?_, ?_⟩
        · simpa [nextNumberOf, List.find?_cons, hkf] using i1
        · simpa [nextNumberOf, List.find?_cons, hkf] using i2
        · intro e1 p1 k1 hne
          have := i3 e1 p1 k1 hne
          cases hh : s.hasKey e1 p1 k1 with
          | false => simpa [nextNumberOf, List.find?_cons, hh] using this
          | true => simp [nextNumberOf, List.find?_cons, hh]

theorem buildItems_rows (env : Env) (emitterID invoiceID : UUID) (reqs : List ItemRequest) :
    ∀ (i : Nat) (st : Store) (items : List InvoiceItem),
      (buildItems env emitterID invoiceID reqs i st).1 = Except.ok items →
        items.length = reqs.length ∧
        items.map (fun it => it.lineNo) = List.range' (i + 1) reqs.length ∧
        ∀ j r, reqs[j]? = some r → ∃ it, items[j]? = some it ∧ isRowOf invoiceID (i + j) r it := by
  induction reqs with
  | nil =>
    intro i st items h
    simp only [buildItems, Except.ok.injEq] at h
    subst h
    simp
  | cons itemReq rest ih =>
    intro i st items h
    simp only [buildItems] at h
    rcases h1 : resolveProduct env st emitterID i itemReq with ⟨r1, st1⟩
    rw [h1] at h
    cases r1 with
    | error e => simp at h
    | ok product =>
      simp only at h
      have ih1 := ih (i + 1) st1
      rcases h2 : buildItems env emitterID invoiceID rest (i + 1) st1 with ⟨r2, st2⟩
      rw [h2] at h ih1
      cases r2 with
      | error e => simp at h
      | ok items0 =>
        simp only [Except.ok.injEq] at h
        subst h
        obtain ⟨q1, q2, q3⟩ := ih1 items0 rfl
        refine ⟨by simp [q1], ?_, ?_⟩
        · simp only [List.map_cons, q2, List.length_cons, List.range'_succ]
          rfl
        · intro j r hj
          cases j with
          | zero =>
            simp only [List.getElem?_cons_zero, Option.some.injEq] at hj
            subst hj
            exact ⟨buildItem env invoiceID i itemReq product, by simp, rfl, rfl, rfl, rfl, rfl, rfl⟩
          | succ k =>
            simp only [List.getElem?_cons_succ] at hj
            obtain ⟨it, hit, hrow⟩ := q3 k r hj
            refine ⟨it, by simpa using hit, ?_⟩
            rw [show i + (k + 1) = i + 1 + k by omega]
            exact hrow

theorem createInvoiceFromTotals_ok_items (env : Env) (st5 : Store) (emitterID : UUID)
    (req : CreateInvoiceRequest) (key : String) (l : Lookups) (resp : InvoiceResponse)
    (h : (createInvoiceFromTotals env st5 emitterID req key l).1 = Except.ok resp) :
    ∃ items,
      (buildItems env emitterID env.newInvoiceID req.items 0 st5).1 = Except.ok items ∧
      (createInvoiceFromTotals env st5 emitterID req key l).2.invoiceItems =
        st5.invoiceItems ++ items := by
  revert h
  simp only [createInvoiceFromTotals]
  rcases hct : calculateTotals req.items with ⟨sub, itb, tot, err⟩
  cases err with
  | some e => intro h; simp at h
  | none =>
  simp only
  cases hm : amountMismatch tot req.payment.amount with
  | true => intro h; simp at h
  | false =>
  simp only [Bool.false_eq_true, if_false]
  have hid : (buildInvoice env emitterID req key l.emitter l.customer l.series l.documentNumber
      sub itb tot).id = env.newInvoiceID := rfl
  obtain ⟨⟨_, _, _, _, _, a6⟩, _⟩ := (buildItems_spec env emitterID
    (buildInvoice env emitterID req key l.emitter l.customer l.series l.documentNumber
      sub itb tot).id req.items 0 st5).1
  rw [hid] at a6
  rw [hid]
  rcases h6 : buildItems env emitterID env.newInvoiceID req.items 0 st5 with ⟨r6, st6⟩
  rw [h6] at a6
  simp only at a6
  cases r6 with
  | error e => intro h; simp at h
  | ok items =>
  simp only
  obtain ⟨_, _, _, _, _, cok, _, _⟩ := InvoiceRepository.Create_spec env st6
    (buildInvoice env emitterID req key l.emitter l.customer l.series l.documentNumber
      sub itb tot) items
  rcases h7 : InvoiceRepository.Create env st6
    (buildInvoice env emitterID req key l.emitter l.customer l.series l.documentNumber
      sub itb tot) items with ⟨r7, st7⟩
  rw [h7] at cok
  simp only at cok
  cases r7 with
  | some e => intro h; simp at h
  | none =>
    intro _
    simp only
    exact ⟨items, rfl, by rw [(cok rfl).2, a6]⟩

theorem CreateInvoice_ok_items (env : Env) (st : Store) (emitterID : UUID)
    (req : CreateInvoiceRequest) (key : String) (resp : InvoiceResponse)
    (h : (CreateInvoice env st emitterID req key).1 = Except.ok resp) :
    ∃ items st5,
      (buildItems env emitterID env.newInvoiceID req.items 0 st5).1 = Except.ok items ∧
      (CreateInvoice env st emitterID req key).2.invoiceItems = st.invoiceItems ++ items ∧
      resp.id = env.newInvoiceID := by
  obtain ⟨_, _, _, a6, _, _, _, _⟩ := createInvoiceLookups_spec env st emitterID req key
  obtain ⟨_, _, _, _, hokspec⟩ := CreateInvoice_spec env st emitterID req key
  obtain ⟨l0, _, _, _, _, _, _, _, _, hresp, _⟩ := hokspec resp h
  revert h
  simp only [CreateInvoice]
  rcases h1 : createInvoiceLookups env st emitterID req key with ⟨r1, st5⟩
  rw [h1] at a6
  simp only at a6
  cases r1 with
  | error e => intro h; simp at h
  | ok l =>
    simp only
    intro h
    obtain ⟨items, hb, hitems⟩ := createInvoiceFromTotals_ok_items env st5 emitterID req key l
      resp h
    refine ⟨items, st5, hb, by rw [hitems, a6], ?_⟩
    rw [hresp]
    rfl

/-- C11. The item loop of `CreateInvoice` builds, for a request with N items, exactly N
rows, in request order, the row at (1-based) position i carrying line number i, the
request's quantity, unit price and tax code, `LineTotal = quantity × unitPrice` and the id
of the invoice being created; and on a successful creation these rows are the ones
appended to `invoice_items`, with the id the response reports. -/
theorem createInvoice_item_rows (env : Env) (emitterID : UUID) (req : CreateInvoiceRequest) :
    (∀ (invoiceID : UUID) (st : Store) (items : List InvoiceItem),
      (buildItems env emitterID invoiceID req.items 0 st).1 = Except.ok items →
        items.length = req.items.length ∧
        items.map (fun it => it.lineNo) = List.range' 1 req.items.length ∧
        ∀ j r, req.items[j]? = some r →
          ∃ it, items[j]? = some it ∧ isRowOf invoiceID j r it) ∧
    (∀ (st : Store) (key : String) (resp : InvoiceResponse),
      (CreateInvoice env st emitterID req key).1 = Except.ok resp →
        ∃ items,
          (CreateInvoice env st emitterID req key).2.invoiceItems = st.invoiceItems ++ items ∧
          items.length = req.items.length ∧
          items.map (fun it => it.lineNo) = List.range' 1 req.items.length ∧
          ∀ j r, req.items[j]? = some r →
            ∃ it, items[j]? = some it ∧ isRowOf resp.id j r it) := by
  have hloop : ∀ (invoiceID : UUID) (st : Store) (items : List InvoiceItem),
      (buildItems env emitterID invoiceID req.items 0 st).1 = Except.ok items →
        items.length = req.items.length ∧
        items.map (fun it => it.lineNo) = List.range' 1 req.items.length ∧
        ∀ j r, req.items[j]? = some r →
          ∃ it, items[j]? = some it ∧ isRowOf invoiceID j r it := by
    intro invoiceID st items h
    obtain ⟨q1, q2, q3⟩ := buildItems_rows env emitterID invoiceID req.items 0 st items h
    refine ⟨q1, by simpa using q2, ?_⟩
    intro j r hj
    obtain ⟨it, hit, hrow⟩ := q3 j r hj
    exact ⟨it, hit, by simpa using hrow⟩
  refine ⟨hloop, ?_⟩
  intro st key resp hok
  obtain ⟨items, st5, hb, hitems, hid⟩ := CreateInvoice_ok_items env st emitterID req key resp hok
  obtain ⟨q1, q2, q3⟩ := hloop env.newInvoiceID st5 items hb
  refine ⟨items, hitems, q1, q2, ?_⟩
  rw [hid]
  exact q3

/-- Witness of C11 on the scenario: two rows, numbered 1 and 2. -/
theorem createInvoice_item_rows_witness :
    ∃ items,
      (CreateInvoice scenarioEnv scenarioStore 1 (scenarioRequest (132 / 5)) "").2.invoiceItems =
        scenarioStore.invoiceItems ++ items ∧
      items.length = (scenarioRequest (132 / 5)).items.length ∧
      items.map (fun it => it.lineNo) = List.range' 1 (scenarioRequest (132 / 5)).items.length ∧
      ∀ j r, (scenarioRequest (132 / 5)).items[j]? = some r →
        ∃ it, items[j]? = some it ∧
          isRowOf (buildResponse scenarioEnv scenarioInvoice scenarioEmitter).id j r it :=
  (createInvoice_item_rows scenarioEnv 1 (scenarioRequest (132 / 5))).2 scenarioStore ""
    (buildResponse scenarioEnv scenarioInvoice scenarioEmitter) (by decide!)

/-! ## Initial state and response of a creation -/

/-- C13. Every invoice `CreateInvoice` persists is appended with document status
`RECEIVED` and e-mail status `PENDING`, and the response of the creation reports status
`RECEIVED`. -/
theorem createInvoice_initial_status (env : Env) (st : Store) (emitterID : UUID)
    (req : CreateInvoiceRequest) (key : String) (resp : InvoiceResponse)
    (hok : (CreateInvoice env st emitterID req key).1 = Except.ok resp) :
    ∃ inv,
      (CreateInvoice env st emitterID req key).2.invoices = st.invoices ++ [inv] ∧
      inv.id = resp.id ∧
      inv.status = DocumentStatus.received ∧
      inv.emailStatus = EmailStatus.pending ∧
      resp.status = DocumentStatus.received := by
  obtain ⟨_, _, _, _, hokspec⟩ := CreateInvoice_spec env st emitterID req key
  obtain ⟨l, _, _, _, _, _, _, _, _, hresp, hinv, _⟩ := hokspec resp hok
  refine ⟨invoiceOf env emitterID req key l, hinv, ?_, rfl, rfl, ?_⟩
  · rw [hresp]; rfl
  · rw [hresp]; rfl

/-- Witness of C13 on the scenario. -/
theorem createInvoice_initial_status_witness :
    ∃ inv,
      (CreateInvoice scenarioEnv scenarioStore 1 (scenarioRequest (132 / 5)) "").2.invoices =
        scenarioStore.invoices ++ [inv] ∧
      inv.id = (buildResponse scenarioEnv scenarioInvoice scenarioEmitter).id ∧
      inv.status = DocumentStatus.received ∧
      inv.emailStatus = EmailStatus.pending ∧
      (buildResponse scenarioEnv scenarioInvoice scenarioEmitter).status =
        DocumentStatus.received :=
  createInvoice_initial_status scenarioEnv scenarioStore 1 (scenarioRequest (132 / 5)) ""
    (buildResponse scenarioEnv scenarioInvoice scenarioEmitter) (by decide!)

/-- C14. On success the response mirrors the persisted invoice: its id, document type,
issuing point and document number (the number `get_next_folio` handed out for the series
of that issuing point), the totals net = `Subtotal`, itbms = `ITBMSAmount`, total =
`TotalAmount`, the emitter's RUC as type, number, check digit and branch joined by "-",
and the links "/v1/invoices/{id}" and "/v1/invoices/{id}/files". -/
theorem createInvoice_response_mirrors (env : Env) (st : Store) (emitterID : UUID)
    (req : CreateInvoiceRequest) (key : String) (resp : InvoiceResponse)
    (hok : (CreateInvoice env st emitterID req key).1 = Except.ok resp) :
    ∃ inv emitter,
      (CreateInvoice env st emitterID req key).2.invoices = st.invoices ++ [inv] ∧
      st.emitters.find? (fun e => decide (e.id = emitterID) && e.isActive) = some emitter ∧
      get_next_folio st.series emitterID inv.ptoFacDF req.documentType =
        some (inv.documentNumber, (CreateInvoice env st emitterID req key).2.series) ∧
      resp.id = inv.id ∧
      resp.documentType = inv.documentType ∧
      resp.emitter.ptoFac = inv.ptoFacDF ∧
      resp.emitter.number = inv.documentNumber ∧
      resp.totals.net = inv.subtotal ∧
      resp.totals.itbms = inv.itbmsAmount ∧
      resp.totals.total = inv.totalAmount ∧
      resp.emitter.ruc =
        emitter.rucTipo ++ "-" ++ emitter.rucNumero ++ "-" ++ emitter.rucDV ++ "-" ++
          emitter.sucEm ∧
      resp.links.self = "/v1/invoices/" ++ env.uuidString inv.id ∧
      resp.links.files = "/v1/invoices/" ++ env.uuidString inv.id ++ "/files" := by
  obtain ⟨_, _, _, _, hokspec⟩ := CreateInvoice_spec env st emitterID req key
  obtain ⟨l, _, _, hemit, _, _, hfolio, _, _, hresp, hinv, _⟩ := hokspec resp hok
  subst hresp
  exact ⟨invoiceOf env emitterID req key l, l.emitter, hinv, hemit, hfolio, rfl, rfl, rfl, rfl,
    rfl, rfl, rfl, rfl, rfl, rfl⟩

/-- Witness of C14 on the scenario. -/
theorem createInvoice_response_mirrors_witness :
    (buildResponse scenarioEnv scenarioInvoice scenarioEmitter).emitter.number = 1 ∧
    (buildResponse scenarioEnv scenarioInvoice scenarioEmitter).emitter.ruc =
      "2-155596713-86-0000" ∧
    (buildResponse scenarioEnv scenarioInvoice scenarioEmitter).links.files =
      "/v1/invoices/100/files" ∧
    ∃ inv emitter,
      (CreateInvoice scenarioEnv scenarioStore 1 (scenarioRequest (132 / 5)) "").2.invoices =
        scenarioStore.invoices ++ [inv] ∧
      scenarioStore.emitters.find? (fun e => decide (e.id = 1) && e.isActive) = some emitter ∧
      (buildResponse scenarioEnv scenarioInvoice scenarioEmitter).id = inv.id ∧
      (buildResponse scenarioEnv scenarioInvoice scenarioEmitter).emitter.number =
        inv.documentNumber :=
  have h := createInvoice_response_mirrors scenarioEnv scenarioStore 1
    (scenarioRequest (132 / 5)) "" (buildResponse scenarioEnv scenarioInvoice scenarioEmitter)
    (by decide!)
  ⟨by decide, by decide, by decide,
    h.elim fun inv h1 => h1.elim fun emitter h2 =>
      ⟨inv, emitter, h2.1, h2.2.1, h2.2.2.2.1, h2.2.2.2.2.2.2.1⟩⟩

/-! ## An invalid tax code -/

theorem calculateTotalsLoop_error_value (items : List ItemRequest) :
    ∀ (subtotal itbmsAmount : Money) (e : Error),
      (calculateTotalsLoop items subtotal itbmsAmount).2.2.2 = some e →
        ∃ it ∈ items, ¬ validTaxCode it.taxRate ∧ e = Error.invalidTaxRate it.taxRate := by
  induction items with
  | nil => intro s t e h; simp [calculateTotalsLoop] at h
  | cons it rest ih =>
    intro s t e h
    cases hr : itbmsRate it.taxRate with
    | none =>
      simp only [calculateTotalsLoop, hr, Option.some.injEq] at h
      exact ⟨it, List.mem_cons_self _ _, (itbmsRate_eq_none_iff _).1 hr, h.symm⟩
    | some rate =>
      simp only [calculateTotalsLoop, hr] at h
      obtain ⟨x, hx, hbad, he⟩ := ih _ _ e h
      exact ⟨x, List.mem_cons_of_mem _ hx, hbad, he⟩

theorem CustomerRepository.GetByEmail_result (env : Env) (st st0 : Store) (emitterID : UUID)
    (email : String) (h : st.customers = st0.customers) :
    (CustomerRepository.GetByEmail env st emitterID email).1 =
      (CustomerRepository.GetByEmail env st0 emitterID email).1 := by
  simp only [CustomerRepository.GetByEmail, h]
  split
  · rfl
  · split <;> rfl

/-- What `getOrCreateCustomer` does to `customers`: nothing when the lookup by e-mail
returns a customer, one new row for the request otherwise. -/
theorem getOrCreateCustomer_customers (env : Env) (st : Store) (req : CustomerRequest)
    (emitterID : UUID) (c : Customer)
    (hok : (getOrCreateCustomer env st req emitterID).1 = Except.ok c) :
    ((∃ found, (CustomerRepository.GetByEmail env st emitterID req.email).1 =
        Except.ok found) →
      (getOrCreateCustomer env st req emitterID).2.customers = st.customers) ∧
    ((∃ e, (CustomerRepository.GetByEmail env st emitterID req.email).1 = Except.error e) →
      (getOrCreateCustomer env st req emitterID).2.customers = st.customers ++
        [{ id := env.newCustomerID, emitterID := emitterID, name := req.name,
           email := req.email, phone := req.phone, addressLine := req.address,
           ubiCode := req.ubiCode, taxID := none, isActive := true, createdAt := env.now,
           updatedAt := env.now }]) := by
  have hstore := CustomerRepository.GetByEmail_store env st emitterID req.email
  simp only [getOrCreateCustomer] at hok ⊢
  rcases hres : CustomerRepository.GetByEmail env st emitterID req.email with ⟨r, st1⟩
  rw [hres] at hstore hok
  simp only at hstore hok
  subst hstore
  cases r with
  | ok found =>
    simp only
    exact ⟨fun _ => rfl, fun ⟨e, he⟩ => by simp at he⟩
  | error e =>
    simp only [CustomerRepository.Create] at hok ⊢
    cases hf : env.fails DBCall.customerInsert with
    | true =>
      rw [hf] at hok
      simp at hok
    | false =>
      simp only [Bool.false_eq_true, if_false]
      exact ⟨fun ⟨found, hfound⟩ => by simp at hfound, fun _ => rfl⟩

/-- What the head of `CreateInvoice` has done to `customers` when it reaches the totals
step. -/
theorem createInvoiceLookups_customers (env : Env) (st : Store) (emitterID : UUID)
    (req : CreateInvoiceRequest) (key : String) (l : Lookups)
    (hok : (createInvoiceLookups env st emitterID req key).1 = Except.ok l) :
    ((∃ found, (CustomerRepository.GetByEmail env st emitterID req.customer.email).1 =
        Except.ok found) →
      (createInvoiceLookups env st emitterID req key).2.customers = st.customers) ∧
    ((∃ e, (CustomerRepository.GetByEmail env st emitterID req.customer.email).1 =
        Except.error e) →
      (createInvoiceLookups env st emitterID req key).2.customers = st.customers ++
        [{ id := env.newCustomerID, emitterID := emitterID, name := req.customer.name,
           email := req.customer.email, phone := req.customer.phone,
           addressLine := req.customer.address, ubiCode := req.customer.ubiCode,
           taxID := none, isActive := true, createdAt := env.now,
           updatedAt := env.now }]) := by
  simp only [createInvoiceLookups] at hok ⊢
  have f1 := checkIdempotency_frame env st key
  rcases h1 : checkIdempotency env st key with ⟨r1, st1⟩
  rw [h1] at f1 hok
  simp only at f1 hok
  obtain ⟨⟨_, a2, _, _, _, _⟩, _⟩ := f1
  cases r1 with
  | some e => simp at hok
  | none =>
  simp only at hok ⊢
  have f2 := EmitterRepository.GetByID_store env st1 emitterID
  rcases h2 : EmitterRepository.GetByID env st1 emitterID with ⟨r2, st2⟩
  rw [h2] at f2 hok
  simp only at f2 hok
  subst f2
  cases r2 with
  | error e => simp at hok
  | ok emitter =>
  simp only at hok ⊢
  have hres := CustomerRepository.GetByEmail_result env (st1.record DBCall.emitterSelectByID)
    st emitterID req.customer.email (by rw [Store.record_customers, a2])
  have f3 := getOrCreateCustomer_customers env (st1.record DBCall.emitterSelectByID)
    req.customer emitterID
  rcases h3 : getOrCreateCustomer env (st1.record DBCall.emitterSelectByID) req.customer
    emitterID with ⟨r3, st3⟩
  rw [h3] at f3 hok
  rw [hres, Store.record_customers, ← a2] at f3
  simp only at f3 hok
  cases r3 with
  | error e => simp at hok
  | ok customer =>
  simp only at hok ⊢
  have f3 := f3 customer rfl
  have f4 := EmitterRepository.GetSeries_store env st3 emitterID (resolvePtoFacDF req emitter)
    req.documentType
  rcases h4 : EmitterRepository.GetSeries env st3 emitterID (resolvePtoFacDF req emitter)
    req.documentType with ⟨r4, st4⟩
  rw [h4] at f4 hok
  simp only at f4 hok
  subst f4
  cases r4 with
  | error e => simp at hok
  | ok series =>
  simp only at hok ⊢
  have f5 := InvoiceRepository.GetNextDocumentNumber_frame env (st3.record DBCall.seriesSelect)
    emitterID series.ptoFacDF req.documentType
  rcases h5 : InvoiceRepository.GetNextDocumentNumber env (st3.record DBCall.seriesSelect)
    emitterID series.ptoFacDF req.documentType with ⟨r5, st5⟩
  rw [h5] at f5 hok
  simp only [Store.record_customers] at f5 hok
  obtain ⟨_, c2, _⟩ := f5
  cases r5 with
  | error e => simp at hok
  | ok n =>
    simp only
    rw [c2]
    exact f3

/-- Counterexample to C15: on the scenario, the request whose second line carries the tax
code "99" fails with the invalid-tax-rate error, yet the store is not what it was: a
customer row has been inserted and the series counter has moved from 1 to 2. -/
theorem createInvoice_invalid_tax_changes_state :
    (CreateInvoice scenarioEnv scenarioStore 1 invalidTaxRequest "").1 =
      Except.error (Error.errorCalculatingTotals (Error.invalidTaxRate "99")) ∧
    (CreateInvoice scenarioEnv scenarioStore 1 invalidTaxRequest "").2.customers =
      [scenarioCustomer] ∧
    (CreateInvoice scenarioEnv scenarioStore 1 invalidTaxRequest "").2.series.map
      (fun s => s.nextNumber) = [2] ∧
    ¬ ((CreateInvoice scenarioEnv scenarioStore 1 invalidTaxRequest "").2.invoices =
        scenarioStore.invoices ∧
      (CreateInvoice scenarioEnv scenarioStore 1 invalidTaxRequest "").2.invoiceItems =
        scenarioStore.invoiceItems ∧
      (CreateInvoice scenarioEnv scenarioStore 1 invalidTaxRequest "").2.customers =
        scenarioStore.customers ∧
      (CreateInvoice scenarioEnv scenarioStore 1 invalidTaxRequest "").2.series =
        scenarioStore.series) := by
  refine ⟨by decide!, by decide!, by decide!, ?_⟩
  intro h
  have hc : (CreateInvoice scenarioEnv scenarioStore 1 invalidTaxRequest "").2.customers =
      [scenarioCustomer] := by decide!
  rw [hc] at h
  exact absurd h.2.2.1 (by decide)

/-- C15, amended. A `CreateInvoice` request that reaches the totals step with an item
carrying an invalid tax code fails with "error calculating totals: invalid tax rate" and
persists no invoice row and no item row (the transaction is never opened); the emitters
and products are untouched.  What the steps before the totals wrote stays: the customer
rows are unchanged when the lookup by e-mail returned a customer, and are the old rows
followed by one new row for the customer of the request when it did not; and the document
number taken from the series has been consumed (`next_number` of the series has advanced
from that number to the next). -/
theorem createInvoice_invalid_tax (env : Env) (st : Store) (emitterID : UUID)
    (req : CreateInvoiceRequest) (key : String) (l : Lookups) (st5 : Store)
    (hreach : createInvoiceLookups env st emitterID req key = (Except.ok l, st5))
    (hbad : ∃ it ∈ req.items, ¬ validTaxCode it.taxRate) :
    (∃ it ∈ req.items, ¬ validTaxCode it.taxRate ∧
      (CreateInvoice env st emitterID req key).1 =
        Except.error (Error.errorCalculatingTotals (Error.invalidTaxRate it.taxRate))) ∧
    (CreateInvoice env st emitterID req key).2.invoices = st.invoices ∧
    (CreateInvoice env st emitterID req key).2.invoiceItems = st.invoiceItems ∧
    (CreateInvoice env st emitterID req key).2.issued DBCall.txBegin =
      st.issued DBCall.txBegin ∧
    (CreateInvoice env st emitterID req key).2.emitters = st.emitters ∧
    (CreateInvoice env st emitterID req key).2.products = st.products ∧
    ((∃ found, (CustomerRepository.GetByEmail env st emitterID req.customer.email).1 =
        Except.ok found) →
      (CreateInvoice env st emitterID req key).2.customers = st.customers) ∧
    ((∃ e, (CustomerRepository.GetByEmail env st emitterID req.customer.email).1 =
        Except.error e) →
      (CreateInvoice env st emitterID req key).2.customers = st.customers ++
        [{ id := env.newCustomerID, emitterID := emitterID, name := req.customer.name,
           email := req.customer.email, phone := req.customer.phone,
           addressLine := req.customer.address, ubiCode := req.customer.ubiCode,
           taxID := none, isActive := true, createdAt := env.now,
           updatedAt := env.now }]) ∧
    get_next_folio st.series emitterID l.series.ptoFacDF req.documentType =
      some (l.documentNumber, (CreateInvoice env st emitterID req key).2.series) ∧
    nextNumberOf st.series emitterID l.series.ptoFacDF req.documentType =
      some l.documentNumber ∧
    nextNumberOf (CreateInvoice env st emitterID req key).2.series emitterID
      l.series.ptoFacDF req.documentType = some (l.documentNumber + 1) := by
  obtain ⟨a1, a4, a5, a6, _, lg, _, aok⟩ := createInvoiceLookups_spec env st emitterID req key
  have hcust := createInvoiceLookups_customers env st emitterID req key l (by rw [hreach])
  rw [hreach] at a1 a4 a5 a6 lg aok hcust
  simp only at a1 a4 a5 a6 lg aok hcust
  obtain ⟨_, _, _, _, hfolio⟩ := aok l rfl
  have herrne : (calculateTotals req.items).2.2.2 ≠ none :=
    (calculateTotalsLoop_error_iff req.items 0 0).2 hbad
  obtain ⟨e, he⟩ := Option.ne_none_iff_exists'.1 herrne
  obtain ⟨it, hit, hitbad, hev⟩ := calculateTotalsLoop_error_value req.items 0 0 e he
  have hrun : CreateInvoice env st emitterID req key =
      (Except.error (Error.errorCalculatingTotals e), st5) := by
    simp only [CreateInvoice, hreach, createInvoiceFromTotals]
    rcases hct : calculateTotals req.items with ⟨sub, itb, tot, err⟩
    rw [hct] at he
    simp only at he
    subst he
    rfl
  rw [hrun]
  obtain ⟨hbefore, hafter, _⟩ := get_next_folio_counter _ _ _ _ _ _ hfolio
  refine ⟨⟨it, hit, hitbad, by rw [hev]⟩, a5, a6,
    Store.logExt_issued lg _ (by simp [DBCall.isTx]), a1, a4, hcust.1, hcust.2, hfolio,
    hbefore, hafter⟩

/-- Witness of C15 (amended) on the scenario with the tax code "99": no invoice row, no
item row, the new customer row stays and the number 1 is consumed. -/
theorem createInvoice_invalid_tax_witness :
    (CreateInvoice scenarioEnv scenarioStore 1 invalidTaxRequest "").2.invoices =
      scenarioStore.invoices ∧
    (CreateInvoice scenarioEnv scenarioStore 1 invalidTaxRequest "").2.invoiceItems =
      scenarioStore.invoiceItems ∧
    (CreateInvoice scenarioEnv scenarioStore 1 invalidTaxRequest "").2.customers =
      scenarioStore.customers ++ [scenarioCustomer] ∧
    nextNumberOf scenarioStore.series 1 scenarioLookups.series.ptoFacDF
        invalidTaxRequest.documentType = some scenarioLookups.documentNumber ∧
    nextNumberOf (CreateInvoice scenarioEnv scenarioStore 1 invalidTaxRequest "").2.series 1
        scenarioLookups.series.ptoFacDF invalidTaxRequest.documentType =
      some (scenarioLookups.documentNumber + 1) :=
  have h := createInvoice_invalid_tax scenarioEnv scenarioStore 1 invalidTaxRequest ""
    scenarioLookups (createInvoiceLookups scenarioEnv scenarioStore 1 invalidTaxRequest "").2
    (by decide) ⟨⟨none, none, "Producto", 1, 5, "99"⟩, by decide!, by decide⟩
  ⟨h.2.1, h.2.2.1, h.2.2.2.2.2.2.2.1 ⟨_, rfl⟩, h.2.2.2.2.2.2.2.2.2.1,
    h.2.2.2.2.2.2.2.2.2.2⟩

/-! ## Upserts of artifact metadata -/

theorem filter_invoiceID_update (rows : List InvoiceFiles) (g : InvoiceFiles → InvoiceFiles)
    (hg : ∀ row, (g row).invoiceID = row.invoiceID) (id : UUID) :
    (rows.map g).filter (fun f => decide (f.invoiceID = id)) =
      (rows.filter (fun f => decide (f.invoiceID = id))).map g := by
  induction rows with
  | nil => rfl
  | cons a rest ih =>
    by_cases h : a.invoiceID = id
    · simp [List.filter_cons, hg, h, ih]
    · simp [List.filter_cons, hg, h, ih]

/-- What `CreateOrUpdate` does to the artifact store, by outcome. -/
theorem InvoiceFilesRepository.CreateOrUpdate_spec (env : Env) (fs : FileStore)
    (caller : FilesCaller) (files : InvoiceFiles) :
    (InvoiceFilesRepository.CreateOrUpdate env fs caller files).2.blobs = fs.blobs ∧
    (fs.atMostOnePerInvoice →
      (InvoiceFilesRepository.CreateOrUpdate env fs caller files).2.atMostOnePerInvoice) ∧
    ((InvoiceFilesRepository.CreateOrUpdate env fs caller files).1 ≠ none →
      (InvoiceFilesRepository.CreateOrUpdate env fs caller files).2 = fs) ∧
    ((InvoiceFilesRepository.CreateOrUpdate env fs caller files).1 = none →
      (∃ row ∈ (InvoiceFilesRepository.CreateOrUpdate env fs caller files).2.invoiceFiles,
        row.invoiceID = files.invoiceID) ∧
      ∀ row ∈ (InvoiceFilesRepository.CreateOrUpdate env fs caller files).2.invoiceFiles,
        row.invoiceID = files.invoiceID →
          row.pdfData = files.pdfData ∧ row.xmlData = files.xmlData ∧
          row.pdfSize = files.pdfSize ∧ row.xmlSize = files.xmlSize ∧
          row.pdfURL = files.pdfURL ∧ row.xmlURL = files.xmlURL) := by
  simp only [InvoiceFilesRepository.CreateOrUpdate, InvoiceFilesRepository.Exists]
  cases hc : env.fails (DBCall.invoiceFilesCount caller) with
  | true =>
    simp only [if_true]
    exact ⟨(by trivial), fun h => h, fun _ => (by trivial), fun h => by simp at h⟩
  | false =>
  simp only [Bool.false_eq_true, if_false]
  by_cases hex : (fs.invoiceFiles.filter (fun f => decide (f.invoiceID = files.invoiceID))).length > 0
  · -- a row exists: update
    have hd : decide ((fs.invoiceFiles.filter
        (fun f => decide (f.invoiceID = files.invoiceID))).length > 0) = true := by
      simpa using hex
    simp only [hd, InvoiceFilesRepository.Update]
    cases hu : env.fails (DBCall.invoiceFilesUpdate caller) with
    | true =>
      simp only [if_true]
      exact ⟨(by trivial), fun h => h, fun _ => (by trivial), fun h => by simp at h⟩
    | false =>
      simp only [Bool.false_eq_true, if_false]
      have hg : ∀ row : InvoiceFiles,
          (if row.invoiceID = files.invoiceID then
            { row with pdfData := files.pdfData, xmlData := files.xmlData,
                       pdfSize := files.pdfSize, xmlSize := files.xmlSize,
                       pdfURL := files.pdfURL, xmlURL := files.xmlURL,
                       updatedAt := env.now }
           else row).invoiceID = row.invoiceID := by
        intro row
        split <;> rfl
      refine ⟨(by trivial), ?_, fun h => by simp at h, fun _ => ⟨?_, ?_⟩⟩
      · intro hone id
        show ((fs.invoiceFiles.map _).filter _).length ≤ 1
        rw [filter_invoiceID_update _ _ hg id, List.length_map]
        exact hone id
      · obtain ⟨row, hrow⟩ := List.exists_mem_of_length_pos hex
        obtain ⟨hmem, hid⟩ := List.mem_filter.1 hrow
        simp only [decide_eq_true_eq] at hid
        refine ⟨_, List.mem_map_of_mem _ hmem, ?_⟩
        rw [hg row]; exact hid
      · intro row hrow hid
        obtain ⟨old, _, hold⟩ := List.mem_map.1 hrow
        subst hold
        rw [hg old] at hid
        simp only [hid, if_true]
        exact ⟨(by trivial), (by trivial), (by trivial), (by trivial), (by trivial), (by trivial)⟩
  · -- no row: insert
    have hd : decide ((fs.invoiceFiles.filter
        (fun f => decide (f.invoiceID = files.invoiceID))).length > 0) = false := by
      simpa using hex
    have hnil : fs.invoiceFiles.filter (fun f => decide (f.invoiceID = files.invoiceID)) = [] := by
      apply List.eq_nil_of_length_eq_zero
      omega
    simp only [hd, InvoiceFilesRepository.Create]
    cases hi : env.fails (DBCall.invoiceFilesInsert caller) with
    | true =>
      simp only [if_true]
      exact ⟨(by trivial), fun h => h, fun _ => (by trivial), fun h => by simp at h⟩
    | false =>
      simp only [Bool.false_eq_true, if_false]
      refine ⟨(by trivial), ?_, fun h => by simp at h, fun _ => ⟨?_, ?_⟩⟩
      · intro hone id
        show ((fs.invoiceFiles ++ [files]).filter _).length ≤ 1
        rw [List.filter_append, List.length_append]
        by_cases hid : files.invoiceID = id
        · subst hid
          rw [hnil]
          simp [List.filter_cons]
        · have := hone id
          simp only [List.filter_cons, hid, decide_False, Bool.false_eq_true, if_false,
            List.filter_nil, List.length_nil, Nat.add_zero]
          exact this
      · exact ⟨files, by simp, rfl⟩
      · intro row hrow hid
        rcases List.mem_append.1 hrow with h | h
        · have : row ∈ fs.invoiceFiles.filter
              (fun f => decide (f.invoiceID = files.invoiceID)) :=
            List.mem_filter.2 ⟨h, by simpa using hid⟩
          rw [hnil] at this
          cases this
        · simp only [List.mem_singleton] at h
          subst h
          exact ⟨(by trivial), (by trivial), (by trivial), (by trivial), (by trivial), (by trivial)⟩

theorem runUpserts_atMostOne (calls : List Upsert) :
    ∀ fs : FileStore, fs.atMostOnePerInvoice → (runUpserts fs calls).atMostOnePerInvoice := by
  induction calls with
  | nil => intro fs h; exact h
  | cons u rest ih =>
    intro fs h
    simp only [runUpserts]
    exact ih _ ((InvoiceFilesRepository.CreateOrUpdate_spec u.env fs u.caller u.files).2.1 h)

/-- C17. `CreateOrUpdate` has upsert semantics.  From a store with at most one artifact row
per invoice, every sequence of `CreateOrUpdate` calls leaves at most one row per invoice;
and after a successful `CreateOrUpdate(files)` on such a store there is exactly one row for
`files.InvoiceID`, and it carries the PDF and XML data, the sizes and the URLs of
`files`. -/
theorem invoiceFiles_upsert (fs : FileStore) (h : fs.atMostOnePerInvoice) :
    (∀ calls : List Upsert, (runUpserts fs calls).atMostOnePerInvoice) ∧
    (∀ (env : Env) (caller : FilesCaller) (files : InvoiceFiles),
      (InvoiceFilesRepository.CreateOrUpdate env fs caller files).1 = none →
        ∃ row,
          (InvoiceFilesRepository.CreateOrUpdate env fs caller files).2.invoiceFiles.filter
            (fun f => decide (f.invoiceID = files.invoiceID)) = [row] ∧
          row.pdfData = files.pdfData ∧ row.xmlData = files.xmlData ∧
          row.pdfSize = files.pdfSize ∧ row.xmlSize = files.xmlSize ∧
          row.pdfURL = files.pdfURL ∧ row.xmlURL = files.xmlURL) := by
  refine ⟨fun calls => runUpserts_atMostOne calls fs h, ?_⟩
  intro env caller files hok
  obtain ⟨_, hone, _, hdone⟩ := InvoiceFilesRepository.CreateOrUpdate_spec env fs caller files
  obtain ⟨⟨row, hmem, hid⟩, hall⟩ := hdone hok
  have hle := hone h files.invoiceID
  have hin : row ∈ (InvoiceFilesRepository.CreateOrUpdate env fs caller files).2.invoiceFiles.filter
      (fun f => decide (f.invoiceID = files.invoiceID)) :=
    List.mem_filter.2 ⟨hmem, by simpa using hid⟩
  generalize (InvoiceFilesRepository.CreateOrUpdate env fs caller files).2.invoiceFiles.filter
      (fun f => decide (f.invoiceID = files.invoiceID)) = l at hle hin
  match l, hle, hin with
  | [a], _, hin =>
    simp only [List.mem_singleton] at hin
    subst hin
    exact ⟨row, rfl, hall row hmem hid⟩
  | _ :: _ :: _, hle, _ => simp at hle
/-- Witness of C17: two generations for invoice 100 on an empty table leave one row, which
carries the data, sizes and URLs of the second. -/
theorem invoiceFiles_upsert_witness :
    (runUpserts emptyFiles scenarioUpserts).atMostOnePerInvoice ∧
    (runUpserts emptyFiles scenarioUpserts).invoiceFiles =
      [{ id := 301, invoiceID := 100, pdfData := [37, 80, 68, 70, 10], xmlData := [60, 62],
         pdfSize := 5, xmlSize := 2, pdfURL := some "https://blob/pdf", xmlURL := none,
         generatedAt := 0, updatedAt := 0 }] :=
  ⟨(invoiceFiles_upsert emptyFiles (fun _ => Nat.zero_le _)).1 scenarioUpserts, by decide⟩

/-! ## Partial upload -/

/-- C19, on the code: with the PDF upload succeeding and the XML upload failing,
`StoreInvoiceFiles` returns "error uploading XML to Supabase" and the PDF blob it has just
uploaded is still in the bucket; the clean-up that deletes both blobs exists only on the
path where the metadata save fails. -/
theorem storeInvoiceFiles_leaves_pdf_blob :
    (HybridStorageService.StoreInvoiceFiles scenarioXMLUploadFails emptyFiles 100
        [37, 80, 68, 70] [60]).1 =
      Except.error (Error.errorUploadingXMLToSupabase
        (Error.errorUploadingFileToStorage Error.driver)) ∧
    (HybridStorageService.StoreInvoiceFiles scenarioXMLUploadFails emptyFiles 100
        [37, 80, 68, 70] [60]).2.blobs =
      [(("invoice-files", "invoices/100/factura_100.pdf"), [37, 80, 68, 70])] ∧
    (HybridStorageService.StoreInvoiceFiles scenarioMetadataFails emptyFiles 100
        [37, 80, 68, 70] [60]).1 =
      Except.error (Error.errorSavingInvoiceFilesMetadata
        (Error.errorCheckingExistence (Error.errorCheckingInvoiceFilesExistence Error.driver))) ∧
    (HybridStorageService.StoreInvoiceFiles scenarioMetadataFails emptyFiles 100
        [37, 80, 68, 70] [60]).2.blobs = [] := by
  refine ⟨by decide, by decide, by decide, by decide⟩

/-! ## The totals footer of the XML -/

/-- C16, on the code: for the scenario's invoice and plain names the XML ends with the
footer of the persisted totals 25.00, 1.40, 26.40; with the customer name
"Tasa %.2f S.A." the `%.2f` of the name takes the subtotal, and the XML ends with a footer
that shows 1.40 as subtotal, 26.40 as tax and `%!f(MISSING)` as total. -/
theorem generateInvoiceXML_footer_shifted :
    (generateInvoiceXMLText scenarioEnv scenarioInvoice scenarioCustomer scenarioEmitter
        scenarioInvoiceItems).map
      (fun xml => (expectedFooter scenarioInvoice).data.isSuffixOf xml.data) = some true ∧
    (generateInvoiceXMLText scenarioEnv scenarioInvoice percentCustomer scenarioEmitter
        scenarioInvoiceItems).map
      (fun xml => (expectedFooter scenarioInvoice).data.isSuffixOf xml.data) = some false ∧
    (generateInvoiceXMLText scenarioEnv scenarioInvoice percentCustomer scenarioEmitter
        scenarioInvoiceItems).map
      (fun xml => ("\n    <totales>\n        <subtotal>1.40</subtotal>\n        <itbms>26.40</itbms>\n        <total>%!f(MISSING)</total>\n    </totales>\n</factura>").data.isSuffixOf
        xml.data) = some true := by
  refine ⟨by decide!, by decide!, by decide!⟩
/-! ## Generation and download of the artifacts -/

theorem InvoiceRepository.GetByID_id (env : Env) (st : Store) (id : UUID)
    (record : InvoiceRecord)
    (h : (InvoiceRepository.GetByID env st id).1 = Except.ok record) :
    record.invoice.id = id := by
  simp only [InvoiceRepository.GetByID] at h
  split at h
  · simp at h
  · cases hrow : InvoiceRepository.joinedRow st id with
    | none => simp [hrow] at h
    | some x =>
      obtain ⟨i, e, c⟩ := x
      have hid : i.id = id := by
        unfold InvoiceRepository.joinedRow at hrow
        obtain ⟨a, _, ha⟩ := List.exists_of_findSome?_eq_some hrow
        by_cases hai : a.id = id
        · simp only [hai, if_true] at ha
          cases he : st.emitters.find? (fun e => decide (e.id = a.emitterID)) with
          | none => simp [he] at ha
          | some e1 =>
            cases hc : st.customers.find? (fun c => decide (c.id = a.customerID)) with
            | none => simp [he, hc] at ha
            | some c1 =>
              simp only [he, hc, Option.some_bind, Option.map_some', Option.some.injEq,
                Prod.mk.injEq] at ha
              rw [← ha.1]; exact hai
        · simp [hai] at ha
      rcases hres : InvoiceRepository.GetItemsByInvoiceID env
        (st.record DBCall.invoiceSelectByID) id with ⟨r, st2⟩
      simp only [hrow, hres] at h
      cases r with
      | ok items =>
        simp only [Except.ok.injEq] at h
        rw [← h]; exact hid
      | error err =>
        simp only [Except.ok.injEq] at h
        rw [← h]; exact hid

theorem GenerateInvoiceFiles_ok (env : Env) (invoice : Invoice) (customer : Customer)
    (emitter : Emitter) (items : List InvoiceItem) (files : InvoiceFiles)
    (h : GenerateInvoiceFiles env invoice customer emitter items = Except.ok files) :
    GenerateInvoicePDF env invoice customer emitter items = Except.ok files.pdfData ∧
    GenerateInvoiceXML env invoice customer emitter items = Except.ok files.xmlData ∧
    files.invoiceID = invoice.id ∧ files.pdfURL = none ∧ files.xmlURL = none := by
  simp only [GenerateInvoiceFiles] at h
  cases hp : GenerateInvoicePDF env invoice customer emitter items with
  | error e => simp [hp] at h
  | ok p =>
    cases hx : GenerateInvoiceXML env invoice customer emitter items with
    | error e => simp [hp, hx] at h
    | ok x =>
      simp only [hp, hx, Except.ok.injEq] at h
      subst h
      exact ⟨rfl, rfl, rfl, rfl, rfl⟩

theorem storeGenerated_data (env : Env) (fs : FileStore) (id : UUID) (files : InvoiceFiles) :
    (storeGenerated env fs id files).1.pdfData = files.pdfData ∧
    (storeGenerated env fs id files).1.xmlData = files.xmlData ∧
    (storeGenerated env fs id files).1.invoiceID = files.invoiceID := by
  unfold storeGenerated
  split
  · rcases hres : HybridStorageService.StoreInvoiceFiles env fs id files.pdfData files.xmlData
      with ⟨r, fs1⟩
    cases r <;> exact ⟨rfl, rfl, rfl⟩
  · exact ⟨rfl, rfl, rfl⟩

/-- A successful `GetInvoiceFiles` that did not find a row has generated the files of the
invoice `id` and saved them with the final `CreateOrUpdate`. -/
theorem GetInvoiceFiles_generated (env : Env) (st : Store) (fs : FileStore) (id : UUID)
    (resp : InvoiceFilesResponse)
    (hmiss : ∀ f, InvoiceFilesRepository.GetByInvoiceID env fs id ≠ Except.ok f)
    (hok : (GetInvoiceFiles env st fs id).1 = Except.ok resp) :
    ∃ invoice customer emitter items files,
      invoice.id = id ∧
      GenerateInvoiceFiles env invoice customer emitter items = Except.ok files ∧
      (InvoiceFilesRepository.CreateOrUpdate env (storeGenerated env fs id files).2
        FilesCaller.service (storeGenerated env fs id files).1).1 = none ∧
      (GetInvoiceFiles env st fs id).2.2 =
        (InvoiceFilesRepository.CreateOrUpdate env (storeGenerated env fs id files).2
          FilesCaller.service (storeGenerated env fs id files).1).2 := by
  revert hok
  simp only [GetInvoiceFiles]
  cases h0 : InvoiceFilesRepository.GetByInvoiceID env fs id with
  | ok f => exact absurd h0 (hmiss f)
  | error e0 =>
  simp only
  have hid := InvoiceRepository.GetByID_id env st id
  rcases h1 : InvoiceRepository.GetByID env st id with ⟨r1, st1⟩
  rw [h1] at hid
  cases r1 with
  | error e => intro h; simp at h
  | ok record =>
  simp only
  rcases h2 : CustomerRepository.GetByID env st1 record.invoice.customerID with ⟨r2, st2⟩
  cases r2 with
  | error e => intro h; simp at h
  | ok customer =>
  simp only
  rcases h3 : EmitterRepository.GetByID env st2 record.invoice.emitterID with ⟨r3, st3⟩
  cases r3 with
  | error e => intro h; simp at h
  | ok emitter =>
  simp only
  rcases h4 : InvoiceRepository.GetItemsByInvoiceID env st3 id with ⟨r4, st4⟩
  cases r4 with
  | error e => intro h; simp at h
  | ok items =>
  simp only
  cases h5 : GenerateInvoiceFiles env record.invoice customer emitter items with
  | error e => intro h; simp at h
  | ok files =>
  simp only
  rcases h6 : InvoiceFilesRepository.CreateOrUpdate env (storeGenerated env fs id files).2
    FilesCaller.service (storeGenerated env fs id files).1 with ⟨r6, fs2⟩
  cases r6 with
  | some e => intro h; simp at h
  | none =>
    intro _
    exact ⟨record.invoice, customer, emitter, items, files, hid record rfl, h5, by rw [h6], by rw [h6]⟩

theorem GetByInvoiceID_found (env : Env) (fs : FileStore) (id : UUID)
    (hsel : env.fails DBCall.invoiceFilesSelect = false)
    (hex : ∃ row ∈ fs.invoiceFiles, row.invoiceID = id) :
    ∃ row ∈ fs.invoiceFiles, row.invoiceID = id ∧
      InvoiceFilesRepository.GetByInvoiceID env fs id = Except.ok row := by
  simp only [InvoiceFilesRepository.GetByInvoiceID, hsel, Bool.false_eq_true, if_false]
  cases hfind : fs.invoiceFiles.find? (fun f => decide (f.invoiceID = id)) with
  | none =>
    obtain ⟨row, hrow, hid⟩ := hex
    have := List.find?_eq_none.1 hfind row hrow
    simp [hid] at this
  | some row =>
    refine ⟨row, List.mem_of_find?_eq_some hfind, ?_, rfl⟩
    simpa using List.find?_some hfind

theorem GetByInvoiceID_no_row (env : Env) (fs : FileStore) (id : UUID)
    (hnone : ∀ row ∈ fs.invoiceFiles, row.invoiceID ≠ id) :
    InvoiceFilesRepository.GetByInvoiceID env fs id =
      Except.error (if env.fails DBCall.invoiceFilesSelect = true
        then Error.errorQueryingInvoiceFiles Error.driver
        else Error.invoiceFilesNotFound id) := by
  have hfind : fs.invoiceFiles.find? (fun f => decide (f.invoiceID = id)) = none := by
    rw [List.find?_eq_none]
    intro row hrow
    simpa using hnone row hrow
  simp only [InvoiceFilesRepository.GetByInvoiceID, hfind]
  split <;> rfl

/-- With the select working and every row of the invoice carrying the inline data `p` and
`x`, the download answers these bytes (when non-empty) and the file name. -/
theorem DownloadInvoiceFile_inline (env : Env) (fs : FileStore) (id : UUID) (p x : Bytes)
    (hsel : env.fails DBCall.invoiceFilesSelect = false)
    (hex : ∃ row ∈ fs.invoiceFiles, row.invoiceID = id)
    (hall : ∀ row ∈ fs.invoiceFiles, row.invoiceID = id → row.pdfData = p ∧ row.xmlData = x) :
    (p ≠ [] → DownloadInvoiceFile env fs id "pdf" =
      Except.ok (p, "factura_" ++ env.uuidString id ++ ".pdf")) ∧
    (x ≠ [] → DownloadInvoiceFile env fs id "xml" =
      Except.ok (x, "factura_" ++ env.uuidString id ++ ".xml")) := by
  obtain ⟨row, hrow, hid, hget⟩ := GetByInvoiceID_found env fs id hsel hex
  obtain ⟨hp, hx⟩ := hall row hrow hid
  have hne : ("xml" : String) ≠ "pdf" := by decide
  constructor
  · intro hpne
    have hlen : 0 < p.length := List.length_pos.2 hpne
    have hlen0 : p.length ≠ 0 := by omega
    simp only [DownloadInvoiceFile, hget, if_true, hp, gt_iff_lt, hlen, finishDownload, hlen0,
      if_false]
  · intro hxne
    have hlen : 0 < x.length := List.length_pos.2 hxne
    have hlen0 : x.length ≠ 0 := by omega
    simp only [DownloadInvoiceFile, hget, hne, if_false, if_true, hx, gt_iff_lt, hlen,
      finishDownload, hlen0]

theorem GetInvoiceFiles_then_download (env env2 : Env) (st : Store) (fs : FileStore)
    (id : UUID) (resp : InvoiceFilesResponse)
    (hmiss : ∀ f, InvoiceFilesRepository.GetByInvoiceID env fs id ≠ Except.ok f)
    (hok : (GetInvoiceFiles env st fs id).1 = Except.ok resp)
    (hsel : env2.fails DBCall.invoiceFilesSelect = false) :
    ∃ invoice customer emitter items p x,
      invoice.id = id ∧
      GenerateInvoicePDF env invoice customer emitter items = Except.ok p ∧
      GenerateInvoiceXML env invoice customer emitter items = Except.ok x ∧
      (p ≠ [] → DownloadInvoiceFile env2 (GetInvoiceFiles env st fs id).2.2 id "pdf" =
        Except.ok (p, "factura_" ++ env2.uuidString id ++ ".pdf")) ∧
      (x ≠ [] → DownloadInvoiceFile env2 (GetInvoiceFiles env st fs id).2.2 id "xml" =
        Except.ok (x, "factura_" ++ env2.uuidString id ++ ".xml")) := by
  obtain ⟨invoice, customer, emitter, items, files, hid, hgen, hsave, hfs⟩ :=
    GetInvoiceFiles_generated env st fs id resp hmiss hok
  obtain ⟨hp, hx, hfid, _, _⟩ := GenerateInvoiceFiles_ok env invoice customer emitter items files hgen
  obtain ⟨d1, d2, d3⟩ := storeGenerated_data env fs id files
  obtain ⟨_, _, _, hdone⟩ := InvoiceFilesRepository.CreateOrUpdate_spec env
    (storeGenerated env fs id files).2 FilesCaller.service (storeGenerated env fs id files).1
  obtain ⟨⟨row, hrow, hrid⟩, hall⟩ := hdone hsave
  have hkey : (storeGenerated env fs id files).1.invoiceID = id := by rw [d3, hfid, hid]
  rw [← hfs] at hrow hall
  have := DownloadInvoiceFile_inline env2 (GetInvoiceFiles env st fs id).2.2 id files.pdfData
    files.xmlData hsel ⟨row, hrow, hrid.trans hkey⟩ (by
      intro r hr hrid2
      obtain ⟨e1, e2, _⟩ := hall r hr (hrid2.trans hkey.symm)
      exact ⟨e1.trans d1, e2.trans d2⟩)
  exact ⟨invoice, customer, emitter, items, files.pdfData, files.xmlData, hid, hp, hx, this.1,
    this.2⟩

/-- C18. When `GetInvoiceFiles` finds no artifact row for the invoice, generates the PDF
bytes `p` and the XML bytes `x` and succeeds, then (the metadata select working)
`DownloadInvoiceFile(id, "pdf")` returns `p` and `DownloadInvoiceFile(id, "xml")` returns
`x`, each when non-empty, with the file names `factura_{id}.pdf` and `factura_{id}.xml`.
This holds for every environment: with a storage service whose uploads succeed, with one
whose upload or metadata save fails, and without a storage service; in all of them the
final `CreateOrUpdate` stores the bytes inline in the row. -/
theorem artifact_round_trip (env env2 : Env) (st : Store) (fs : FileStore) (id : UUID)
    (resp : InvoiceFilesResponse)
    (hmiss : ∀ f, InvoiceFilesRepository.GetByInvoiceID env fs id ≠ Except.ok f)
    (hok : (GetInvoiceFiles env st fs id).1 = Except.ok resp)
    (hsel : env2.fails DBCall.invoiceFilesSelect = false) :
    ∃ invoice customer emitter items p x,
      invoice.id = id ∧
      GenerateInvoicePDF env invoice customer emitter items = Except.ok p ∧
      GenerateInvoiceXML env invoice customer emitter items = Except.ok x ∧
      (p ≠ [] → DownloadInvoiceFile env2 (GetInvoiceFiles env st fs id).2.2 id "pdf" =
        Except.ok (p, "factura_" ++ env2.uuidString id ++ ".pdf")) ∧
      (x ≠ [] → DownloadInvoiceFile env2 (GetInvoiceFiles env st fs id).2.2 id "xml" =
        Except.ok (x, "factura_" ++ env2.uuidString id ++ ".xml")) :=
  GetInvoiceFiles_then_download env env2 st fs id resp hmiss hok hsel

theorem artifact_round_trip_witness :
    (GetInvoiceFiles scenarioXMLUploadFails scenarioStoreWithInvoice emptyFiles 100).1 =
      Except.ok (localFilesResponse scenarioXMLUploadFails 100) ∧
    scenarioEnv.fails DBCall.invoiceFilesSelect = false ∧
    ∃ invoice customer emitter items p x,
      invoice.id = 100 ∧
      GenerateInvoicePDF scenarioXMLUploadFails invoice customer emitter items = Except.ok p ∧
      GenerateInvoiceXML scenarioXMLUploadFails invoice customer emitter items = Except.ok x ∧
      (p ≠ [] → DownloadInvoiceFile scenarioEnv
        (GetInvoiceFiles scenarioXMLUploadFails scenarioStoreWithInvoice emptyFiles 100).2.2
        100 "pdf" = Except.ok (p, "factura_" ++ scenarioEnv.uuidString 100 ++ ".pdf")) ∧
      (x ≠ [] → DownloadInvoiceFile scenarioEnv
        (GetInvoiceFiles scenarioXMLUploadFails scenarioStoreWithInvoice emptyFiles 100).2.2
        100 "xml" = Except.ok (x, "factura_" ++ scenarioEnv.uuidString 100 ++ ".xml")) :=
  ⟨by decide!, by decide,
    artifact_round_trip scenarioXMLUploadFails scenarioEnv scenarioStoreWithInvoice emptyFiles
      100 (localFilesResponse scenarioXMLUploadFails 100)
      (by
        intro f h
        rw [GetByInvoiceID_no_row _ _ _ (by decide)] at h
        split at h <;> exact Except.noConfusion h)
      (by decide!) (by decide)⟩

/-- C20, as written, fails: the invoice 100 exists and `GetInvoiceFiles` can generate its
artifacts, but with no artifact row stored `DownloadInvoiceFile` generates nothing and
fails for both kinds with "error getting invoice files: invoice files not found". -/
theorem download_without_artifacts_fails :
    scenarioStoreWithInvoice.invoices.map (fun i => i.id) = [100] ∧
    emptyFiles.invoiceFiles = [] ∧
    (GetInvoiceFiles scenarioEnv scenarioStoreWithInvoice emptyFiles 100).1 =
      Except.ok
        { xmlFE := some ("https://ambtmugdpopskzxdafdm.supabase.co/storage/v1/object/public/" ++
            "invoice-files/invoices/100/factura_100.xml"),
          xmlProtocolo := some ("https://ambtmugdpopskzxdafdm.supabase.co/storage/v1/object/public/" ++
            "invoice-files/invoices/100/factura_100.xml"),
          cafePDFURL := some ("https://ambtmugdpopskzxdafdm.supabase.co/storage/v1/object/public/" ++
            "invoice-files/invoices/100/factura_100.pdf"),
          disposition := "inline" } ∧
    DownloadInvoiceFile scenarioEnv emptyFiles 100 "pdf" =
      Except.error (Error.errorGettingInvoiceFiles (Error.invoiceFilesNotFound 100)) ∧
    DownloadInvoiceFile scenarioEnv emptyFiles 100 "xml" =
      Except.error (Error.errorGettingInvoiceFiles (Error.invoiceFilesNotFound 100)) := by
  refine ⟨by decide!, by decide, by decide!, by decide, by decide⟩

/-- C20, amended. For an invoice without an artifact row, `DownloadInvoiceFile` generates
nothing: for every kind it fails with "error getting invoice files", wrapping "invoice
files not found" when the metadata select itself works. The lazy generation is done by
`GetInvoiceFiles`: after it has succeeded on that store, `DownloadInvoiceFile` (its select
working) returns the generated PDF and XML bytes, each when non-empty, with the file names
`factura_{id}.pdf` and `factura_{id}.xml`. -/
theorem download_needs_generation (env env2 : Env) (st : Store) (fs : FileStore) (id : UUID)
    (hnone : ∀ row ∈ fs.invoiceFiles, row.invoiceID ≠ id) :
    (∀ kind : String, DownloadInvoiceFile env fs id kind =
      Except.error (Error.errorGettingInvoiceFiles
        (if env.fails DBCall.invoiceFilesSelect = true
          then Error.errorQueryingInvoiceFiles Error.driver
          else Error.invoiceFilesNotFound id))) ∧
    (∀ resp, (GetInvoiceFiles env st fs id).1 = Except.ok resp →
      env2.fails DBCall.invoiceFilesSelect = false →
      ∃ invoice customer emitter items p x,
        invoice.id = id ∧
        GenerateInvoicePDF env invoice customer emitter items = Except.ok p ∧
        GenerateInvoiceXML env invoice customer emitter items = Except.ok x ∧
        (p ≠ [] → DownloadInvoiceFile env2 (GetInvoiceFiles env st fs id).2.2 id "pdf" =
          Except.ok (p, "factura_" ++ env2.uuidString id ++ ".pdf")) ∧
        (x ≠ [] → DownloadInvoiceFile env2 (GetInvoiceFiles env st fs id).2.2 id "xml" =
          Except.ok (x, "factura_" ++ env2.uuidString id ++ ".xml"))) := by
  have hget := GetByInvoiceID_no_row env fs id hnone
  constructor
  · intro kind
    simp only [DownloadInvoiceFile, hget]
  · intro resp hok hsel
    refine GetInvoiceFiles_then_download env env2 st fs id resp ?_ hok hsel
    intro f hf
    rw [hget] at hf
    exact Except.noConfusion hf

theorem download_needs_generation_witness :
    (∀ row ∈ emptyFiles.invoiceFiles, row.invoiceID ≠ 100) ∧
    (∀ kind : String, DownloadInvoiceFile scenarioEnv emptyFiles 100 kind =
      Except.error (Error.errorGettingInvoiceFiles
        (if scenarioEnv.fails DBCall.invoiceFilesSelect = true
          then Error.errorQueryingInvoiceFiles Error.driver
          else Error.invoiceFilesNotFound 100))) ∧
    (∀ resp, (GetInvoiceFiles scenarioEnv scenarioStoreWithInvoice emptyFiles 100).1 =
        Except.ok resp →
      scenarioEnv.fails DBCall.invoiceFilesSelect = false →
      ∃ invoice customer emitter items p x,
        invoice.id = 100 ∧
        GenerateInvoicePDF scenarioEnv invoice customer emitter items = Except.ok p ∧
        GenerateInvoiceXML scenarioEnv invoice customer emitter items = Except.ok x ∧
        (p ≠ [] → DownloadInvoiceFile scenarioEnv
          (GetInvoiceFiles scenarioEnv scenarioStoreWithInvoice emptyFiles 100).2.2 100 "pdf" =
          Except.ok (p, "factura_" ++ scenarioEnv.uuidString 100 ++ ".pdf")) ∧
        (x ≠ [] → DownloadInvoiceFile scenarioEnv
          (GetInvoiceFiles scenarioEnv scenarioStoreWithInvoice emptyFiles 100).2.2 100 "xml" =
          Except.ok (x, "factura_" ++ scenarioEnv.uuidString 100 ++ ".xml"))) :=
  ⟨by decide, download_needs_generation scenarioEnv scenarioEnv scenarioStoreWithInvoice
    emptyFiles 100 (by decide)⟩

/-! ## Status updates -/

theorem filter_length_eq_zero_iff {α : Type} (l : List α) (p : α → Bool) :
    (l.filter p).length = 0 ↔ ∀ x ∈ l, p x = false := by
  rw [List.length_eq_zero, List.filter_eq_nil_iff]
  constructor
  · intro h x hx
    simpa using h x hx
  · intro h x hx
    simp [h x hx]

theorem getElem?_map_update {α : Type} (l : List α) (p : α → Prop) [DecidablePred p]
    (f : α → α) (k : Nat) (old : α) (h : l[k]? = some old) :
    (l.map (fun i => if p i then f i else i))[k]? = some (if p old then f old else old) := by
  simp [List.getElem?_map, h]

/-- What `UpdateStatus` does when neither the statement nor `RowsAffected` fails. -/
theorem InvoiceRepository.UpdateStatus_run (env : Env) (st : Store) (id : UUID)
    (s : DocumentStatus)
    (hf : env.fails DBCall.invoiceUpdateStatus = false)
    (hr : env.rowsAffectedFails DBCall.invoiceUpdateStatus = false) :
    InvoiceRepository.UpdateStatus env st id s =
      (if (st.invoices.filter (fun i => i.id = id)).length = 0
        then some (Error.invoiceNotFound id) else none,
       { st.record DBCall.invoiceUpdateStatus with
          invoices := st.invoices.map (fun i =>
            if i.id = id then { i with status := s, updatedAt := env.now } else i) }) := by
  simp only [InvoiceRepository.UpdateStatus, hf, hr, Bool.false_eq_true, if_false,
    Store.record_invoices]
  split <;> rfl

/-- The tables `UpdateStatus` leaves alone, and the shape of its write, in every outcome. -/
theorem InvoiceRepository.UpdateStatus_frame (env : Env) (st : Store) (id : UUID)
    (s : DocumentStatus) :
    (InvoiceRepository.UpdateStatus env st id s).2.emitters = st.emitters ∧
    (InvoiceRepository.UpdateStatus env st id s).2.customers = st.customers ∧
    (InvoiceRepository.UpdateStatus env st id s).2.series = st.series ∧
    (InvoiceRepository.UpdateStatus env st id s).2.products = st.products ∧
    (InvoiceRepository.UpdateStatus env st id s).2.invoiceItems = st.invoiceItems ∧
    ((InvoiceRepository.UpdateStatus env st id s).2.invoices = st.invoices ∨
      (InvoiceRepository.UpdateStatus env st id s).2.invoices = st.invoices.map (fun i =>
        if i.id = id then { i with status := s, updatedAt := env.now } else i)) := by
  simp only [InvoiceRepository.UpdateStatus]
  cases hf : env.fails DBCall.invoiceUpdateStatus with
  | true => simp
  | false =>
    cases hr : env.rowsAffectedFails DBCall.invoiceUpdateStatus with
    | true => simp
    | false =>
      simp only [Bool.false_eq_true, if_false]
      split <;> simp

/-- The tables `UpdateEmailStatus` leaves alone, and the shape of its write, in every
outcome. -/
theorem InvoiceRepository.UpdateEmailStatus_frame (env : Env) (st : Store) (id : UUID)
    (e : EmailStatus) :
    (InvoiceRepository.UpdateEmailStatus env st id e).2.emitters = st.emitters ∧
    (InvoiceRepository.UpdateEmailStatus env st id e).2.customers = st.customers ∧
    (InvoiceRepository.UpdateEmailStatus env st id e).2.series = st.series ∧
    (InvoiceRepository.UpdateEmailStatus env st id e).2.products = st.products ∧
    (InvoiceRepository.UpdateEmailStatus env st id e).2.invoiceItems = st.invoiceItems ∧
    ((InvoiceRepository.UpdateEmailStatus env st id e).2.invoices = st.invoices ∨
      (InvoiceRepository.UpdateEmailStatus env st id e).2.invoices = st.invoices.map (fun i =>
        if i.id = id then { i with emailStatus := e, updatedAt := env.now } else i)) := by
  simp only [InvoiceRepository.UpdateEmailStatus]
  cases hf : env.fails DBCall.invoiceUpdateEmailStatus with
  | true => simp
  | false =>
    cases hr : env.rowsAffectedFails DBCall.invoiceUpdateEmailStatus with
    | true => simp
    | false =>
      simp only [Bool.false_eq_true, if_false]
      split <;> simp

/-- When the statement of `UpdateEmailStatus` does not fail, the rows are written. -/
theorem InvoiceRepository.UpdateEmailStatus_written (env : Env) (st : Store) (id : UUID)
    (e : EmailStatus) (hf : env.fails DBCall.invoiceUpdateEmailStatus = false) :
    (InvoiceRepository.UpdateEmailStatus env st id e).2.invoices = st.invoices.map (fun i =>
      if i.id = id then { i with emailStatus := e, updatedAt := env.now } else i) := by
  simp only [InvoiceRepository.UpdateEmailStatus, hf, Bool.false_eq_true, if_false]
  split
  · simp
  · split <;> simp

/-- C21. When neither the statement nor `RowsAffected` fails, `UpdateStatus(id, s)` returns
"invoice not found" exactly when no invoice row has the id, and nil exactly when one has;
the table keeps its length, the row at every position whose id is `id` becomes that row
with status `s` (and `updated_at` the time of the call), and the row at every other
position is unchanged. -/
theorem updateStatus_not_found_iff (env : Env) (st : Store) (id : UUID) (s : DocumentStatus)
    (hf : env.fails DBCall.invoiceUpdateStatus = false)
    (hr : env.rowsAffectedFails DBCall.invoiceUpdateStatus = false) :
    ((InvoiceRepository.UpdateStatus env st id s).1 = some (Error.invoiceNotFound id) ↔
      ∀ i ∈ st.invoices, i.id ≠ id) ∧
    ((InvoiceRepository.UpdateStatus env st id s).1 = none ↔ ∃ i ∈ st.invoices, i.id = id) ∧
    (InvoiceRepository.UpdateStatus env st id s).2.invoices.length = st.invoices.length ∧
    ∀ (k : Nat) (old : Invoice), st.invoices[k]? = some old →
      ∃ new : Invoice, (InvoiceRepository.UpdateStatus env st id s).2.invoices[k]? = some new ∧
        (old.id = id → new = { old with status := s, updatedAt := env.now }) ∧
        (old.id ≠ id → new = old) := by
  rw [InvoiceRepository.UpdateStatus_run env st id s hf hr]
  have hz := filter_length_eq_zero_iff st.invoices (fun i => decide (i.id = id))
  simp only [decide_eq_false_iff_not] at hz
  refine ⟨?_, ?_, by simp, ?_⟩
  · by_cases h0 : (st.invoices.filter (fun i => decide (i.id = id))).length = 0
    · simp only [h0, if_true, true_iff]
      exact hz.1 h0
    · simp only [h0, if_false]
      constructor
      · intro h; cases h
      · intro h; exact absurd (hz.2 h) h0
  · by_cases h0 : (st.invoices.filter (fun i => decide (i.id = id))).length = 0
    · simp only [h0, if_true]
      constructor
      · intro h; cases h
      · rintro ⟨i, hi, hid⟩
        exact absurd hid (hz.1 h0 i hi)
    · simp only [h0, if_false, true_iff]
      by_contra hne
      apply h0
      apply hz.2
      intro i hi hid
      exact hne ⟨i, hi, hid⟩
  · intro k old hold
    refine ⟨_, getElem?_map_update st.invoices (fun i => i.id = id) _ k old hold, ?_, ?_⟩
    · intro h; simp [h]
    · intro h; simp [h]

theorem updateStatus_not_found_iff_witness :
    ((InvoiceRepository.UpdateStatus scenarioEnv scenarioStoreWithInvoice 100
        DocumentStatus.preparing).1 = some (Error.invoiceNotFound 100) ↔
      ∀ i ∈ scenarioStoreWithInvoice.invoices, i.id ≠ 100) ∧
    ((InvoiceRepository.UpdateStatus scenarioEnv scenarioStoreWithInvoice 100
        DocumentStatus.preparing).1 = none ↔
      ∃ i ∈ scenarioStoreWithInvoice.invoices, i.id = 100) ∧
    (InvoiceRepository.UpdateStatus scenarioEnv scenarioStoreWithInvoice 100
        DocumentStatus.preparing).2.invoices.length = scenarioStoreWithInvoice.invoices.length ∧
    ∀ (k : Nat) (old : Invoice), scenarioStoreWithInvoice.invoices[k]? = some old →
      ∃ new : Invoice, (InvoiceRepository.UpdateStatus scenarioEnv scenarioStoreWithInvoice 100
          DocumentStatus.preparing).2.invoices[k]? = some new ∧
        (old.id = 100 → new = { old with status := DocumentStatus.preparing,
                                         updatedAt := scenarioEnv.now }) ∧
        (old.id ≠ 100 → new = old) :=
  updateStatus_not_found_iff scenarioEnv scenarioStoreWithInvoice 100 DocumentStatus.preparing
    (by decide) (by decide)

/-- Counterexample to C23: `UpdateStatus` writes whatever status it is given.  The
scenario's invoice 100 is AUTHORIZED; `UpdateStatus(100, RECEIVED)` returns nil and the
invoice is RECEIVED afterwards, and a following `UpdateStatus(100, REJECTED)` succeeds as
well. -/
theorem updateStatus_regresses :
    scenarioStoreAuthorized.invoices.map (fun i => (i.id, i.status)) =
      [(100, DocumentStatus.authorized)] ∧
    (InvoiceRepository.UpdateStatus scenarioEnv scenarioStoreAuthorized 100
      DocumentStatus.received).1 = none ∧
    (InvoiceRepository.UpdateStatus scenarioEnv scenarioStoreAuthorized 100
      DocumentStatus.received).2.invoices.map (fun i => (i.id, i.status)) =
      [(100, DocumentStatus.received)] ∧
    (InvoiceRepository.UpdateStatus scenarioEnv
      (InvoiceRepository.UpdateStatus scenarioEnv scenarioStoreAuthorized 100
        DocumentStatus.received).2 100 DocumentStatus.rejected).1 = none := by
  refine ⟨by decide!, by decide!, by decide!, by decide!⟩

/-- C23, amended. `UpdateStatus` checks no transition: when the invoice has a row and
neither the statement nor `RowsAffected` fails, `UpdateStatus(id, s)` succeeds for every
status `s`, whatever the status of the row was, and afterwards every row with the id has
status `s` (and `updated_at` the time of the call) while every other row is unchanged.  The
lifecycle order is not enforced by this primitive. -/
theorem updateStatus_unconditional (env : Env) (st : Store) (id : UUID) (s : DocumentStatus)
    (hf : env.fails DBCall.invoiceUpdateStatus = false)
    (hr : env.rowsAffectedFails DBCall.invoiceUpdateStatus = false)
    (hrow : ∃ i ∈ st.invoices, i.id = id) :
    (InvoiceRepository.UpdateStatus env st id s).1 = none ∧
    (InvoiceRepository.UpdateStatus env st id s).2.invoices =
      st.invoices.map (fun i =>
        if i.id = id then { i with status := s, updatedAt := env.now } else i) ∧
    ∀ i ∈ (InvoiceRepository.UpdateStatus env st id s).2.invoices, i.id = id →
      i.status = s := by
  rw [InvoiceRepository.UpdateStatus_run env st id s hf hr]
  have hz := filter_length_eq_zero_iff st.invoices (fun i => decide (i.id = id))
  simp only [decide_eq_false_iff_not] at hz
  have h0 : ¬ (st.invoices.filter (fun i => decide (i.id = id))).length = 0 := by
    intro h0
    obtain ⟨i, hi, hid⟩ := hrow
    exact hz.1 h0 i hi hid
  refine ⟨by simp only [h0, if_false], rfl, ?_⟩
  intro i hi hid
  simp only [List.mem_map] at hi
  obtain ⟨old, _, hold⟩ := hi
  by_cases hoid : old.id = id
  · rw [if_pos hoid] at hold
    rw [← hold]
  · rw [if_neg hoid] at hold
    rw [hold] at hoid
    exact absurd hid hoid

/-- Witness of C23 (amended): on the scenario's authorized invoice 100,
`UpdateStatus(100, RECEIVED)` succeeds and the invoice is RECEIVED afterwards. -/
theorem updateStatus_unconditional_witness :
    (InvoiceRepository.UpdateStatus scenarioEnv scenarioStoreAuthorized 100
      DocumentStatus.received).1 = none ∧
    ∀ i ∈ (InvoiceRepository.UpdateStatus scenarioEnv scenarioStoreAuthorized 100
        DocumentStatus.received).2.invoices, i.id = 100 → i.status = DocumentStatus.received :=
  have h := updateStatus_unconditional scenarioEnv scenarioStoreAuthorized 100
    DocumentStatus.received (by decide) (by decide) (by decide!)
  ⟨h.1, h.2.2⟩

/-- C24. In every outcome `UpdateEmailStatus(id, e)` leaves the other tables alone and the
invoice table at its length; the row at every position keeps all its fields except
`email_status` and `updated_at` (so its document status), and a row with another id is
unchanged; when the statement does not fail, the rows with the id have e-mail status `e`.
The same holds for `UpdateStatus(id, s)` with `status` in place of `email_status`: it
leaves the e-mail status of every row unchanged. -/
theorem status_updates_decoupled (env : Env) (st : Store) (id : UUID) (e : EmailStatus)
    (s : DocumentStatus) :
    ((InvoiceRepository.UpdateEmailStatus env st id e).2.emitters = st.emitters ∧
     (InvoiceRepository.UpdateEmailStatus env st id e).2.customers = st.customers ∧
     (InvoiceRepository.UpdateEmailStatus env st id e).2.series = st.series ∧
     (InvoiceRepository.UpdateEmailStatus env st id e).2.products = st.products ∧
     (InvoiceRepository.UpdateEmailStatus env st id e).2.invoiceItems = st.invoiceItems ∧
     (InvoiceRepository.UpdateEmailStatus env st id e).2.invoices.length =
       st.invoices.length ∧
     ∀ (k : Nat) (old : Invoice), st.invoices[k]? = some old →
       ∃ new : Invoice, (InvoiceRepository.UpdateEmailStatus env st id e).2.invoices[k]? = some new ∧
         new = { old with emailStatus := new.emailStatus, updatedAt := new.updatedAt } ∧
         new.status = old.status ∧
         (old.id ≠ id → new = old) ∧
         (env.fails DBCall.invoiceUpdateEmailStatus = false → old.id = id →
           new.emailStatus = e)) ∧
    ((InvoiceRepository.UpdateStatus env st id s).2.emitters = st.emitters ∧
     (InvoiceRepository.UpdateStatus env st id s).2.customers = st.customers ∧
     (InvoiceRepository.UpdateStatus env st id s).2.series = st.series ∧
     (InvoiceRepository.UpdateStatus env st id s).2.products = st.products ∧
     (InvoiceRepository.UpdateStatus env st id s).2.invoiceItems = st.invoiceItems ∧
     (InvoiceRepository.UpdateStatus env st id s).2.invoices.length = st.invoices.length ∧
     ∀ (k : Nat) (old : Invoice), st.invoices[k]? = some old →
       ∃ new : Invoice, (InvoiceRepository.UpdateStatus env st id s).2.invoices[k]? = some new ∧
         new = { old with status := new.status, updatedAt := new.updatedAt } ∧
         new.emailStatus = old.emailStatus ∧
         (old.id ≠ id → new = old)) := by
  constructor
  · obtain ⟨h1, h2, h3, h4, h5, h6⟩ := InvoiceRepository.UpdateEmailStatus_frame env st id e
    refine ⟨h1, h2, h3, h4, h5, ?_, ?_⟩
    · rcases h6 with h | h <;> simp [h]
    · intro k old hold
      rcases h6 with h | h
      · refine ⟨old, by rw [h]; exact hold, rfl, rfl, fun _ => rfl, ?_⟩
        intro hf hid
        have hw := InvoiceRepository.UpdateEmailStatus_written env st id e hf
        rw [h] at hw
        have h1 := getElem?_map_update st.invoices (fun i => i.id = id)
          (fun i => { i with emailStatus := e, updatedAt := env.now }) k old hold
        rw [← hw, hold] at h1
        simp only [hid, if_true, Option.some.injEq] at h1
        rw [h1]
      · rw [h]
        refine ⟨_, getElem?_map_update st.invoices (fun i => i.id = id) _ k old hold, ?_, ?_,
          ?_, ?_⟩
        · by_cases hid : old.id = id <;> simp [hid]
        · by_cases hid : old.id = id <;> simp [hid]
        · intro hid; simp [hid]
        · intro _ hid; simp [hid]
  · obtain ⟨h1, h2, h3, h4, h5, h6⟩ := InvoiceRepository.UpdateStatus_frame env st id s
    refine ⟨h1, h2, h3, h4, h5, ?_, ?_⟩
    · rcases h6 with h | h <;> simp [h]
    · intro k old hold
      rcases h6 with h | h
      · exact ⟨old, by rw [h]; exact hold, rfl, rfl, fun _ => rfl⟩
      · rw [h]
        refine ⟨_, getElem?_map_update st.invoices (fun i => i.id = id) _ k old hold, ?_, ?_,
          ?_⟩
        · by_cases hid : old.id = id <;> simp [hid]
        · by_cases hid : old.id = id <;> simp [hid]
        · intro hid; simp [hid]

/-- The rows `UpdatePACResponse` leaves alone: every row whose id is not the id that the
text `xmlFE` reads as. -/
theorem InvoiceRepository.UpdatePACResponse_rows (env : Env) (st : Store) (id : UUID)
    (cufe urlCUFE xmlFE xmlProtocolo : String) (hkey : env.parseUUID xmlFE ≠ some id) :
    (InvoiceRepository.UpdatePACResponse env st id cufe urlCUFE xmlFE xmlProtocolo).2.invoices.filter
        (fun i => i.id = id) = st.invoices.filter (fun i => i.id = id) := by
  simp only [InvoiceRepository.UpdatePACResponse]
  split
  · simp
  · cases hp : env.parseUUID xmlFE with
    | none => simp
    | some key =>
      have hne : key ≠ id := fun h => hkey (by rw [hp, h])
      have hmap : (st.invoices.map (fun i =>
          if i.id = key then
            { i with cufe := some cufe, urlCUFE := some urlCUFE, xmlFE := some xmlFE,
                     xmlProtocolo := some xmlProtocolo, updatedAt := env.now }
          else i)).filter (fun i => decide (i.id = id)) =
          st.invoices.filter (fun i => decide (i.id = id)) := by
        induction st.invoices with
        | nil => rfl
        | cons a rest ih =>
          by_cases hk : a.id = key
          · have hid : a.id ≠ id := fun h => hne (hk.symm.trans h)
            simp only [List.map_cons, hk, if_true, List.filter_cons]
            simp only [hk, hne, decide_False, Bool.false_eq_true, if_false]
            simpa [hk] using ih
          · simp only [List.map_cons, hk, if_false, List.filter_cons]
            rw [ih]
      simp only [Store.record_invoices]
      split
      · exact hmap
      · split <;> exact hmap

/-- C22, on the code: `UpdatePACResponse` does not key its update on `id`.  Called for the
existing invoice 100 of the scenario with the XML text "<rFE/>", it returns an error and
leaves every invoice row as it was, whichever round trips fail; and for every store and
every call whose `xmlFE` is not the text of `id`, the rows with the id `id` are not
written. -/
theorem updatePACResponse_misses_row :
    scenarioStoreWithInvoice.invoices.map (fun i => i.id) = [100] ∧
    (∀ (fails rowsAffectedFails : DBCall → Bool),
      (InvoiceRepository.UpdatePACResponse
          { scenarioEnv with fails := fails, rowsAffectedFails := rowsAffectedFails }
          scenarioStoreWithInvoice 100 "CUFE-1" "https://dgi/cufe" "<rFE/>" "<rProt/>").1 =
        some (Error.errorUpdatingPACResponse Error.driver) ∧
      (InvoiceRepository.UpdatePACResponse
          { scenarioEnv with fails := fails, rowsAffectedFails := rowsAffectedFails }
          scenarioStoreWithInvoice 100 "CUFE-1" "https://dgi/cufe" "<rFE/>" "<rProt/>").2.invoices =
        scenarioStoreWithInvoice.invoices) ∧
    (∀ (env : Env) (st : Store) (id : UUID) (cufe urlCUFE xmlFE xmlProtocolo : String),
      env.parseUUID xmlFE ≠ some id →
      (InvoiceRepository.UpdatePACResponse env st id cufe urlCUFE xmlFE
          xmlProtocolo).2.invoices.filter (fun i => i.id = id) =
        st.invoices.filter (fun i => i.id = id)) := by
  refine ⟨by decide!, ?_, ?_⟩
  · intro fails rowsAffectedFails
    simp only [InvoiceRepository.UpdatePACResponse, scenarioEnv]
    cases fails DBCall.invoiceUpdatePACResponse <;> simp
  · intro env st id cufe urlCUFE xmlFE xmlProtocolo h
    exact InvoiceRepository.UpdatePACResponse_rows env st id cufe urlCUFE xmlFE xmlProtocolo h

theorem status_updates_decoupled_witness :
    (InvoiceRepository.UpdateEmailStatus scenarioEnv scenarioStoreAuthorized 100
      EmailStatus.sent).2.invoices.map (fun i => (i.status, i.emailStatus)) =
      [(DocumentStatus.authorized, EmailStatus.sent)] ∧
    (InvoiceRepository.UpdateEmailStatus scenarioEnv scenarioStoreAuthorized 100
      EmailStatus.sent).2.series = scenarioStoreAuthorized.series ∧
    (InvoiceRepository.UpdateStatus scenarioEnv scenarioStoreAuthorized 100
      DocumentStatus.preparing).2.customers = scenarioStoreAuthorized.customers :=
  ⟨by decide!,
    (status_updates_decoupled scenarioEnv scenarioStoreAuthorized 100 EmailStatus.sent
      DocumentStatus.preparing).1.2.2.1,
    (status_updates_decoupled scenarioEnv scenarioStoreAuthorized 100 EmailStatus.sent
      DocumentStatus.preparing).2.2.1⟩

/-! ## Series counters -/

/-- What `UpdateSeriesCounters` does when neither the statement nor `RowsAffected`
fails. -/
theorem EmitterRepository.UpdateSeriesCounters_run (env : Env) (st : Store) (seriesID : UUID)
    (status : DocumentStatus)
    (hf : env.fails DBCall.seriesUpdateCounters = false)
    (hr : env.rowsAffectedFails DBCall.seriesUpdateCounters = false) :
    EmitterRepository.UpdateSeriesCounters env st seriesID status =
      (if (st.series.filter (fun s => s.id = seriesID)).length = 0
        then some (Error.seriesNotFoundByID seriesID) else none,
       { st.record DBCall.seriesUpdateCounters with
          series := st.series.map (fun s =>
            if s.id = seriesID then bumpCounter status s else s) }) := by
  simp only [EmitterRepository.UpdateSeriesCounters, hf, hr, Bool.false_eq_true, if_false,
    Store.record_series]
  split <;> rfl

theorem map_update_of_no_row {α : Type} (l : List α) (p : α → Prop) [DecidablePred p]
    (f : α → α) (h : ∀ x ∈ l, ¬ p x) :
    l.map (fun i => if p i then f i else i) = l := by
  induction l with
  | nil => rfl
  | cons a rest ih =>
    have ha : ¬ p a := h a (List.mem_cons_self _ _)
    simp only [List.map_cons, ha, if_false]
    rw [ih (fun x hx => h x (List.mem_cons_of_mem _ hx))]

/-- C28. When neither the statement nor `RowsAffected` fails, `UpdateSeriesCounters`
returns nil exactly when a series row has the id and "series not found" exactly when none
has; in the second case the series table is unchanged.  The other tables are unchanged,
the series table keeps its length, a row with another id is unchanged, and a row with the
id becomes that row with exactly one tally one higher: `authorized_count` for AUTHORIZED,
`rejected_count` for REJECTED, `issued_count` for every other status; its other two
tallies and its `next_number` stay. -/
theorem updateSeriesCounters_one_tally (env : Env) (st : Store) (seriesID : UUID)
    (status : DocumentStatus)
    (hf : env.fails DBCall.seriesUpdateCounters = false)
    (hr : env.rowsAffectedFails DBCall.seriesUpdateCounters = false) :
    ((EmitterRepository.UpdateSeriesCounters env st seriesID status).1 = none ↔
      ∃ s ∈ st.series, s.id = seriesID) ∧
    ((EmitterRepository.UpdateSeriesCounters env st seriesID status).1 =
        some (Error.seriesNotFoundByID seriesID) ↔ ∀ s ∈ st.series, s.id ≠ seriesID) ∧
    ((∀ s ∈ st.series, s.id ≠ seriesID) →
      (EmitterRepository.UpdateSeriesCounters env st seriesID status).2.series = st.series) ∧
    (EmitterRepository.UpdateSeriesCounters env st seriesID status).2.emitters = st.emitters ∧
    (EmitterRepository.UpdateSeriesCounters env st seriesID status).2.customers =
      st.customers ∧
    (EmitterRepository.UpdateSeriesCounters env st seriesID status).2.products = st.products ∧
    (EmitterRepository.UpdateSeriesCounters env st seriesID status).2.invoices = st.invoices ∧
    (EmitterRepository.UpdateSeriesCounters env st seriesID status).2.invoiceItems =
      st.invoiceItems ∧
    (EmitterRepository.UpdateSeriesCounters env st seriesID status).2.series.length =
      st.series.length ∧
    ∀ (k : Nat) (old : EmitterSeries), st.series[k]? = some old →
      ∃ new : EmitterSeries,
        (EmitterRepository.UpdateSeriesCounters env st seriesID status).2.series[k]? =
          some new ∧
        (old.id ≠ seriesID → new = old) ∧
        (old.id = seriesID →
          new.nextNumber = old.nextNumber ∧
          (status = DocumentStatus.authorized →
            new = { old with authorizedCount := old.authorizedCount + 1 }) ∧
          (status = DocumentStatus.rejected →
            new = { old with rejectedCount := old.rejectedCount + 1 }) ∧
          (status ≠ DocumentStatus.authorized → status ≠ DocumentStatus.rejected →
            new = { old with issuedCount := old.issuedCount + 1 })) := by
  rw [EmitterRepository.UpdateSeriesCounters_run env st seriesID status hf hr]
  have hz := filter_length_eq_zero_iff st.series (fun s => decide (s.id = seriesID))
  simp only [decide_eq_false_iff_not] at hz
  refine ⟨?_, ?_, ?_, rfl, rfl, rfl, rfl, rfl, by simp, ?_⟩
  · by_cases h0 : (st.series.filter (fun s => decide (s.id = seriesID))).length = 0
    · simp only [h0, if_true]
      constructor
      · intro h; cases h
      · rintro ⟨i, hi, hid⟩
        exact absurd hid (hz.1 h0 i hi)
    · simp only [h0, if_false, true_iff]
      by_contra hne
      apply h0
      apply hz.2
      intro i hi hid
      exact hne ⟨i, hi, hid⟩
  · by_cases h0 : (st.series.filter (fun s => decide (s.id = seriesID))).length = 0
    · simp only [h0, if_true, true_iff]
      exact hz.1 h0
    · simp only [h0, if_false]
      constructor
      · intro h; cases h
      · intro h; exact absurd (hz.2 h) h0
  · intro h
    exact map_update_of_no_row st.series (fun s => s.id = seriesID) _ h
  · intro k old hold
    refine ⟨_, getElem?_map_update st.series (fun s => s.id = seriesID) _ k old hold, ?_, ?_⟩
    · intro h; simp [h]
    · intro h
      rw [if_pos h]
      refine ⟨?_, ?_, ?_, ?_⟩
      · cases status <;> rfl
      · intro hs; subst hs; rfl
      · intro hs; subst hs; rfl
      · intro h1 h2
        cases status
        · rfl
        · rfl
        · rfl
        · exact absurd rfl h1
        · exact absurd rfl h2
        · rfl

theorem updateSeriesCounters_one_tally_witness :
    (EmitterRepository.UpdateSeriesCounters scenarioEnv scenarioStore 10
      DocumentStatus.authorized).1 = none ∧
    (EmitterRepository.UpdateSeriesCounters scenarioEnv scenarioStore 10
      DocumentStatus.authorized).2.series =
      [{ scenarioSeries with authorizedCount := 1 }] ∧
    (EmitterRepository.UpdateSeriesCounters scenarioEnv scenarioStore 77
      DocumentStatus.authorized).2.series = scenarioStore.series :=
  ⟨by decide, by decide,
    (updateSeriesCounters_one_tally scenarioEnv scenarioStore 77 DocumentStatus.authorized
      (by decide) (by decide)).2.2.1 (by decide)⟩

/-! ## Creation of a series -/

theorem containsChars_append (a sub b : List Char) :
    containsChars (a ++ (sub ++ b)) sub = true := by
  induction a with
  | nil =>
    cases h : sub ++ b with
    | nil =>
      have hs : sub = [] := (List.append_eq_nil.1 h).1
      subst hs
      simp [containsChars]
    | cons c rest =>
      simp only [List.nil_append, containsChars, Bool.or_eq_true]
      left
      rw [← h]
      simp
  | cons c rest ih =>
    simp only [List.cons_append, containsChars, Bool.or_eq_true]
    right
    exact ih

/-- The text of "series already exists …", wrapped once or twice, contains
"already exists". -/
theorem stringsContains_seriesAlreadyExists (env : Env) (emitterID : UUID) (ptoFacDF : String)
    (docKind : DocumentType) :
    stringsContains ((Error.errorCreatingSeries
      (Error.seriesAlreadyExists emitterID ptoFacDF docKind)).message env)
      "already exists" = true := by
  simp only [stringsContains, Error.message, String.data_append, List.append_assoc]
  exact containsChars_append "error creating series: series ".data "already exists".data
    (" for emitter ".data ++ ((env.uuidString emitterID).data ++ (", pto_fac_df ".data ++
      (ptoFacDF.data ++ (", doc_kind ".data ++ docKind.value.data)))))

/-- `EmitterRepository.CreateSeries` when an active series of the tuple is found. -/
theorem EmitterRepository.CreateSeries_conflict (env : Env) (st : Store) (emitterID : UUID)
    (req : CreateSeriesRequest)
    (hsel : env.fails DBCall.seriesSelect = false)
    (hex : ∃ s ∈ st.series, s.hasKey emitterID req.ptoFacDF req.docKind = true ∧
      s.isActive = true) :
    EmitterRepository.CreateSeries env st emitterID req =
      (Except.error (Error.seriesAlreadyExists emitterID req.ptoFacDF req.docKind),
        st.record DBCall.seriesSelect) := by
  simp only [EmitterRepository.CreateSeries, EmitterRepository.GetSeries, hsel,
    Bool.false_eq_true, if_false]
  cases hfind : st.series.find?
      (fun s => s.hasKey emitterID req.ptoFacDF req.docKind && s.isActive) with
  | some s => rfl
  | none =>
    obtain ⟨s, hs, hk, ha⟩ := hex
    have := List.find?_eq_none.1 hfind s hs
    simp [hk, ha] at this

/-- `EmitterRepository.CreateSeries` when no active series of the tuple is found and the
insert does not fail. -/
theorem EmitterRepository.CreateSeries_new (env : Env) (st : Store) (emitterID : UUID)
    (req : CreateSeriesRequest)
    (hins : env.fails DBCall.seriesInsert = false)
    (hnone : ∀ s ∈ st.series, ¬ (s.hasKey emitterID req.ptoFacDF req.docKind = true ∧
      s.isActive = true)) :
    (EmitterRepository.CreateSeries env st emitterID req).1 =
      Except.ok { id := env.newSeriesID, emitterID := emitterID, ptoFacDF := req.ptoFacDF,
                  docKind := req.docKind, nextNumber := 1, issuedCount := 0,
                  authorizedCount := 0, rejectedCount := 0, isActive := true } ∧
    (EmitterRepository.CreateSeries env st emitterID req).2.series =
      st.series ++ [{ id := env.newSeriesID, emitterID := emitterID, ptoFacDF := req.ptoFacDF,
                      docKind := req.docKind, nextNumber := 1, issuedCount := 0,
                      authorizedCount := 0, rejectedCount := 0, isActive := true }] := by
  have hfind : st.series.find?
      (fun s => s.hasKey emitterID req.ptoFacDF req.docKind && s.isActive) = none := by
    rw [List.find?_eq_none]
    intro s hs
    have := hnone s hs
    simpa using this
  have hstore := EmitterRepository.GetSeries_store env st emitterID req.ptoFacDF req.docKind
  have hok := EmitterRepository.GetSeries_ok env st emitterID req.ptoFacDF req.docKind
  simp only [EmitterRepository.CreateSeries]
  rcases hg : EmitterRepository.GetSeries env st emitterID req.ptoFacDF req.docKind with ⟨r, st1⟩
  rw [hg] at hstore hok
  simp only at hstore hok
  subst hstore
  cases r with
  | ok s =>
    have := hok s rfl
    rw [hfind] at this
    cases this
  | error e =>
    simp only [hins, Bool.false_eq_true, if_false, Store.record_series]
    exact ⟨trivial, trivial⟩

theorem EmitterRepository.CreateSeries_lookup_failed (env : Env) (st : Store)
    (emitterID : UUID) (req : CreateSeriesRequest)
    (hsel : env.fails DBCall.seriesSelect = true)
    (hins : env.fails DBCall.seriesInsert = false) :
    (EmitterRepository.CreateSeries env st emitterID req).1 =
      Except.ok { id := env.newSeriesID, emitterID := emitterID, ptoFacDF := req.ptoFacDF,
                  docKind := req.docKind, nextNumber := 1, issuedCount := 0,
                  authorizedCount := 0, rejectedCount := 0, isActive := true } ∧
    (EmitterRepository.CreateSeries env st emitterID req).2.series =
      st.series ++ [{ id := env.newSeriesID, emitterID := emitterID, ptoFacDF := req.ptoFacDF,
                      docKind := req.docKind, nextNumber := 1, issuedCount := 0,
                      authorizedCount := 0, rejectedCount := 0, isActive := true }] := by
  simp only [EmitterRepository.CreateSeries, EmitterRepository.GetSeries, hsel, if_true, hins,
    Bool.false_eq_true, if_false, Store.record_series]
  exact ⟨trivial, trivial⟩

/-- Counterexample to C26: the scenario's emitter has a series for ("001", invoice) that
is deactivated.  Creating a series for that tuple is no conflict: when the insert does not
fail, the handler answers 201 and a second row of the tuple is inserted; when the insert
fails, the handler answers 500.  Likewise, when the lookup of the existing active series
itself fails, the insert goes ahead and the handler answers 201. -/
theorem createSeries_existing_not_conflict :
    (∃ s ∈ scenarioStoreInactiveSeries.series,
      s.hasKey 1 scenarioSeriesRequest.ptoFacDF scenarioSeriesRequest.docKind = true) ∧
    (API.CreateSeries scenarioEnv scenarioStoreInactiveSeries 1 scenarioSeriesRequest).1 =
      201 ∧
    (API.CreateSeries scenarioEnv scenarioStoreInactiveSeries 1
        scenarioSeriesRequest).2.series.map
      (fun s => (s.id, s.ptoFacDF, s.docKind, s.isActive)) =
      [(10, "001", DocumentType.invoice, false), (11, "001", DocumentType.invoice, true)] ∧
    (API.CreateSeries scenarioSeriesInsertFails scenarioStoreInactiveSeries 1
      scenarioSeriesRequest).1 = 500 ∧
    (∃ s ∈ scenarioStore.series,
      s.hasKey 1 scenarioSeriesRequest.ptoFacDF scenarioSeriesRequest.docKind = true) ∧
    (API.CreateSeries scenarioSeriesSelectFails scenarioStore 1 scenarioSeriesRequest).1 =
      201 ∧
    (API.CreateSeries scenarioSeriesSelectFails scenarioStore 1
        scenarioSeriesRequest).2.series.map
      (fun s => (s.id, s.ptoFacDF, s.docKind, s.isActive)) =
      [(10, "001", DocumentType.invoice, true), (11, "001", DocumentType.invoice, true)] := by
  refine ⟨by decide, by decide!, by decide!, by decide!, by decide, by decide!, by decide!⟩

/-- C26, amended. Creating a series for a tuple for which an active series exists fails,
when the lookup itself does not fail, with "series already exists" and inserts no row (the
series table is unchanged), and the handler, having found the emitter, answers 409 and
leaves the series table unchanged.  In every other case the insert goes ahead: for a tuple
without an active series (no row, or only deactivated rows), and also when the lookup
fails, `CreateSeries` yields, when the insert does not fail, a series of that tuple with
`next_number = 1` and the three tallies 0, appended to the series table. -/
theorem createSeries_active_conflict_else_insert (env : Env) (st : Store) (emitterID : UUID)
    (req : CreateSeriesRequest) :
    (env.fails DBCall.seriesSelect = false →
      (∃ s ∈ st.series, s.hasKey emitterID req.ptoFacDF req.docKind = true ∧
        s.isActive = true) →
      (EmitterRepository.CreateSeries env st emitterID req).1 =
        Except.error (Error.seriesAlreadyExists emitterID req.ptoFacDF req.docKind) ∧
      (EmitterRepository.CreateSeries env st emitterID req).2.series = st.series ∧
      (env.fails DBCall.emitterSelectByID = false →
        (∃ e ∈ st.emitters, e.id = emitterID ∧ e.isActive = true) →
        (API.CreateSeries env st emitterID req).1 = 409 ∧
        (API.CreateSeries env st emitterID req).2.series = st.series)) ∧
    (env.fails DBCall.seriesInsert = false →
      ((∀ s ∈ st.series, ¬ (s.hasKey emitterID req.ptoFacDF req.docKind = true ∧
          s.isActive = true)) ∨
        env.fails DBCall.seriesSelect = true) →
      ∃ series,
        (EmitterRepository.CreateSeries env st emitterID req).1 = Except.ok series ∧
        series.hasKey emitterID req.ptoFacDF req.docKind = true ∧
        series.nextNumber = 1 ∧ series.issuedCount = 0 ∧ series.authorizedCount = 0 ∧
        series.rejectedCount = 0 ∧
        (EmitterRepository.CreateSeries env st emitterID req).2.series =
          st.series ++ [series]) := by
  constructor
  · intro hsel hex
    have hc := EmitterRepository.CreateSeries_conflict env st emitterID req hsel hex
    refine ⟨by rw [hc], by rw [hc]; rfl, ?_⟩
    intro hem hemitter
    have hfind : ∃ e, st.emitters.find? (fun e => decide (e.id = emitterID) && e.isActive) =
        some e := by
      cases hf : st.emitters.find? (fun e => decide (e.id = emitterID) && e.isActive) with
      | some e => exact ⟨e, rfl⟩
      | none =>
        obtain ⟨e, he, hid, ha⟩ := hemitter
        have := List.find?_eq_none.1 hf e he
        simp [hid, ha] at this
    obtain ⟨e, hfind⟩ := hfind
    have hc2 := EmitterRepository.CreateSeries_conflict env
      (st.record DBCall.emitterSelectByID) emitterID req hsel hex
    have hcontains := stringsContains_seriesAlreadyExists env emitterID req.ptoFacDF req.docKind
    simp only [API.CreateSeries, EmitterService.CreateSeries, EmitterRepository.GetByID, hem,
      Bool.false_eq_true, if_false, hfind, hc2, hcontains, if_true]
    exact ⟨trivial, rfl⟩
  · intro hins hcase
    rcases hcase with hnone | hsel
    · obtain ⟨h1, h2⟩ := EmitterRepository.CreateSeries_new env st emitterID req hins hnone
      refine ⟨_, h1, ?_, rfl, rfl, rfl, rfl, h2⟩
      simp [EmitterSeries.hasKey]
    · obtain ⟨h1, h2⟩ :=
        EmitterRepository.CreateSeries_lookup_failed env st emitterID req hsel hins
      refine ⟨_, h1, ?_, rfl, rfl, rfl, rfl, h2⟩
      simp [EmitterSeries.hasKey]

/-- Witness of C26 (amended) on the scenario: the existing active series gives the conflict
and 409; a new tuple gives a series numbered from 1. -/
theorem createSeries_active_conflict_else_insert_witness :
    ((EmitterRepository.CreateSeries scenarioEnv scenarioStore 1 scenarioSeriesRequest).1 =
        Except.error (Error.seriesAlreadyExists 1 "001" DocumentType.invoice) ∧
      (API.CreateSeries scenarioEnv scenarioStore 1 scenarioSeriesRequest).1 = 409 ∧
      (API.CreateSeries scenarioEnv scenarioStore 1 scenarioSeriesRequest).2.series =
        scenarioStore.series) ∧
    ∃ series,
      (EmitterRepository.CreateSeries scenarioEnv scenarioStore 1
        scenarioNewSeriesRequest).1 = Except.ok series ∧
      series.nextNumber = 1 ∧ series.issuedCount = 0 ∧ series.authorizedCount = 0 ∧
      series.rejectedCount = 0 ∧
      (EmitterRepository.CreateSeries scenarioEnv scenarioStore 1
        scenarioNewSeriesRequest).2.series = scenarioStore.series ++ [series] :=
  ⟨⟨((createSeries_active_conflict_else_insert scenarioEnv scenarioStore 1
        scenarioSeriesRequest).1 (by decide) (by decide)).1,
     (((createSeries_active_conflict_else_insert scenarioEnv scenarioStore 1
        scenarioSeriesRequest).1 (by decide) (by decide)).2.2 (by decide) (by decide)).1,
     (((createSeries_active_conflict_else_insert scenarioEnv scenarioStore 1
        scenarioSeriesRequest).1 (by decide) (by decide)).2.2 (by decide) (by decide)).2⟩,
   ((createSeries_active_conflict_else_insert scenarioEnv scenarioStore 1
      scenarioNewSeriesRequest).2 (by decide) (Or.inl (by decide))).elim
      fun series h => ⟨series, h.1, h.2.2.1, h.2.2.2.1, h.2.2.2.2.1, h.2.2.2.2.2.1,
        h.2.2.2.2.2.2⟩⟩

/-! ## Pages of the series list -/

theorem wrapInt_of_range (x : Int) (h1 : -9223372036854775808 ≤ x)
    (h2 : x < 9223372036854775808) : wrapInt x = x := by
  unfold wrapInt
  omega

/-- Without overflow, `slicePage` is the window of `pageSize` items that starts at
`(page - 1) * pageSize`. -/
theorem slicePage_window (items : List SeriesItem) (page pageSize : Int) (hp : 1 ≤ page)
    (hs : 1 ≤ pageSize) (hb : page * pageSize < 9223372036854775808) :
    slicePage items page pageSize =
      some ((items.drop ((page - 1) * pageSize).toNat).take pageSize.toNat) := by
  have hS0 : 0 ≤ (page - 1) * pageSize := mul_nonneg (by omega) (by omega)
  have hsum : (page - 1) * pageSize + pageSize = page * pageSize := by ring
  have hpage : page ≤ page * pageSize := by nlinarith
  have w1 : wrapInt (page - 1) = page - 1 := wrapInt_of_range _ (by omega) (by omega)
  have w2 : wrapInt ((page - 1) * pageSize) = (page - 1) * pageSize :=
    wrapInt_of_range _ (by omega) (by omega)
  have w3 : wrapInt ((page - 1) * pageSize + pageSize) = (page - 1) * pageSize + pageSize :=
    wrapInt_of_range _ (by omega) (by omega)
  simp only [slicePage, w1, w2, w3]
  generalize (page - 1) * pageSize = S at hS0 hsum
  by_cases hst : S ≥ (items.length : Int)
  · simp only [hst, if_true]
    have : items.drop S.toNat = [] := List.drop_eq_nil_of_le (by omega)
    rw [this, List.take_nil]
  · simp only [hst, if_false]
    by_cases hend : S + pageSize > (items.length : Int)
    · simp only [hend, if_true]
      have hcond : 0 ≤ S ∧ S ≤ (items.length : Int) := ⟨hS0, by omega⟩
      simp only [hcond, and_self, if_true]
      congr 1
      have hlen : (items.drop S.toNat).length = ((items.length : Int) - S).toNat := by
        rw [List.length_drop]; omega
      rw [List.take_of_length_le (by rw [hlen]), List.take_of_length_le (by rw [hlen]; omega)]
    · simp only [hend, if_false]
      have hcond : 0 ≤ S ∧ S ≤ S + pageSize := ⟨hS0, by omega⟩
      simp only [hcond, and_self, if_true]
      congr 2
      omega

/-- The windows of `ps` items at the offsets 0, `ps`, 2 `ps`, … put one after the other
are the list up to the last offset. -/
theorem windows_concat {α : Type} (items : List α) (ps n : Nat) :
    (List.range n).flatMap (fun k => (items.drop (k * ps)).take ps) = items.take (n * ps) := by
  induction n with
  | zero => simp
  | succ n ih =>
    rw [List.range_succ, List.flatMap_append, ih]
    simp only [List.flatMap_cons, List.flatMap_nil, List.append_nil]
    rw [Nat.succ_mul, List.take_add]

/-- C29, on the code.  `(page - 1) * pageSize` is computed in Go `int`: with page 2^62 + 1
and page size 2 it wraps to -2^63, the test `start >= total` does not catch it, and the
slice expression is out of range: `EmitterService.GetSeries` panics, also when called
through the handler, whose checks (page at least 1, page size in 1..100) these values
pass.  Without overflow (`page * pageSize < 2^63`) the result is the window of `pageSize`
items that starts at `(page - 1) * pageSize`, and the pages 1, 2, …, n put one after the
other are the whole list once n pages cover it. -/
theorem getSeries_page_overflow :
    slicePage scenarioSeriesItems overflowPage 2 = none ∧
    (EmitterService.GetSeries scenarioEnv scenarioStore 1 overflowPage 2).1 = none ∧
    (API.GetSeries scenarioEnv scenarioStore 1 overflowPage 2).1 = none ∧
    slicePage scenarioSeriesItems 2 2 =
      some [seriesItemOf { scenarioSeries with id := 12, ptoFacDF := "003", nextNumber := 9 }] ∧
    (∀ (items : List SeriesItem) (page pageSize : Int), 1 ≤ page → 1 ≤ pageSize →
      page * pageSize < 9223372036854775808 →
      slicePage items page pageSize =
        some ((items.drop ((page - 1) * pageSize).toNat).take pageSize.toNat)) ∧
    (∀ (items : List SeriesItem) (pageSize : Int) (n : Nat), 1 ≤ pageSize →
      (n : Int) * pageSize < 9223372036854775808 →
      (items.length : Int) ≤ n * pageSize →
      (List.range n).flatMap (fun k => (slicePage items ((k : Int) + 1) pageSize).getD []) =
        items) := by
  refine ⟨by decide, by decide, by decide, by decide, ?_, ?_⟩
  · intro items page pageSize hp hs hb
    exact slicePage_window items page pageSize hp hs hb
  · intro items pageSize n hs hb hcover
    have hwin : ∀ k ∈ List.range n,
        (slicePage items ((k : Int) + 1) pageSize).getD [] =
          (items.drop (k * pageSize.toNat)).take pageSize.toNat := by
      intro k hk
      have hkn : k < n := List.mem_range.1 hk
      have hkn2 : (k : Int) + 1 ≤ n := by omega
      have hb2 : ((k : Int) + 1) * pageSize < 9223372036854775808 := by nlinarith
      rw [slicePage_window items ((k : Int) + 1) pageSize (by omega) hs hb2]
      simp only [Option.getD_some, add_sub_cancel_right]
      have : ((k : Int) * pageSize).toNat = k * pageSize.toNat := by
        have h0 : 0 ≤ pageSize := by omega
        lift pageSize to Nat using h0
        simp only [Int.toNat_ofNat]
        exact_mod_cast Int.toNat_ofNat (k * pageSize)
      rw [this]
    rw [List.flatMap_congr hwin, windows_concat]
    apply List.take_of_length_le
    have h0 : 0 ≤ pageSize := by omega
    lift pageSize to Nat using h0
    simp only [Int.toNat_ofNat]
    exact_mod_cast hcover

/-! ## The answers of the create-invoice handler -/

theorem CustomerRepository.GetByID_logged (env : Env) (st : Store) (id : UUID) :
    (CustomerRepository.GetByID env st id).2 = st.record DBCall.customerSelectByID := by
  simp only [CustomerRepository.GetByID]
  split
  · rfl
  · split <;> rfl

theorem sendEmailDirect_le_one (env : Env) (st : Store) (invoice : Invoice) :
    (sendEmailDirect env st invoice).2 ≤ 1 := by
  simp only [sendEmailDirect]
  rcases CustomerRepository.GetByID env st invoice.customerID with ⟨r1, st1⟩
  cases r1 with
  | error e => simp
  | ok customer =>
    simp only
    rcases EmitterRepository.GetByID env st1 invoice.emitterID with ⟨r2, st2⟩
    cases r2 with
    | error e => simp
    | ok emitter =>
      simp only
      split <;> simp

/-- The goroutine when both of its lookups succeed and the update statement does not
fail: one call of `SendInvoiceEmail`, and the e-mail status of the invoice written. -/
theorem sendEmailDirect_sent (env : Env) (st : Store) (invoice : Invoice)
    (customer : Customer) (emitter : Emitter)
    (hc : (CustomerRepository.GetByID env st invoice.customerID).1 = Except.ok customer)
    (he : (EmitterRepository.GetByID env
      (CustomerRepository.GetByID env st invoice.customerID).2 invoice.emitterID).1 =
        Except.ok emitter)
    (hu : env.fails DBCall.invoiceUpdateEmailStatus = false) :
    (sendEmailDirect env st invoice).2 = 1 ∧
    (sendEmailDirect env st invoice).1.invoices = st.invoices.map (fun i =>
      if i.id = invoice.id then
        { i with emailStatus := (if env.sendFails invoice customer emitter = true
                   then EmailStatus.failed else EmailStatus.sent),
                 updatedAt := env.now }
      else i) ∧
    (sendEmailDirect env st invoice).1.emitters = st.emitters ∧
    (sendEmailDirect env st invoice).1.customers = st.customers ∧
    (sendEmailDirect env st invoice).1.series = st.series ∧
    (sendEmailDirect env st invoice).1.products = st.products ∧
    (sendEmailDirect env st invoice).1.invoiceItems = st.invoiceItems := by
  have hs1 := CustomerRepository.GetByID_logged env st invoice.customerID
  simp only [sendEmailDirect]
  rcases h1 : CustomerRepository.GetByID env st invoice.customerID with ⟨r1, st1⟩
  rw [h1] at hc he hs1
  simp only at hc he hs1
  subst hc
  have hs2 := EmitterRepository.GetByID_store env st1 invoice.emitterID
  simp only
  rcases h2 : EmitterRepository.GetByID env st1 invoice.emitterID with ⟨r2, st2⟩
  rw [h2] at he hs2
  simp only at he hs2
  subst he
  simp only
  have hdata : st2.invoices = st.invoices ∧ st2.emitters = st.emitters ∧
      st2.customers = st.customers ∧ st2.series = st.series ∧ st2.products = st.products ∧
      st2.invoiceItems = st.invoiceItems := by
    rw [hs2, hs1]
    exact ⟨rfl, rfl, rfl, rfl, rfl, rfl⟩
  obtain ⟨d1, d2, d3, d4, d5, d6⟩ := hdata
  cases hsend : env.sendFails invoice customer emitter with
  | true =>
    obtain ⟨f1, f2, f3, f4, f5, _⟩ :=
      InvoiceRepository.UpdateEmailStatus_frame env st2 invoice.id EmailStatus.failed
    have hw := InvoiceRepository.UpdateEmailStatus_written env st2 invoice.id
      EmailStatus.failed hu
    simp only [if_true]
    exact ⟨trivial, by rw [hw, d1], f1.trans d2, f2.trans d3, f3.trans d4, f4.trans d5,
      f5.trans d6⟩
  | false =>
    obtain ⟨f1, f2, f3, f4, f5, _⟩ :=
      InvoiceRepository.UpdateEmailStatus_frame env st2 invoice.id EmailStatus.sent
    have hw := InvoiceRepository.UpdateEmailStatus_written env st2 invoice.id
      EmailStatus.sent hu
    simp only [Bool.false_eq_true, if_false]
    exact ⟨trivial, by rw [hw, d1], f1.trans d2, f2.trans d3, f3.trans d4, f4.trans d5,
      f5.trans d6⟩

/-- `CreateInvoiceThenEmail` in terms of `CreateInvoice` and the goroutine. -/
theorem CreateInvoiceThenEmail_spec (env : Env) (st : Store) (emitterID : UUID)
    (req : CreateInvoiceRequest) (key : String) :
    (CreateInvoiceThenEmail env st emitterID req key).1 =
      (CreateInvoice env st emitterID req key).1 ∧
    (∀ e, (CreateInvoice env st emitterID req key).1 = Except.error e →
      (CreateInvoiceThenEmail env st emitterID req key).2 =
        ((CreateInvoice env st emitterID req key).2, 0)) ∧
    (∀ resp l, (CreateInvoice env st emitterID req key).1 = Except.ok resp →
      (createInvoiceLookups env st emitterID req key).1 = Except.ok l →
      (CreateInvoiceThenEmail env st emitterID req key).2 =
        if env.resendConfigured = true then
          sendEmailDirect env (CreateInvoice env st emitterID req key).2
            (invoiceOf env emitterID req key l)
        else ((CreateInvoice env st emitterID req key).2, 0)) := by
  simp only [CreateInvoiceThenEmail, CreateInvoice]
  rcases h1 : createInvoiceLookups env st emitterID req key with ⟨r1, st5⟩
  cases r1 with
  | error e =>
    simp only
    refine ⟨trivial, fun _ _ => trivial, ?_⟩
    intro resp l h; cases h
  | ok l =>
    simp only
    rcases h2 : createInvoiceFromTotals env st5 emitterID req key l with ⟨r2, st7⟩
    cases r2 with
    | error e =>
      simp only
      refine ⟨trivial, fun _ _ => trivial, ?_⟩
      intro resp l2 h; cases h
    | ok resp =>
      simp only
      refine ⟨?_, ?_, ?_⟩
      · split <;> rfl
      · intro e h; cases h
      · intro resp2 l2 _ hl
        simp only [Except.ok.injEq] at hl
        subst hl
        split <;> rfl

/-- C25. The goroutine that `CreateInvoice` starts after its response is built calls
`SendInvoiceEmail` at most once, and only after a successful creation: the answer of the
creation is the answer without the goroutine, and a call of `SendInvoiceEmail` implies
that this answer is a success.  After a success the goroutine works on the committed
invoice (the last row of the table, with the id of the response).  When the goroutine
reaches the send (its two lookups succeed) and the update statement does not fail, there
is exactly one call of `SendInvoiceEmail`; the rows with the invoice's id get e-mail
status FAILED when the send fails and SENT when it succeeds, and `updated_at`, every other
field, every other row and every other table stay as they were. -/
theorem email_sent_at_most_once (env : Env) (st : Store) (emitterID : UUID)
    (req : CreateInvoiceRequest) (key : String) :
    (CreateInvoiceThenEmail env st emitterID req key).1 =
      (CreateInvoice env st emitterID req key).1 ∧
    (CreateInvoiceThenEmail env st emitterID req key).2.2 ≤ 1 ∧
    ((CreateInvoiceThenEmail env st emitterID req key).2.2 = 1 →
      ∃ resp, (CreateInvoice env st emitterID req key).1 = Except.ok resp) ∧
    (∀ resp, (CreateInvoice env st emitterID req key).1 = Except.ok resp →
      ∃ inv : Invoice,
        (CreateInvoice env st emitterID req key).2.invoices = st.invoices ++ [inv] ∧
        inv.id = resp.id ∧
        (CreateInvoiceThenEmail env st emitterID req key).2 =
          if env.resendConfigured = true then
            sendEmailDirect env (CreateInvoice env st emitterID req key).2 inv
          else ((CreateInvoice env st emitterID req key).2, 0)) ∧
    (∀ (st1 : Store) (inv : Invoice) (customer : Customer) (emitter : Emitter),
      (CustomerRepository.GetByID env st1 inv.customerID).1 = Except.ok customer →
      (EmitterRepository.GetByID env (CustomerRepository.GetByID env st1 inv.customerID).2
        inv.emitterID).1 = Except.ok emitter →
      env.fails DBCall.invoiceUpdateEmailStatus = false →
      (sendEmailDirect env st1 inv).2 = 1 ∧
      (sendEmailDirect env st1 inv).1.invoices = st1.invoices.map (fun i =>
        if i.id = inv.id then
          { i with emailStatus := (if env.sendFails inv customer emitter = true
                     then EmailStatus.failed else EmailStatus.sent),
                   updatedAt := env.now }
        else i) ∧
      (sendEmailDirect env st1 inv).1.emitters = st1.emitters ∧
      (sendEmailDirect env st1 inv).1.customers = st1.customers ∧
      (sendEmailDirect env st1 inv).1.series = st1.series ∧
      (sendEmailDirect env st1 inv).1.products = st1.products ∧
      (sendEmailDirect env st1 inv).1.invoiceItems = st1.invoiceItems) := by
  obtain ⟨s1, s2, s3⟩ := CreateInvoiceThenEmail_spec env st emitterID req key
  obtain ⟨_, _, _, _, hokspec⟩ := CreateInvoice_spec env st emitterID req key
  have hcount : (CreateInvoiceThenEmail env st emitterID req key).2.2 ≤ 1 ∧
      ((CreateInvoiceThenEmail env st emitterID req key).2.2 = 1 →
        ∃ resp, (CreateInvoice env st emitterID req key).1 = Except.ok resp) := by
    cases hr : (CreateInvoice env st emitterID req key).1 with
    | error e =>
      rw [s2 e hr]
      exact ⟨by simp, fun h => by simp at h⟩
    | ok resp =>
      obtain ⟨l, hl, _⟩ := hokspec resp hr
      rw [s3 resp l hr hl]
      refine ⟨?_, fun _ => ⟨resp, rfl⟩⟩
      split
      · exact sendEmailDirect_le_one _ _ _
      · simp
  refine ⟨s1, hcount.1, hcount.2, ?_, ?_⟩
  · intro resp hr
    obtain ⟨l, hl, _, _, _, _, _, _, _, hresp, hinv, _⟩ := hokspec resp hr
    refine ⟨invoiceOf env emitterID req key l, hinv, ?_, s3 resp l hr hl⟩
    rw [hresp]; rfl
  · intro st1 inv customer emitter hc he hu
    exact sendEmailDirect_sent env st1 inv customer emitter hc he hu

theorem email_sent_at_most_once_witness :
    (CreateInvoiceThenEmail scenarioSendFails scenarioStore 1 (scenarioRequest (132 / 5))
      "").2.2 ≤ 1 ∧
    (CreateInvoiceThenEmail scenarioSendFails scenarioStore 1 (scenarioRequest (132 / 5))
      "").2.2 = 1 ∧
    (CreateInvoiceThenEmail scenarioSendFails scenarioStore 1 (scenarioRequest (132 / 5))
      "").2.1.invoices =
      [{ scenarioInvoice with emailStatus := EmailStatus.failed }] ∧
    (CreateInvoiceThenEmail scenarioEnv scenarioStore 1 (scenarioRequest (132 / 5))
      "").2.1.invoices =
      [{ scenarioInvoice with emailStatus := EmailStatus.sent }] :=
  ⟨(email_sent_at_most_once scenarioSendFails scenarioStore 1 (scenarioRequest (132 / 5))
      "").2.1, by decide!, by decide!, by decide!⟩

/-! ## The files answer when the artifacts exist -/

/-- C30. When an artifact row exists for the invoice and the metadata select does not
fail, `GetInvoiceFiles` answers the local links "/v1/invoices/{id}/files/xml" (for both
XML fields) and "/v1/invoices/{id}/files/pdf" with disposition "inline", and leaves the
relational store, the artifact table and the blob store exactly as they were; so a second
call in a row answers the same and leaves the state of the first. -/
theorem getInvoiceFiles_existing_row (env : Env) (st : Store) (fs : FileStore) (id : UUID)
    (hsel : env.fails DBCall.invoiceFilesSelect = false)
    (hrow : ∃ row ∈ fs.invoiceFiles, row.invoiceID = id) :
    GetInvoiceFiles env st fs id =
      (Except.ok
        { xmlFE := some ("/v1/invoices/" ++ env.uuidString id ++ "/files/xml"),
          xmlProtocolo := some ("/v1/invoices/" ++ env.uuidString id ++ "/files/xml"),
          cafePDFURL := some ("/v1/invoices/" ++ env.uuidString id ++ "/files/pdf"),
          disposition := "inline" }, st, fs) ∧
    GetInvoiceFiles env (GetInvoiceFiles env st fs id).2.1 (GetInvoiceFiles env st fs id).2.2 id =
      GetInvoiceFiles env st fs id := by
  obtain ⟨row, _, _, hget⟩ := GetByInvoiceID_found env fs id hsel hrow
  have h1 : GetInvoiceFiles env st fs id =
      (Except.ok
        { xmlFE := some ("/v1/invoices/" ++ env.uuidString id ++ "/files/xml"),
          xmlProtocolo := some ("/v1/invoices/" ++ env.uuidString id ++ "/files/xml"),
          cafePDFURL := some ("/v1/invoices/" ++ env.uuidString id ++ "/files/pdf"),
          disposition := "inline" }, st, fs) := by
    simp only [GetInvoiceFiles, hget, localFilesResponse]
  refine ⟨h1, ?_⟩
  rw [h1]
  exact h1

theorem getInvoiceFiles_existing_row_witness :
    (∃ row ∈ (GetInvoiceFiles scenarioEnv scenarioStoreWithInvoice emptyFiles
        100).2.2.invoiceFiles, row.invoiceID = 100) ∧
    GetInvoiceFiles scenarioEnv scenarioStoreWithInvoice
        (GetInvoiceFiles scenarioEnv scenarioStoreWithInvoice emptyFiles 100).2.2 100 =
      (Except.ok
        { xmlFE := some ("/v1/invoices/" ++ scenarioEnv.uuidString 100 ++ "/files/xml"),
          xmlProtocolo := some ("/v1/invoices/" ++ scenarioEnv.uuidString 100 ++ "/files/xml"),
          cafePDFURL := some ("/v1/invoices/" ++ scenarioEnv.uuidString 100 ++ "/files/pdf"),
          disposition := "inline" }, scenarioStoreWithInvoice,
        (GetInvoiceFiles scenarioEnv scenarioStoreWithInvoice emptyFiles 100).2.2) :=
  ⟨by decide!,
    (getInvoiceFiles_existing_row scenarioEnv scenarioStoreWithInvoice
      (GetInvoiceFiles scenarioEnv scenarioStoreWithInvoice emptyFiles 100).2.2 100
      (by decide) (by decide!)).1⟩

end Billing
